import Mathlib

/-!
# BetterYourself: the AI reflection service

A shallow embedding of `backend/services/aiReflectionService.js` (class
`AIReflectionService`) and of the parts of `backend/server.js` that call it.

Conventions of the embedding

* A JavaScript string is a Lean `String`.  `String.prototype.includes` is
  embedded as `includes` (a needle occurs at some offset of the haystack).
  `String.prototype.toLowerCase` is a builtin of the JavaScript runtime and is
  taken as a field of `Runtime`; theorems hold for every such function.
* A value of unknown shape that arrives in a JSON request body is a `JSVal`;
  the conversion `ToString` throws on an object that has a property named
  `toString` (`JSVal.convertible`).
* A JavaScript `Map` is an association list in insertion order (`mapGet`,
  `mapSet`).
* Objects held in the maps are mutated in place by the source; the embedding
  threads the service state explicitly and writes the mutated object back
  under its key.
* A `throw` is `Except.error`; `createReflectionProfile`, which stores the
  profile before it can throw, carries the error in `ProfileCreation.thrown`.
* `new Date()`, `Math.random()`, `uuidv4()` and the upstream HTTP call are
  inputs of the operations that read them.  A value of `Math.random()` is a
  double (`Draw`), and its product with 3 is rounded as doubles are.
* Every method call is embedded as one atomic step; interleaving of requests at
  an `await` is outside the embedding.
-/

namespace BetterYourself

/-! ## JavaScript values -/

/-- A thrown JavaScript error, by constructor and message. -/
inductive JSError where
  | typeError (msg : String)
  | referenceError (msg : String)
  | error (msg : String)
  deriving DecidableEq, Repr

/-- The property `error.message` of a thrown error. -/
def JSError.message : JSError → String
  | .typeError msg => msg
  | .referenceError msg => msg
  | .error msg => msg

/-- A JSON value found in a field of a request body: `undefined` stands for a
missing field.  `num n` is the number with the integer value `n`, for an `n`
that `ToString` writes in decimal digits (`|n| < 10 ^ 21`); `float text` is any
other number (one that is not an integer, or a larger one), given by the text
that `ToString` gives for it.  `obj fields` is an object as `JSON.parse` builds
it, with its own properties: its prototype is `Object.prototype` and none of
its properties is a function. -/
inductive JSVal where
  | undefined
  | null
  | bool (b : Bool)
  | num (n : Int)
  | float (text : String)
  | str (s : String)
  | arr (xs : List JSVal)
  | obj (fields : List (String × JSVal))

namespace JSVal

/-- JavaScript truthiness (`ToBoolean`). -/
def truthy : JSVal → Bool
  | undefined => false
  | null => false
  | bool b => b
  | num n => n != 0
  | float _ => true
  | str s => s != ""
  | arr _ => true
  | obj _ => true

/-- The operator `a || b`. -/
def or (a b : JSVal) : JSVal := if a.truthy then a else b

/-- The test `Array.isArray(v)`. -/
def isArray : JSVal → Bool
  | arr _ => true
  | _ => false

/-- The test `typeof v === 'string'`. -/
def isString : JSVal → Bool
  | str _ => true
  | _ => false

mutual
/-- Whether the conversion `ToString` returns on the value.  On an object it
looks up `toString` and then `valueOf`: an own property `toString` of a parsed
object is not callable, and `valueOf`, own or inherited, gives no primitive, so
the conversion throws a `TypeError`; without an own property `toString` the
inherited `Object.prototype.toString` returns.  On an array it joins the
elements, converting each one. -/
def convertible : JSVal → Bool
  | arr xs => allConvertible xs
  | obj fields => !fields.any (fun field => field.1 == "toString")
  | _ => true
/-- Whether `ToString` returns on every element of a list. -/
def allConvertible : List JSVal → Bool
  | [] => true
  | x :: rest => convertible x && allConvertible rest
end

mutual
/-- The string that the conversion `ToString` returns, as applied by a template
literal, for a value on which it returns (see `convertible`). -/
def toStr : JSVal → String
  | undefined => "undefined"
  | null => "null"
  | bool b => if b then "true" else "false"
  | num n => toString n
  | float text => text
  | str s => s
  | arr xs => ",".intercalate (joinParts xs)
  | obj _ => "[object Object]"
/-- The pieces that `Array.prototype.join` concatenates: `undefined` and `null`
elements give the empty string, every other element its `ToString`. -/
def joinParts : List JSVal → List String
  | [] => []
  | undefined :: rest => "" :: joinParts rest
  | null :: rest => "" :: joinParts rest
  | x :: rest => toStr x :: joinParts rest
end

/-- The string that the call `xs.join(sep)` on an array returns, when it
returns (see `allConvertible`). -/
def join (xs : List JSVal) (sep : String) : String :=
  sep.intercalate (joinParts xs)

/-- The error that `ToString` throws on an object it cannot convert. -/
def cannotConvert : JSError :=
  .typeError "Cannot convert object to primitive value"

/-- The substitution `${v}` of a template literal: the string that `ToString`
returns, or the error it throws. -/
def interpolate (v : JSVal) : Except JSError String :=
  if v.convertible then .ok v.toStr else .error cannotConvert

/-- The substitution `${xs.join(sep)}` of a template literal, for an array
`xs`: the joined string, or the error that the conversion of an element
throws. -/
def interpolateJoin (xs : List JSVal) (sep : String) : Except JSError String :=
  if allConvertible xs then .ok (join xs sep) else .error cannotConvert

end JSVal

/-- The builtins of the JavaScript runtime that the service calls and that the
embedding does not define. -/
structure Runtime where
  /-- The method `String.prototype.toLowerCase`. -/
  toLowerCase : String → String

/-- The call `s.includes(k)`: `k` occurs in `s` starting at some offset. -/
def includes (s k : String) : Bool :=
  s.data.tails.any (fun t => k.data.isPrefixOf t)

/-- The call `s.startsWith(k)`. -/
def startsWith (s k : String) : Bool :=
  k.data.isPrefixOf s.data

/-! ## The data held by the service -/

/-- The object `profile.safetyFlags`; the counter is a natural number. -/
structure SafetyFlags where
  concerningMessages : Nat
  needsSupport : Bool
  deriving DecidableEq, Repr

/-- A profile object as built by `createReflectionProfile`. -/
structure Profile where
  id : String
  name : JSVal
  personalityTraits : List JSVal
  communicationStyle : JSVal
  interests : List JSVal
  supportStyle : JSVal
  goals : List JSVal
  writingSample : JSVal
  createdAt : Nat
  safetyFlags : SafetyFlags
  conversationCount : Nat

/-- The object `conversationEntry` pushed by `generateReflectionResponse`. -/
structure ConversationEntry where
  user : String
  ai : String
  timestamp : Nat
  mood : String
  deriving DecidableEq, Repr

/-- The call `m.get(k)` on a `Map` with string keys. -/
def mapGet {β : Type} : List (String × β) → String → Option β
  | [], _ => none
  | (k', v) :: rest, k => if k' = k then some v else mapGet rest k

/-- The call `m.set(k, v)`: an existing key keeps its position. -/
def mapSet {β : Type} : List (String × β) → String → β → List (String × β)
  | [], k, v => [(k, v)]
  | (k', v') :: rest, k, v =>
    if k' = k then (k, v) :: rest else (k', v') :: mapSet rest k v

/-- The fields of an `AIReflectionService` instance that the operations read
or write.  `apiKey` is `process.env.GOOGLE_AI_KEY` (`none` when unset). -/
structure Service where
  apiKey : Option String
  userProfiles : List (String × Profile)
  conversations : List (String × List ConversationEntry)

/-- The list `this.wellnessKeywords.concerning`. -/
def concerning : List String :=
  ["suicide", "kill myself", "end it all", "not worth living", "want to die",
   "self harm", "hurt myself", "cutting", "overdose", "hopeless"]

/-- The object `moodMap` of `detectMood`, as `Object.entries` lists it. -/
def moodMap : List (String × List String) :=
  [("sad", ["sad", "down", "depressed", "lonely", "empty", "blue"]),
   ("frustrated", ["angry", "frustrated", "mad", "annoyed", "irritated", "upset"]),
   ("happy", ["happy", "excited", "great", "amazing", "wonderful", "fantastic", "joy"]),
   ("anxious", ["worried", "anxious", "stress", "nervous", "scared", "overwhelmed"]),
   ("uncertain", ["confused", "lost", "unsure", "don't know", "unclear", "stuck"]),
   ("grateful", ["grateful", "thankful", "blessed", "appreciate", "lucky"]),
   ("motivated", ["motivated", "inspired", "determined", "focused", "driven"])]

/-! ## Keyword classifier -/

/-- The test `keywords.some(keyword => msg.includes(keyword))`. -/
def someIncluded (msg : String) (keywords : List String) : Bool :=
  keywords.any (fun keyword => includes msg keyword)

/-- The `for ... of Object.entries(moodMap)` loop of `detectMood`, with its
`return mood` inside and `return 'neutral'` after it. -/
def detectMoodLoop (msg : String) : List (String × List String) → String
  | [] => "neutral"
  | (mood, keywords) :: rest =>
    if someIncluded msg keywords then mood else detectMoodLoop msg rest

/-- The method `detectMood(message)`. -/
def detectMood (rt : Runtime) (message : String) : String :=
  detectMoodLoop (rt.toLowerCase message) moodMap

/-- The object returned by `performSafetyCheck`. -/
structure SafetyCheck where
  needsIntervention : Bool
  concernLevel : String
  deriving DecidableEq, Repr

/-- The `for (const keyword of ...concerning)` loop of `performSafetyCheck`:
the state is the two local variables and the profile; the matching branch ends
the loop (`break`). -/
def safetyLoop (msg : String) :
    List String → SafetyCheck × Profile → SafetyCheck × Profile
  | [], st => st
  | keyword :: rest, (check, profile) =>
    if includes msg keyword then
      ({ needsIntervention := true, concernLevel := "high" },
       { profile with
         safetyFlags :=
           { concerningMessages := profile.safetyFlags.concerningMessages + 1
             needsSupport := true } })
    else safetyLoop msg rest (check, profile)

/-- The method `performSafetyCheck(message, profile)`: the returned object and
the profile after the call. -/
def performSafetyCheck (rt : Runtime) (message : String) (profile : Profile) :
    SafetyCheck × Profile :=
  safetyLoop (rt.toLowerCase message) concerning
    ({ needsIntervention := false, concernLevel := "low" }, profile)

/-! ## Canned replies and suggestions -/

/-- The method `generateSuggestions(mood)`: `suggestions[mood] || [...]`, for a
label that is not the name of a member of `Object.prototype`. -/
def generateSuggestions (mood : String) : List String :=
  if mood = "sad" then
    ["Tell me more about that feeling", "What would bring you comfort?",
     "What's one small thing that might help?"]
  else if mood = "frustrated" then
    ["What's the core of this frustration?", "How can we channel this energy?",
     "What would resolution look like?"]
  else if mood = "happy" then
    ["What made this moment special?", "How can you create more joy?",
     "What are you most grateful for?"]
  else if mood = "anxious" then
    ["What feels manageable right now?", "Let's break this down together",
     "What would help you feel grounded?"]
  else if mood = "uncertain" then
    ["What do you know for sure?", "What's your intuition telling you?",
     "What's one small next step?"]
  else if mood = "grateful" then
    ["What else brings you joy?", "How can you share this feeling?",
     "What are you looking forward to?"]
  else if mood = "motivated" then
    ["What's driving this energy?", "How will you maintain this momentum?",
     "What's your next goal?"]
  else
    ["What's your inner wisdom telling you?", "Tell me more about that",
     "How are you feeling about this?"]

/-- The method `generateFallbackResponse(profile, message, mood)`:
`moodResponses[mood] || moodResponses.neutral`, for a label that is not the
name of a member of `Object.prototype`.  `name` is the string that the
conversion of `profile.name` returns; `generateReflectionResponse` calls the
method only after `buildReflectionPrompt` has converted the same value. -/
def generateFallbackResponse (profile : Profile) (_message : String) (mood : String) :
    String :=
  let name := profile.name.toStr
  let neutral :=
    "I hear you, and your " ++ name ++
      " is here to listen and reflect with you on whatever you're experiencing."
  if mood = "sad" then
    "I can sense the heaviness in your words. Remember, " ++ name ++
      " believes in your strength, even when it's hard to see."
  else if mood = "frustrated" then
    "That frustration sounds intense. Your " ++ name ++
      " knows you have the wisdom to work through this challenge."
  else if mood = "happy" then
    "I can feel the joy in your message! Your " ++ name ++
      " celebrates these bright moments with you."
  else if mood = "anxious" then
    "Those worries feel big right now. Let your " ++ name ++
      " remind you that you've overcome difficulties before."
  else neutral

/-- The method `getFallbackResponse(mood)`: `fallbacks[mood] || fallbacks.neutral`,
for a label that is not the name of a member of `Object.prototype`. -/
def getFallbackResponse (mood : String) : String :=
  if mood = "sad" then
    "I'm here with you in this difficult moment. Your feelings are valid, and you don't have to face this alone."
  else if mood = "frustrated" then
    "That frustration is real and understandable. Sometimes taking a breath can help us see new possibilities."
  else if mood = "happy" then
    "I love seeing this joy in you! These positive moments are treasures to hold onto."
  else if mood = "anxious" then
    "Those anxious feelings are tough to carry. Remember that you have inner strength, even when it doesn't feel that way."
  else
    "I'm here with you, ready to listen and reflect together on whatever is on your mind."

/-- The object returned by `generateReflectionResponse`; a field the returned
object literal does not have is `none`. -/
structure ReflectionResult where
  success : Bool
  response : Option String := none
  profileName : Option JSVal := none
  conversationCount : Option Nat := none
  mood : Option String := none
  suggestions : Option (List String) := none
  needsSupport : Option Bool := none
  error : Option String := none
  fallbackResponse : Option String := none

/-- The array `supportResponses` of `generateSupportResponse`. -/
def supportResponses : List String :=
  ["I'm really concerned about what you've shared. Your feelings matter, and you don't have to go through this alone. Please consider reaching out to a mental health professional or a crisis helpline.",
   "What you're going through sounds incredibly difficult. Please know that help is available, and things can get better. Consider calling the 988 Suicide & Crisis Lifeline (dial 988) or text 'HELLO' to 741741.",
   "I hear your pain, and I want you to know that you matter. This feeling doesn't have to be permanent. Please reach out to someone who can help - a counselor, trusted friend, or crisis support line."]

/-- The `suggestions` array literal of `generateSupportResponse`. -/
def supportSuggestions : List String :=
  ["Tell me about your support system", "What helps you feel safe?",
   "Can you reach out to someone today?"]

/-- A value that `Math.random()` can return: a double that is at least 0 and
below 1, written as `mantissa / 2 ^ exponent` with a mantissa of at most 53
bits. -/
structure Draw where
  mantissa : Nat
  exponent : Nat
  mantissa_lt : mantissa < 2 ^ 53
  exponent_le : exponent ≤ 1074
  lt_one : mantissa < 2 ^ exponent

/-- The draw 0. -/
def Draw.zero : Draw :=
  { mantissa := 0, exponent := 0, mantissa_lt := by norm_num, exponent_le := by norm_num,
    lt_one := by norm_num }

/-- The draw 1/2. -/
def Draw.half : Draw :=
  { mantissa := 1, exponent := 1, mantissa_lt := by norm_num, exponent_le := by norm_num,
    lt_one := by norm_num }

/-- The draw `6004799503160661 / 2 ^ 53`, the double next below 2/3. -/
def Draw.belowTwoThirds : Draw :=
  { mantissa := 6004799503160661, exponent := 53, mantissa_lt := by norm_num,
    exponent_le := by norm_num, lt_one := by norm_num }

/-- The number of bits that `n` has beyond 53: how often `n` is halved until it
is below `2 ^ 53`; `fuel` bounds the number of halvings. -/
def excessBits : Nat → Nat → Nat
  | 0, _ => 0
  | fuel + 1, n => if n < 2 ^ 53 then 0 else excessBits fuel (n / 2) + 1

/-- Rounding to a double (53 significant bits, to nearest, ties to even), as the
multiplication of two doubles rounds its exact product: for the exact value
`numerator / 2 ^ k` with `k ≤ 1074`, the numerator of the rounded value over the
same `2 ^ k`. -/
def roundToDouble (numerator : Nat) : Nat :=
  let unit := 2 ^ excessBits numerator numerator
  let quotient := numerator / unit
  let rest := numerator % unit
  if 2 * rest < unit then quotient * unit
  else if unit < 2 * rest then (quotient + 1) * unit
  else if quotient % 2 = 0 then quotient * unit
  else (quotient + 1) * unit

/-- The index `Math.floor(Math.random() * supportResponses.length)`, for the
draw `random` of `Math.random()`: the product is rounded to a double and
`Math.floor` takes its integer part. -/
def supportIndex (random : Draw) : Nat :=
  roundToDouble (random.mantissa * supportResponses.length) / 2 ^ random.exponent

/-- The method `generateSupportResponse(profile, safetyCheck)`, for the draw
`random` of `Math.random()`.  Indexing an array out of bounds gives
`undefined`, here `none`. -/
def generateSupportResponse (random : Draw) (_profile : Profile) (_safetyCheck : SafetyCheck) :
    ReflectionResult :=
  { success := true
    response := supportResponses[supportIndex random]?
    mood := some "concerning"
    suggestions := some supportSuggestions
    needsSupport := some true }

/-! ## Prompt builder -/

/-- The call `xs.slice(-n)`: the last `n` elements. -/
def sliceLast {α : Type} (n : Nat) (xs : List α) : List α :=
  xs.drop (xs.length - n)

/-- The constant `recentHistory` of `buildReflectionPrompt`. -/
def recentHistory (conversations : List ConversationEntry) : String :=
  "\n\n".intercalate
    ((sliceLast 6 conversations).map
      (fun conv => "User: " ++ conv.user ++ "\nReflection: " ++ conv.ai))

/-- The call `v.substring(0, n)`: defined on strings only; on any other value
the property read or the call throws a `TypeError`.  The first `n` characters
are taken, which are the first `n` UTF-16 code units when the string has no
character outside the Basic Multilingual Plane. -/
def substringTo (v : JSVal) (n : Nat) : Except JSError String :=
  match v with
  | .str s => .ok (String.mk (s.data.take n))
  | .undefined => .error (.typeError "Cannot read properties of undefined (reading 'substring')")
  | .null => .error (.typeError "Cannot read properties of null (reading 'substring')")
  | _ => .error (.typeError "profile.writingSample.substring is not a function")

/-- The method `buildReflectionPrompt(profile, message, mood, conversations)`:
the prompt it returns, or the error it throws.  The template literal evaluates
and converts its substitutions from left to right, so the first one that throws
ends the call: the conversion of `profile.name`, of an element of
`personalityTraits`, of `communicationStyle`, of an element of `interests`, of
`supportStyle`, of an element of `goals`, or the call of `substring` on
`profile.writingSample`. -/
def buildReflectionPrompt (profile : Profile) (message : String) (mood : String)
    (conversations : List ConversationEntry) : Except JSError String :=
  let history := recentHistory conversations
  match profile.name.interpolate with
  | .error e => .error e
  | .ok name =>
  match JSVal.interpolateJoin profile.personalityTraits ", " with
  | .error e => .error e
  | .ok traits =>
  match profile.communicationStyle.interpolate with
  | .error e => .error e
  | .ok style =>
  match JSVal.interpolateJoin profile.interests ", " with
  | .error e => .error e
  | .ok interests =>
  match profile.supportStyle.interpolate with
  | .error e => .error e
  | .ok support =>
  match JSVal.interpolateJoin profile.goals ", " with
  | .error e => .error e
  | .ok goals =>
  match substringTo profile.writingSample 200 with
  | .error e => .error e
  | .ok sample =>
    .ok ("You are \"" ++ name ++
      "\" - an AI reflection and inner wisdom guide for this person.\n\n" ++
      "PERSONALITY PROFILE:\n" ++
      "- Traits: " ++ traits ++ "\n" ++
      "- Communication Style: " ++ style ++ "\n" ++
      "- Interests: " ++ interests ++ "\n" ++
      "- Support Style: " ++ support ++ "\n" ++
      "- Goals: " ++ goals ++ "\n\n" ++
      "CONTEXT:\n" ++
      "- Current mood detected: " ++ mood ++ "\n" ++
      "- Writing sample: \"" ++ sample ++ "...\"\n\n" ++
      "RECENT CONVERSATION:\n" ++ history ++ "\n\n" ++
      "CURRENT MESSAGE: \"" ++ message ++ "\"\n\n" ++
      "INSTRUCTIONS:\n" ++
      "Respond as their wise inner voice with 2-4 sentences. Be supportive, insightful, and personalized to their profile. Match their communication style while offering gentle guidance and reflection. Focus on their growth and wellbeing.\n\n" ++
      "Response:")

/-! ## Reflection orchestrator -/

/-- The outcome of `await this.callOpenRouterAPI(prompt)` for each prompt: the
reply text, or the error it throws. -/
abbrev Upstream := String → Except JSError String

/-- Truthiness of `this.apiKey`: set and not the empty string. -/
def Service.hasApiKey (s : Service) : Bool :=
  match s.apiKey with
  | some k => k != ""
  | none => false

/-- Truthiness of `this.isOpenRouterKey`, which the constructor sets to
`this.apiKey && this.apiKey.startsWith('sk-or-v1-')` and nothing reassigns. -/
def Service.isOpenRouterKey (s : Service) : Bool :=
  match s.apiKey with
  | some k => k != "" && startsWith k "sk-or-v1-"
  | none => false

/-- The constructor: empty maps; the key comes from the environment. -/
def Service.new (apiKey : Option String) : Service :=
  { apiKey := apiKey, userProfiles := [], conversations := [] }

/-- The handler of the outer `try`/`catch` of `generateReflectionResponse`.
The object literal it returns has the field
`fallbackResponse: this.getFallbackResponse(mood || 'neutral')`.  The name
`mood` is declared with `const` inside the `try` block, so it is not in scope
in the handler and no outer scope declares it: evaluating it throws a
`ReferenceError`, and the handler returns nothing. -/
def responseGenerationFailed (_error : JSError) : Except JSError ReflectionResult :=
  .error (.referenceError "mood is not defined")

/-- The inner `try`/`catch` of `generateReflectionResponse`: the reply text. -/
def generateReply (up : Upstream) (s : Service) (profile : Profile)
    (userMessage mood reflectionPrompt : String) : String :=
  if !s.hasApiKey || !s.isOpenRouterKey then
    generateFallbackResponse profile userMessage mood
  else
    match up reflectionPrompt with
    | .ok response => response
    | .error _ => generateFallbackResponse profile userMessage mood

/-- The method `generateReflectionResponse(profileId, userMessage)`: what the
call returns or throws, and the service after it.  `now` is the value of
`new Date()` and `random` the draw of `Math.random()`. -/
def generateReflectionResponse (rt : Runtime) (up : Upstream) (now : Nat) (random : Draw)
    (s : Service) (profileId userMessage : String) :
    Except JSError ReflectionResult × Service :=
  match mapGet s.userProfiles profileId with
  | none => (.ok { success := false, error := some "Profile not found" }, s)
  | some profile =>
    let stored := mapGet s.conversations profileId
    let conversations := stored.getD []
    let mood := detectMood rt userMessage
    let (safetyCheck, profile) := performSafetyCheck rt userMessage profile
    let s := { s with userProfiles := mapSet s.userProfiles profileId profile }
    if safetyCheck.needsIntervention then
      (.ok (generateSupportResponse random profile safetyCheck), s)
    else
      match buildReflectionPrompt profile userMessage mood conversations with
      | .error e => (responseGenerationFailed e, s)
      | .ok reflectionPrompt =>
        let response := generateReply up s profile userMessage mood reflectionPrompt
        let conversationEntry : ConversationEntry :=
          { user := userMessage, ai := response, timestamp := now, mood := mood }
        let conversations := conversations ++ [conversationEntry]
        let profile := { profile with conversationCount := conversations.length / 2 }
        let s :=
          { s with
            userProfiles := mapSet s.userProfiles profileId profile
            conversations :=
              match stored with
              | some _ => mapSet s.conversations profileId conversations
              | none => s.conversations }
        (.ok { success := true
               response := some response
               profileName := some profile.name
               conversationCount := some profile.conversationCount
               mood := some mood
               suggestions := some (generateSuggestions mood) }, s)

/-! ## Profile creation and the admin methods -/

/-- The object `userData.responses`, field by field (`undefined` when the
field is missing). -/
structure Responses where
  name : JSVal := .undefined
  personality_traits : JSVal := .undefined
  communication_style : JSVal := .undefined
  interests : JSVal := .undefined
  support_style : JSVal := .undefined
  goals : JSVal := .undefined
  writing_sample : JSVal := .undefined

/-- The request body `userData`, field by field.  `responses` is `none` when
the field is missing, `null`, or not an object. -/
structure UserData where
  name : JSVal := .undefined
  personalityTraits : JSVal := .undefined
  communicationStyle : JSVal := .undefined
  interests : JSVal := .undefined
  supportStyle : JSVal := .undefined
  goals : JSVal := .undefined
  writingSample : JSVal := .undefined
  responses : Option Responses := none

/-- The expression `userData.responses?.field`. -/
def UserData.nested (userData : UserData) (field : Responses → JSVal) : JSVal :=
  match userData.responses with
  | some r => field r
  | none => .undefined

/-- The code points that `String.prototype.trim` removes: ECMAScript
`WhiteSpace` and `LineTerminator`. -/
def isTrimmed (c : Char) : Bool :=
  c.toNat ∈ [0x9, 0xA, 0xB, 0xC, 0xD, 0x20, 0xA0, 0x1680, 0x2000, 0x2001, 0x2002,
    0x2003, 0x2004, 0x2005, 0x2006, 0x2007, 0x2008, 0x2009, 0x200A, 0x2028, 0x2029,
    0x202F, 0x205F, 0x3000, 0xFEFF]

/-- The call `s.trim()`, on the characters of `s`. -/
def trim (cs : List Char) : List Char :=
  ((cs.dropWhile isTrimmed).reverse.dropWhile isTrimmed).reverse

/-- The expression `s.split(',').map(i => i.trim()).filter(i => i.length > 0)`. -/
def splitTrimmed (s : String) : List String :=
  (((s.data.splitOn ',').map trim).filter (fun i => i.length > 0)).map String.mk

/-- The method `extractTraits(userData)`. -/
def extractTraits (userData : UserData) : List JSVal :=
  match userData.personalityTraits.or (userData.nested (·.personality_traits)) with
  | .arr traits => traits
  | _ => [.str "thoughtful", .str "growth-oriented"]

/-- The method `analyzeCommunicationStyle(userData)`. -/
def analyzeCommunicationStyle (userData : UserData) : JSVal :=
  (userData.communicationStyle.or (userData.nested (·.communication_style))).or
    (.str "warm and encouraging")

/-- The method `extractInterests(userData)`. -/
def extractInterests (userData : UserData) : List JSVal :=
  match userData.interests.or (userData.nested (·.interests)) with
  | .str interests => (splitTrimmed interests).map JSVal.str
  | .arr interests => interests
  | _ => [.str "personal growth", .str "wellbeing"]

/-- The method `extractGoals(userData)`. -/
def extractGoals (userData : UserData) : List JSVal :=
  match userData.goals.or (userData.nested (·.goals)) with
  | .str goals => (splitTrimmed goals).map JSVal.str
  | .arr goals => goals
  | _ => [.str "continuous improvement"]

/-- What a call of `createReflectionProfile` does: the object `profile` that it
builds and stores, the service after the call, and the error that the call
throws, if any; with `thrown = none` the call returns `profile`. -/
structure ProfileCreation where
  profile : Profile
  service : Service
  thrown : Option JSError

/-- The method `createReflectionProfile(userData)`.  `uuid` is the value of
`uuidv4()` and `now` that of `new Date()`.  After the two `set` calls the log
statement interpolates `${profile.name}`: when that conversion throws, the
handler of the `try` block throws a new `Error`, and the profile and its empty
history stay stored.  No other statement of the `try` block throws. -/
def createReflectionProfile (uuid : String) (now : Nat) (s : Service)
    (userData : UserData) : ProfileCreation :=
  let profileId := uuid
  let profile : Profile :=
    { id := profileId
      name := (userData.name.or (userData.nested (·.name))).or (.str "Your Reflection")
      personalityTraits := extractTraits userData
      communicationStyle := analyzeCommunicationStyle userData
      interests := extractInterests userData
      supportStyle :=
        (userData.supportStyle.or (userData.nested (·.support_style))).or
          (.str "empathetic listener")
      goals := extractGoals userData
      writingSample :=
        (userData.writingSample.or (userData.nested (·.writing_sample))).or (.str "")
      createdAt := now
      safetyFlags := { concerningMessages := 0, needsSupport := false }
      conversationCount := 0 }
  { profile := profile
    service :=
      { s with
        userProfiles := mapSet s.userProfiles profileId profile
        conversations := mapSet s.conversations profileId [] }
    thrown :=
      match profile.name.interpolate with
      | .ok _ => none
      | .error error =>
        some (.error ("Failed to create reflection profile: " ++ error.message)) }

/-- The method `getUserProfile(profileId)`; it writes nothing. -/
def getUserProfile (s : Service) (profileId : String) : Option Profile :=
  mapGet s.userProfiles profileId

/-- The summary object that `getAllProfiles` builds for one profile. -/
structure ProfileSummary where
  id : String
  name : JSVal
  createdAt : Nat
  conversationCount : Nat
  traits : List JSVal

/-- The method `getAllProfiles()`; it writes nothing. -/
def getAllProfiles (s : Service) : List ProfileSummary :=
  (s.userProfiles.map Prod.snd).map fun profile =>
    { id := profile.id
      name := profile.name
      createdAt := profile.createdAt
      conversationCount := profile.conversationCount
      traits := profile.personalityTraits }

/-! ## The create-profile route of `server.js` -/

/-- The object `profile` in the body that the create-profile route sends on
success. -/
structure CreatedProfile where
  id : String
  name : JSVal
  traits : List JSVal
  style : JSVal
  interests : List JSVal
  createdAt : Nat

/-- The HTTP status and the JSON body that the create-profile route sends; a
field the body does not have is `none`. -/
structure CreateProfileReply where
  status : Nat
  success : Bool
  error : Option String := none
  message : Option String := none
  profile : Option CreatedProfile := none

/-- The handler of `POST /api/ai-reflection/create-profile`, for the request
body `userData`: the reply it sends and the service after it.  `uuid` and `now`
are the values that `uuidv4()` and `new Date()` give when the service method is
called.  When the service method throws, the handler's `catch` block replies
with status 500.  When it returns, the message interpolates `${profile.name}`,
which the service method has converted before, so the conversion returns. -/
def createProfileRoute (uuid : String) (now : Nat) (s : Service) (userData : UserData) :
    CreateProfileReply × Service :=
  if !userData.name.truthy && !(userData.nested (·.name)).truthy then
    ({ status := 400, success := false, error := some "Name is required" }, s)
  else
    let created := createReflectionProfile uuid now s userData
    match created.thrown with
    | some error =>
      ({ status := 500
         success := false
         error := some ("Could not create AI reflection profile: " ++ error.message) },
       created.service)
    | none =>
      let profile := created.profile
      ({ status := 200
         success := true
         message :=
           some ("🎭 Your AI reflection \"" ++ profile.name.toStr ++ "\" is ready to chat!")
         profile :=
           some { id := profile.id
                  name := profile.name
                  traits := profile.personalityTraits
                  style := profile.communicationStyle
                  interests := profile.interests
                  createdAt := profile.createdAt } }, created.service)

/-! ## The upstream client -/

/-- A JSON value as `response.json()` parses it from the body of the upstream
response; an object holds each of its keys once. -/
inductive Json where
  | null
  | bool (b : Bool)
  | num (n : Int)
  | str (s : String)
  | arr (items : List Json)
  | obj (fields : List (String × Json))

namespace Json

/-- JavaScript truthiness (`ToBoolean`). -/
def truthy : Json → Bool
  | null => false
  | bool b => b
  | num n => n != 0
  | str s => s != ""
  | arr _ => true
  | obj _ => true

/-- The property read `v.key` on a value other than `null`, for one of the
keys `choices`, `message` and `content`, which only an object can have;
`none` is `undefined`. -/
def field (v : Json) (key : String) : Option Json :=
  match v with
  | obj fields => fields.lookup key
  | _ => none

/-- The element read `v[0]` on a value other than `null`: the first element of
an array, the value under the key `0` of an object, the first character of a
string; `none` is `undefined`. -/
def first (v : Json) : Option Json :=
  match v with
  | arr items => items.head?
  | obj fields => fields.lookup "0"
  | str s => s.data.head?.map (fun c => str (String.mk [c]))
  | _ => none

end Json

/-- What `await fetch(...)` and `await response.json()` give for one request:
the request is rejected (network failure), or a response arrives with its `ok`
flag, status and status text, and a body that parses to a JSON value or makes
`response.json()` throw. -/
inductive FetchOutcome where
  | rejected (error : JSError)
  | responded (ok : Bool) (status : Nat) (statusText : String) (body : Except JSError Json)

/-- The error thrown when the body lacks the expected fields. -/
def invalidResponseFormat : JSError :=
  .error "Invalid response format from OpenRouter API"

/-- The method `callOpenRouterAPI(prompt)`, for the outcome of the request it
sends: the text it returns or the error it throws.  Its `catch` block logs
the error and throws it again. -/
def callOpenRouterAPI (outcome : FetchOutcome) : Except JSError String :=
  match outcome with
  | .rejected error => .error error
  | .responded ok status statusText body =>
    if !ok then
      .error (.error ("OpenRouter API error: " ++ toString status ++ " " ++ statusText))
    else
      match body with
      | .error error => .error error
      | .ok .null =>
        .error (.typeError "Cannot read properties of null (reading 'choices')")
      | .ok data =>
        match data.field "choices" with
        | none => .error invalidResponseFormat
        | some choices =>
          if !choices.truthy then .error invalidResponseFormat
          else
            match choices.first with
            | none => .error invalidResponseFormat
            | some firstChoice =>
              if !firstChoice.truthy then .error invalidResponseFormat
              else
                match firstChoice.field "message" with
                | none => .error invalidResponseFormat
                | some message =>
                  if !message.truthy then .error invalidResponseFormat
                  else
                    match message.field "content" with
                    | some (.str content) => .ok (String.mk (trim content.data))
                    | none =>
                      .error (.typeError
                        "Cannot read properties of undefined (reading 'trim')")
                    | some .null =>
                      .error (.typeError "Cannot read properties of null (reading 'trim')")
                    | some _ =>
                      .error (.typeError
                        "data.choices[0].message.content.trim is not a function")

/-- The upstream of the service when `fetch` gives, for the request that carries
a prompt, the outcome `fetch prompt`. -/
def upstreamOf (fetch : String → FetchOutcome) : Upstream :=
  fun prompt => callOpenRouterAPI (fetch prompt)

/-! ## The chat route and the health route of `server.js` -/

/-- The fields `profileId` and `message` of the body of a chat request. -/
structure ChatRequest where
  profileId : JSVal := .undefined
  message : JSVal := .undefined

/-- The HTTP status and the JSON body that the chat route sends; a field that
the body does not have, or whose value is `undefined`, is `none`. -/
structure ChatReply where
  status : Nat
  success : Bool
  response : Option String := none
  profileName : Option JSVal := none
  conversationCount : Option Nat := none
  mood : Option String := none
  suggestions : Option (List String) := none
  timestamp : Option Nat := none
  error : Option String := none
  fallbackResponse : Option String := none

/-- The expression `message?.trim()`: `undefined` (here `none`) for a missing
or `null` message, the trimmed text for a string, and a `TypeError` for any
other value, which has no method `trim`. -/
def optionalTrim (message : JSVal) : Except JSError (Option String) :=
  match message with
  | .undefined => .ok none
  | .null => .ok none
  | .str text => .ok (some (String.mk (trim text.data)))
  | _ => .error (.typeError "message?.trim is not a function")

/-- The reply that the `catch` block of the chat route sends. -/
def chatFailure (error : JSError) : ChatReply :=
  { status := 500
    success := false
    error := some ("Could not process your message: " ++ error.message)
    fallbackResponse :=
      some "I'm here with you, even when words are hard to find. What's on your heart?" }

/-- The call `aiReflection.generateReflectionResponse(profileId, text)` of the
chat route, for a truthy `profileId` of the body: an identifier that is not a
string is the key of no profile. -/
def respondTo (rt : Runtime) (up : Upstream) (now : Nat) (random : Draw) (s : Service)
    (profileId : JSVal) (text : String) : Except JSError ReflectionResult × Service :=
  match profileId with
  | .str id => generateReflectionResponse rt up now random s id text
  | _ => (.ok { success := false, error := some "Profile not found" }, s)

/-- The handler of `POST /api/ai-reflection/chat`, for the request body `body`:
the reply it sends and the service after it.  `sent` is the value of
`new Date()` in the handler.  Its two log statements interpolate
`${profileId}` and `${message}` before anything else is done. -/
def chatRoute (rt : Runtime) (up : Upstream) (now : Nat) (random : Draw) (sent : Nat)
    (s : Service) (body : ChatRequest) : ChatReply × Service :=
  match body.profileId.interpolate with
  | .error error => (chatFailure error, s)
  | .ok _ =>
  match body.message.interpolate with
  | .error error => (chatFailure error, s)
  | .ok _ =>
  match optionalTrim body.message with
  | .error error => (chatFailure error, s)
  | .ok none => ({ status := 400, success := false, error := some "Message is required" }, s)
  | .ok (some text) =>
    if text = "" then
      ({ status := 400, success := false, error := some "Message is required" }, s)
    else if !body.profileId.truthy then
      ({ status := 400, success := false, error := some "Profile ID is required" }, s)
    else
      match respondTo rt up now random s body.profileId text with
      | (.error error, s) => (chatFailure error, s)
      | (.ok result, s) =>
        if result.success then
          ({ status := 200
             success := true
             response := result.response
             profileName := result.profileName
             conversationCount := result.conversationCount
             mood := result.mood
             suggestions := result.suggestions
             timestamp := some sent }, s)
        else
          ({ status := 200
             success := false
             error := result.error
             fallbackResponse := result.fallbackResponse }, s)

/-- The JSON body that the health route sends. -/
structure HealthReply where
  status : String
  timestamp : Nat
  server : String
  aiReflection : String
  googleAI : String
  message : String

/-- The handler of `GET /api/health`, for the value `key` of
`process.env.GOOGLE_AI_KEY` (`none` when unset). -/
def healthRoute (key : Option String) (now : Nat) : HealthReply :=
  { status := "healthy"
    timestamp := now
    server := "MyBetterSelf API v2.0"
    aiReflection := "🎭 Active"
    googleAI :=
      if (match key with
          | some k => k != ""
          | none => false)
      then "🤖 Connected" else "❌ Not configured"
    message := "Your AI reflection system is ready!" }

/-! ## Sequences of calls -/

/-- One call of a public method of the service, with the inputs it reads from
its environment. -/
inductive Call where
  | createReflectionProfile (uuid : String) (now : Nat) (userData : UserData)
  | generateReflectionResponse (up : Upstream) (now : Nat) (random : Draw)
      (profileId userMessage : String)
  | getUserProfile (profileId : String)
  | getAllProfiles

/-- The service after a call. -/
def Call.apply (rt : Runtime) (s : Service) : Call → Service
  | .createReflectionProfile uuid now userData =>
    (BetterYourself.createReflectionProfile uuid now s userData).2
  | .generateReflectionResponse up now random profileId userMessage =>
    (BetterYourself.generateReflectionResponse rt up now random s profileId userMessage).2
  | .getUserProfile _ => s
  | .getAllProfiles => s

/-- What the environment guarantees about a call: `uuidv4()` returns an
identifier that no stored profile has. -/
def Call.Admissible (s : Service) : Call → Prop
  | .createReflectionProfile uuid _ _ => mapGet s.userProfiles uuid = none
  | _ => True

/-- The service `s'` is reached from the service `s` by a sequence of calls. -/
inductive Reaches (rt : Runtime) : Service → Service → Prop where
  | refl (s : Service) : Reaches rt s s
  | step {s s' : Service} (c : Call) :
      Reaches rt s s' → c.Admissible s' → Reaches rt s (c.apply rt s')

/-! ## Predicates and abbreviations used in the statements -/

/-- The profile after the matching branch of the safety loop has run once. -/
def flagged (profile : Profile) : Profile :=
  { profile with
    safetyFlags :=
      { concerningMessages := profile.safetyFlags.concerningMessages + 1
        needsSupport := true } }

/-- The prompt builder can render the profile: `ToString` returns on its name,
its communication style and its support style and on every element of its
traits, interests and goals, and its writing sample is a string. -/
def Profile.Renderable (profile : Profile) : Prop :=
  profile.name.convertible = true ∧
  JSVal.allConvertible profile.personalityTraits = true ∧
  profile.communicationStyle.convertible = true ∧
  JSVal.allConvertible profile.interests = true ∧
  profile.supportStyle.convertible = true ∧
  JSVal.allConvertible profile.goals = true ∧
  profile.writingSample.isString = true

/-- The two maps of the service have the same keys in the same order. -/
def Service.KeysAgree (s : Service) : Prop :=
  s.userProfiles.map Prod.fst = s.conversations.map Prod.fst

/-- Every stored profile has a history, and its `conversationCount` is half
the length of that history, rounded down. -/
def Service.CountsHalved (s : Service) : Prop :=
  ∀ (profileId : String) (profile : Profile),
    mapGet s.userProfiles profileId = some profile →
    ∃ history,
      mapGet s.conversations profileId = some history ∧
      profile.conversationCount = history.length / 2

/-- Spec: `trimmed` is `segment` without its surrounding whitespace: what is
removed in front and behind is whitespace only, and what remains neither begins
nor ends with whitespace. -/
def IsTrimOf (segment trimmed : List Char) : Prop :=
  ∃ front back : List Char,
    segment = front ++ trimmed ++ back ∧
    (∀ c ∈ front, isTrimmed c = true) ∧
    (∀ c ∈ back, isTrimmed c = true) ∧
    (∀ c, trimmed.head? = some c → isTrimmed c = false) ∧
    (∀ c, trimmed.getLast? = some c → isTrimmed c = false)

/-- Spec: `items` are the comma-separated segments of `text`, each trimmed of
surrounding whitespace, with the empty ones dropped, in their original order.
The segments are the comma-free pieces whose join with commas is `text`. -/
def CommaSeparatedTrimmed (text : String) (items : List JSVal) : Prop :=
  ∃ segments trimmed : List (List Char),
    segments ≠ [] ∧
    (∀ segment ∈ segments, ',' ∉ segment) ∧
    [','].intercalate segments = text.data ∧
    List.Forall₂ IsTrimOf segments trimmed ∧
    items = (trimmed.filter (fun t => t ≠ [])).map (fun t => JSVal.str (String.mk t))

/-- An item is a string that is not empty, neither begins nor ends with
whitespace, and contains no comma. -/
def CleanItem (item : JSVal) : Prop :=
  ∃ t : String,
    item = .str t ∧
    t ≠ "" ∧
    (∀ c, t.data.head? = some c → isTrimmed c = false) ∧
    (∀ c, t.data.getLast? = some c → isTrimmed c = false) ∧
    ',' ∉ t.data

/-- Every profile in the map has the key it is stored under as its `id`, and
no key occurs twice. -/
def Service.IdsMatch (s : Service) : Prop :=
  (∀ e ∈ s.userProfiles, e.2.id = e.1) ∧ (s.userProfiles.map Prod.fst).Nodup

/-- The number of lines of a text that begin with a label. -/
def labeledLines (label text : String) : Nat :=
  ((text.data.splitOn '\n').filter (fun line => label.data.isPrefixOf line)).length

/-- Spec: `keyword` occurs in `text` as a whole word, that is at some offset
with no letter right before it and no letter right after it. -/
def occursAsWord (text keyword : String) : Bool :=
  (List.range (text.data.length + 1)).any fun i =>
    keyword.data.isPrefixOf (text.data.drop i) &&
    !(((text.data.take i).getLast?.map Char.isAlpha).getD false) &&
    !(((text.data.drop (i + keyword.data.length)).head?.map Char.isAlpha).getD false)

/-! ## Examples -/

/-- A runtime whose `toLowerCase` maps `A`-`Z` to `a`-`z` and keeps every other
character; it agrees with JavaScript on ASCII text. -/
def asciiRuntime : Runtime where
  toLowerCase s := String.mk (s.data.map Char.toLower)

/-- A profile as `createReflectionProfile` builds it from a body with a name
only, for use in examples. -/
def sampleProfile : Profile :=
  { id := "p1"
    name := .str "Alex"
    personalityTraits := [.str "thoughtful", .str "growth-oriented"]
    communicationStyle := .str "warm and encouraging"
    interests := [.str "personal growth", .str "wellbeing"]
    supportStyle := .str "empathetic listener"
    goals := [.str "continuous improvement"]
    writingSample := .str ""
    createdAt := 0
    safetyFlags := { concerningMessages := 0, needsSupport := false }
    conversationCount := 0 }

/-- A service that holds `sampleProfile` and its empty history; no API key. -/
def sampleService : Service :=
  { apiKey := none
    userProfiles := [("p1", sampleProfile)]
    conversations := [("p1", [])] }

/-- An upstream that answers every prompt with the same text. -/
def sampleUpstream : Upstream := fun _ => .ok "upstream reply"

/-- A body with a name and a number as writing sample. -/
def numericSampleData : UserData :=
  { name := .str "Alex", writingSample := .num 5 }

/-- The service without API key after one profile has been created from
`numericSampleData` under the identifier `p1`. -/
def numericSampleService : Service :=
  (createReflectionProfile "p1" 0 (Service.new none) numericSampleData).2

/-- A body with a name and, as interests, an array that holds the object
`{toString: 1}`. -/
def objectSampleData : UserData :=
  { name := .str "Alex", interests := .arr [.obj [("toString", .num 1)]] }

/-- The service without API key after one profile has been created from
`objectSampleData` under the identifier `p1`. -/
def objectSampleService : Service :=
  (createReflectionProfile "p1" 0 (Service.new none) objectSampleData).2

/-- The service after the calls of a list, in order. -/
def runCalls (rt : Runtime) (s : Service) (calls : List Call) : Service :=
  calls.foldl (fun s c => c.apply rt s) s

/-- The sample service after one message to `p1` has escalated: the counter of
`p1` is 1 and its `needsSupport` flag is set. -/
def flaggedService : Service :=
  { sampleService with userProfiles := [("p1", flagged sampleProfile)] }

/-- The calls of the example sequence: a second profile, a listing, a message
that does not escalate, and an escalating message. -/
def sampleCalls : List Call :=
  [.createReflectionProfile "p2" 2 { name := .str "Sam" },
   .getAllProfiles,
   .generateReflectionResponse sampleUpstream 3 Draw.zero "p1" "hello",
   .generateReflectionResponse sampleUpstream 4 Draw.zero "p1" "I feel hopeless"]

/-- The service without API key after one profile has been created from a body
with the name `Alex` under the identifier `p1`. -/
def freshService : Service :=
  (createReflectionProfile "p1" 0 (Service.new none) { name := .str "Alex" }).2

/-- The first call on the profile of `freshService`. -/
def firstCall : Except JSError ReflectionResult × Service :=
  generateReflectionResponse asciiRuntime sampleUpstream 1 Draw.zero freshService "p1" "hello"

/-- The second call on the profile of `freshService`. -/
def secondCall : Except JSError ReflectionResult × Service :=
  generateReflectionResponse asciiRuntime sampleUpstream 2 Draw.zero firstCall.2 "p1" "I am happy"

/-- A history of six exchanges. -/
def sixExchanges : List ConversationEntry :=
  [{ user := "u1", ai := "a1", timestamp := 1, mood := "neutral" },
   { user := "u2", ai := "a2", timestamp := 2, mood := "neutral" },
   { user := "u3", ai := "a3", timestamp := 3, mood := "neutral" },
   { user := "u4", ai := "a4", timestamp := 4, mood := "neutral" },
   { user := "u5", ai := "a5", timestamp := 5, mood := "neutral" },
   { user := "u6", ai := "a6", timestamp := 6, mood := "neutral" }]

/-- A body of the upstream response with one choice. -/
def sampleBody : Json :=
  .obj [("id", .str "gen-1"),
        ("choices", .arr [.obj [("message", .obj [("role", .str "assistant"),
                                                  ("content", .str "  Hello there \n")])]])]

/-- The sample service with a key that is not an OpenRouter key. -/
def googleKeyService : Service :=
  { sampleService with apiKey := some "AIzaSy-example" }

/-! ## Substring search -/

theorem includes_iff_occurs (s k : String) :
    includes s k = true ↔ k.data <:+: s.data := by
  unfold includes
  rw [List.any_eq_true, List.infix_iff_prefix_suffix]
  constructor
  · rintro ⟨t, ht, hk⟩
    exact ⟨t, List.isPrefixOf_iff_prefix.mp hk, (List.mem_tails _ _).mp ht⟩
  · rintro ⟨t, hk, ht⟩
    exact ⟨t, (List.mem_tails _ _).mpr ht, List.isPrefixOf_iff_prefix.mpr hk⟩

theorem someIncluded_iff (msg : String) (keywords : List String) :
    someIncluded msg keywords = true ↔ ∃ kw ∈ keywords, kw.data <:+: msg.data := by
  unfold someIncluded
  rw [List.any_eq_true]
  constructor
  · rintro ⟨kw, hkw, h⟩
    exact ⟨kw, hkw, (includes_iff_occurs msg kw).mp h⟩
  · rintro ⟨kw, hkw, h⟩
    exact ⟨kw, hkw, (includes_iff_occurs msg kw).mpr h⟩

/-! ## The safety check -/

theorem safetyLoop_match (msg : String) (keywords : List String) (check : SafetyCheck)
    (profile : Profile) (h : ∃ kw ∈ keywords, kw.data <:+: msg.data) :
    safetyLoop msg keywords (check, profile) =
      ({ needsIntervention := true, concernLevel := "high" }, flagged profile) := by
  induction keywords with
  | nil => obtain ⟨kw, hkw, _⟩ := h; simp at hkw
  | cons k rest ih =>
    unfold safetyLoop
    by_cases hk : includes msg k = true
    · simp [hk, flagged]
    · simp only [hk]
      obtain ⟨kw, hkw, hin⟩ := h
      rcases List.mem_cons.mp hkw with rfl | hrest
      · exact absurd ((includes_iff_occurs msg kw).mpr hin) hk
      · simpa using ih ⟨kw, hrest, hin⟩

theorem safetyLoop_no_match (msg : String) (keywords : List String)
    (st : SafetyCheck × Profile) (h : ∀ kw ∈ keywords, ¬ kw.data <:+: msg.data) :
    safetyLoop msg keywords st = st := by
  induction keywords with
  | nil => rfl
  | cons k rest ih =>
    obtain ⟨check, profile⟩ := st
    unfold safetyLoop
    have hk : ¬ includes msg k = true := fun hc =>
      h k (List.mem_cons_self _ _) ((includes_iff_occurs msg k).mp hc)
    simp only [hk]
    simpa using ih (fun kw hkw => h kw (List.mem_cons_of_mem _ hkw))

/-- C1. If the lower-cased message contains at least one of the ten concerning
phrases (one or several), `performSafetyCheck` returns `needsIntervention = true`
with `concernLevel = 'high'`, and the profile after the call differs from the
profile before it in its safety flags only: `concerningMessages` is larger by
exactly 1 and `needsSupport` is `true`. -/
theorem performSafetyCheck_concerning (rt : Runtime) (message : String) (profile : Profile)
    (h : ∃ phrase ∈ concerning, phrase.data <:+: (rt.toLowerCase message).data) :
    concerning.length = 10 ∧
    (performSafetyCheck rt message profile).1 =
      { needsIntervention := true, concernLevel := "high" } ∧
    (performSafetyCheck rt message profile).2.safetyFlags.concerningMessages =
      profile.safetyFlags.concerningMessages + 1 ∧
    (performSafetyCheck rt message profile).2.safetyFlags.needsSupport = true ∧
    (performSafetyCheck rt message profile).2 =
      { profile with safetyFlags := (performSafetyCheck rt message profile).2.safetyFlags } := by
  have hloop : performSafetyCheck rt message profile =
      ({ needsIntervention := true, concernLevel := "high" }, flagged profile) :=
    safetyLoop_match _ _ _ _ h
  rw [hloop]
  exact ⟨rfl, rfl, rfl, rfl, rfl⟩

/-- C1 at a message that contains two concerning phrases: the counter goes
from 0 to 1. -/
theorem performSafetyCheck_concerning_witness :
    (∃ phrase ∈ concerning,
      phrase.data <:+: (asciiRuntime.toLowerCase "I feel HOPELESS, I want to die").data) ∧
    (performSafetyCheck asciiRuntime "I feel HOPELESS, I want to die" sampleProfile).1 =
      { needsIntervention := true, concernLevel := "high" } ∧
    (performSafetyCheck asciiRuntime "I feel HOPELESS, I want to die"
      sampleProfile).2.safetyFlags.concerningMessages = 1 :=
  have h : ∃ phrase ∈ concerning,
      phrase.data <:+: (asciiRuntime.toLowerCase "I feel HOPELESS, I want to die").data :=
    ⟨"hopeless", by decide, (includes_iff_occurs _ _).mp (by decide)⟩
  have t := performSafetyCheck_concerning asciiRuntime "I feel HOPELESS, I want to die"
    sampleProfile h
  ⟨h, t.2.1, t.2.2.1⟩

/-- C2. If the lower-cased message contains none of the concerning phrases,
`performSafetyCheck` returns `needsIntervention = false` with
`concernLevel = 'low'` and the profile after the call is the profile before
it. -/
theorem performSafetyCheck_clear (rt : Runtime) (message : String) (profile : Profile)
    (h : ∀ phrase ∈ concerning, ¬ phrase.data <:+: (rt.toLowerCase message).data) :
    performSafetyCheck rt message profile =
      ({ needsIntervention := false, concernLevel := "low" }, profile) :=
  safetyLoop_no_match _ _ _ h

/-- C2 at a message without any concerning phrase. -/
theorem performSafetyCheck_clear_witness :
    (∀ phrase ∈ concerning,
      ¬ phrase.data <:+: (asciiRuntime.toLowerCase "I went to the store").data) ∧
    performSafetyCheck asciiRuntime "I went to the store" sampleProfile =
      ({ needsIntervention := false, concernLevel := "low" }, sampleProfile) :=
  have h : ∀ phrase ∈ concerning,
      ¬ phrase.data <:+: (asciiRuntime.toLowerCase "I went to the store").data :=
    fun phrase hp hin =>
      absurd ((someIncluded_iff _ concerning).mpr ⟨phrase, hp, hin⟩) (by decide)
  ⟨h, performSafetyCheck_clear asciiRuntime "I went to the store" sampleProfile h⟩

theorem performSafetyCheck_eq (rt : Runtime) (message : String) (profile : Profile) :
    performSafetyCheck rt message profile =
      if someIncluded (rt.toLowerCase message) concerning = true then
        ({ needsIntervention := true, concernLevel := "high" }, flagged profile)
      else ({ needsIntervention := false, concernLevel := "low" }, profile) := by
  split
  · next h => exact safetyLoop_match _ _ _ _ ((someIncluded_iff _ _).mp h)
  · next h =>
    exact safetyLoop_no_match _ _ _
      (fun kw hkw hin => h ((someIncluded_iff _ _).mpr ⟨kw, hkw, hin⟩))

theorem performSafetyCheck_intervention (rt : Runtime) (message : String)
    (profile : Profile)
    (h : (performSafetyCheck rt message profile).1.needsIntervention = true) :
    performSafetyCheck rt message profile =
      ({ needsIntervention := true, concernLevel := "high" }, flagged profile) := by
  rw [performSafetyCheck_eq] at h ⊢
  split
  · rfl
  · next hn => simp [hn] at h

theorem performSafetyCheck_no_intervention (rt : Runtime) (message : String)
    (profile : Profile)
    (h : (performSafetyCheck rt message profile).1.needsIntervention = false) :
    performSafetyCheck rt message profile =
      ({ needsIntervention := false, concernLevel := "low" }, profile) := by
  rw [performSafetyCheck_eq] at h ⊢
  split
  · next hn => simp [hn] at h
  · rfl

/-! ## The maps -/

theorem mapGet_mapSet_self {β : Type} (m : List (String × β)) (k : String) (v : β) :
    mapGet (mapSet m k v) k = some v := by
  induction m with
  | nil => simp [mapSet, mapGet]
  | cons e rest ih =>
    obtain ⟨k', v'⟩ := e
    by_cases hk : k' = k
    · simp [mapSet, mapGet, hk]
    · simp [mapSet, mapGet, hk, ih]

theorem mapGet_mapSet_ne {β : Type} (m : List (String × β)) (k k' : String) (v : β)
    (h : k' ≠ k) : mapGet (mapSet m k v) k' = mapGet m k' := by
  induction m with
  | nil => simp [mapSet, mapGet, Ne.symm h]
  | cons e rest ih =>
    obtain ⟨k₀, v₀⟩ := e
    by_cases hk : k₀ = k
    · subst hk
      simp [mapSet, mapGet, Ne.symm h]
    · by_cases hk' : k₀ = k'
      · subst hk'
        simp [mapSet, mapGet, hk]
      · simp [mapSet, mapGet, hk, hk', ih]

theorem mapSet_eq_self {β : Type} (m : List (String × β)) (k : String) (v : β)
    (h : mapGet m k = some v) : mapSet m k v = m := by
  induction m with
  | nil => simp [mapGet] at h
  | cons e rest ih =>
    obtain ⟨k', v'⟩ := e
    by_cases hk : k' = k
    · subst hk
      simp [mapGet] at h
      simp [mapSet, h]
    · simp [mapGet, hk] at h
      simp [mapSet, hk, ih h]

theorem mapSet_mapSet {β : Type} (m : List (String × β)) (k : String) (v v' : β) :
    mapSet (mapSet m k v) k v' = mapSet m k v' := by
  induction m with
  | nil => simp [mapSet]
  | cons e rest ih =>
    obtain ⟨k', w⟩ := e
    by_cases hk : k' = k
    · simp [mapSet, hk]
    · simp [mapSet, hk, ih]

theorem keys_mapSet_of_mem {β : Type} (m : List (String × β)) (k : String) (v w : β)
    (h : mapGet m k = some w) : (mapSet m k v).map Prod.fst = m.map Prod.fst := by
  induction m with
  | nil => simp [mapGet] at h
  | cons e rest ih =>
    obtain ⟨k', v'⟩ := e
    by_cases hk : k' = k
    · simp [mapSet, hk]
    · simp [mapGet, hk] at h
      simp [mapSet, hk, ih h]

theorem keys_mapSet_of_not_mem {β : Type} (m : List (String × β)) (k : String) (v : β)
    (h : mapGet m k = none) : (mapSet m k v).map Prod.fst = m.map Prod.fst ++ [k] := by
  induction m with
  | nil => simp [mapSet]
  | cons e rest ih =>
    obtain ⟨k', v'⟩ := e
    by_cases hk : k' = k
    · simp [mapGet, hk] at h
    · simp [mapGet, hk] at h
      simp [mapSet, hk, ih h]

theorem mapGet_isSome_iff {β : Type} (m : List (String × β)) (k : String) :
    (mapGet m k).isSome = true ↔ k ∈ m.map Prod.fst := by
  induction m with
  | nil => simp [mapGet]
  | cons e rest ih =>
    obtain ⟨k', v'⟩ := e
    by_cases hk : k' = k
    · simp [mapGet, hk]
    · simp only [mapGet, hk, if_false, List.map_cons, List.mem_cons, ih]
      constructor
      · exact fun h => Or.inr h
      · rintro (h | h)
        · exact absurd h.symm hk
        · exact h

/-! ## The paths of `generateReflectionResponse` -/

theorem generate_not_found (rt : Runtime) (up : Upstream) (now : Nat) (random : Draw)
    (s : Service) (profileId userMessage : String)
    (hp : mapGet s.userProfiles profileId = none) :
    generateReflectionResponse rt up now random s profileId userMessage =
      (.ok { success := false, error := some "Profile not found" }, s) := by
  simp [generateReflectionResponse, hp]

theorem generate_escalation (rt : Runtime) (up : Upstream) (now : Nat) (random : Draw)
    (s : Service) (profileId userMessage : String) (profile : Profile)
    (hp : mapGet s.userProfiles profileId = some profile)
    (hi : (performSafetyCheck rt userMessage profile).1.needsIntervention = true) :
    generateReflectionResponse rt up now random s profileId userMessage =
      (.ok (generateSupportResponse random (flagged profile)
          { needsIntervention := true, concernLevel := "high" }),
       { s with userProfiles := mapSet s.userProfiles profileId (flagged profile) }) := by
  simp [generateReflectionResponse, hp, performSafetyCheck_intervention rt _ _ hi]

theorem generate_failure (rt : Runtime) (up : Upstream) (now : Nat) (random : Draw)
    (s : Service) (profileId userMessage : String) (profile : Profile) (e : JSError)
    (hp : mapGet s.userProfiles profileId = some profile)
    (hi : (performSafetyCheck rt userMessage profile).1.needsIntervention = false)
    (hb : buildReflectionPrompt profile userMessage (detectMood rt userMessage)
      ((mapGet s.conversations profileId).getD []) = .error e) :
    generateReflectionResponse rt up now random s profileId userMessage =
      (.error (.referenceError "mood is not defined"), s) := by
  simp [generateReflectionResponse, hp, performSafetyCheck_no_intervention rt _ _ hi, hb,
    mapSet_eq_self _ _ _ hp, responseGenerationFailed]

theorem generate_normal (rt : Runtime) (up : Upstream) (now : Nat) (random : Draw)
    (s : Service) (profileId userMessage : String) (profile : Profile) (prompt : String)
    (hp : mapGet s.userProfiles profileId = some profile)
    (hi : (performSafetyCheck rt userMessage profile).1.needsIntervention = false)
    (hb : buildReflectionPrompt profile userMessage (detectMood rt userMessage)
      ((mapGet s.conversations profileId).getD []) = .ok prompt) :
    generateReflectionResponse rt up now random s profileId userMessage =
      (.ok { success := true
             response := some (generateReply up s profile userMessage
               (detectMood rt userMessage) prompt)
             profileName := some profile.name
             conversationCount :=
               some ((((mapGet s.conversations profileId).getD []).length + 1) / 2)
             mood := some (detectMood rt userMessage)
             suggestions := some (generateSuggestions (detectMood rt userMessage)) },
       { s with
         userProfiles := mapSet s.userProfiles profileId
           { profile with
             conversationCount :=
               (((mapGet s.conversations profileId).getD []).length + 1) / 2 }
         conversations :=
           match mapGet s.conversations profileId with
           | some history =>
             mapSet s.conversations profileId
               (history ++ [{ user := userMessage
                              ai := generateReply up s profile userMessage
                                (detectMood rt userMessage) prompt
                              timestamp := now
                              mood := detectMood rt userMessage }])
           | none => s.conversations }) := by
  have hs : ({ s with userProfiles := mapSet s.userProfiles profileId profile } : Service)
      = s := by
    rw [mapSet_eq_self _ _ _ hp]
  simp only [generateReflectionResponse, hp, performSafetyCheck_no_intervention rt _ _ hi, hb,
    hs]
  cases hc : mapGet s.conversations profileId <;>
    simp [mapSet_eq_self _ _ _ hp]

/-- C3. For a stored profile and a message on which `performSafetyCheck`
signals intervention, `generateReflectionResponse` returns the output of
`generateSupportResponse`; the result is the same for every upstream and is
returned also when the prompt builder would throw on this profile; the
conversation map is unchanged, so nothing is appended to any history; every
other profile is unchanged; and the stored profile changes in its safety flags
only, so its `conversationCount` is unchanged. -/
theorem escalation_short_circuit (rt : Runtime) (up : Upstream) (now : Nat) (random : Draw)
    (s : Service) (profileId userMessage : String) (profile : Profile)
    (hp : mapGet s.userProfiles profileId = some profile)
    (hi : (performSafetyCheck rt userMessage profile).1.needsIntervention = true) :
    (generateReflectionResponse rt up now random s profileId userMessage).1 =
      .ok (generateSupportResponse random (performSafetyCheck rt userMessage profile).2
        (performSafetyCheck rt userMessage profile).1) ∧
    (∀ (up' : Upstream) (now' : Nat),
      generateReflectionResponse rt up' now' random s profileId userMessage =
        generateReflectionResponse rt up now random s profileId userMessage) ∧
    (generateReflectionResponse rt up now random s profileId userMessage).2.conversations =
      s.conversations ∧
    (generateReflectionResponse rt up now random s profileId userMessage).2.apiKey =
      s.apiKey ∧
    mapGet (generateReflectionResponse rt up now random s profileId
        userMessage).2.userProfiles profileId =
      some { profile with
             safetyFlags :=
               { concerningMessages := profile.safetyFlags.concerningMessages + 1
                 needsSupport := true } } ∧
    (∀ other : String, other ≠ profileId →
      mapGet (generateReflectionResponse rt up now random s profileId
          userMessage).2.userProfiles other =
        mapGet s.userProfiles other) := by
  have hc := performSafetyCheck_intervention rt userMessage profile hi
  refine ⟨?_, ?_, ?_, ?_, ?_, ?_⟩
  · rw [generate_escalation rt up now random s profileId userMessage profile hp hi, hc]
  · intro up' now'
    rw [generate_escalation rt up now random s profileId userMessage profile hp hi,
      generate_escalation rt up' now' random s profileId userMessage profile hp hi]
  · rw [generate_escalation rt up now random s profileId userMessage profile hp hi]
  · rw [generate_escalation rt up now random s profileId userMessage profile hp hi]
  · rw [generate_escalation rt up now random s profileId userMessage profile hp hi]
    exact mapGet_mapSet_self _ _ _
  · intro other hne
    rw [generate_escalation rt up now random s profileId userMessage profile hp hi]
    exact mapGet_mapSet_ne _ _ _ _ hne

/-- C3 at a stored profile and a message that contains a concerning phrase. -/
theorem escalation_short_circuit_witness :
    mapGet sampleService.userProfiles "p1" = some sampleProfile ∧
    (performSafetyCheck asciiRuntime "I feel hopeless" sampleProfile).1.needsIntervention
      = true ∧
    (generateReflectionResponse asciiRuntime sampleUpstream 7 Draw.zero sampleService "p1"
        "I feel hopeless").2.conversations = sampleService.conversations :=
  have hp : mapGet sampleService.userProfiles "p1" = some sampleProfile := by
    simp [sampleService, mapGet]
  have hi : (performSafetyCheck asciiRuntime "I feel hopeless"
      sampleProfile).1.needsIntervention = true := by
    rw [performSafetyCheck_eq]
    have : someIncluded (asciiRuntime.toLowerCase "I feel hopeless") concerning = true := by
      decide
    simp [this]
  ⟨hp, hi,
    (escalation_short_circuit asciiRuntime sampleUpstream 7 Draw.zero sampleService "p1"
      "I feel hopeless" sampleProfile hp hi).2.2.1⟩

/-! ## The support response -/

theorem excessBits_small (fuel n : Nat) (h : n < 2 ^ 53) : excessBits fuel n = 0 := by
  cases fuel with
  | zero => rfl
  | succ f =>
    unfold excessBits
    rw [if_pos h]

theorem excessBits_le (fuel n : Nat) (h : n < 2 ^ 55) : excessBits fuel n ≤ 2 := by
  cases fuel with
  | zero => simp [excessBits]
  | succ f =>
    unfold excessBits
    split_ifs with h1
    · omega
    · cases f with
      | zero => simp [excessBits]
      | succ g =>
        unfold excessBits
        split_ifs with h2
        · omega
        · have : n / 2 / 2 < 2 ^ 53 := by omega
          rw [excessBits_small _ _ this]

theorem roundToDouble_small (numerator : Nat) (h : numerator < 2 ^ 53) :
    roundToDouble numerator = numerator := by
  unfold roundToDouble
  simp only [excessBits_small _ _ h, pow_zero, Nat.mod_one, Nat.div_one, Nat.mul_one]
  simp

theorem roundToDouble_le (numerator : Nat) (h : numerator < 2 ^ 55) :
    roundToDouble numerator ≤ numerator + 2 := by
  have hexp := excessBits_le numerator numerator h
  obtain ⟨e, he⟩ : ∃ e, excessBits numerator numerator = e := ⟨_, rfl⟩
  rw [he] at hexp
  unfold roundToDouble
  simp only [he]
  interval_cases e <;> simp only [pow_zero, pow_one, Nat.reducePow] <;> split_ifs <;> omega

theorem supportIndex_lt (random : Draw) :
    supportIndex random < supportResponses.length := by
  have hlen : supportResponses.length = 3 := rfl
  unfold supportIndex
  rw [hlen]
  have hm := random.mantissa_lt
  have hone := random.lt_one
  have hround := roundToDouble_le (random.mantissa * 3) (by omega)
  apply Nat.div_lt_of_lt_mul
  omega

theorem generateSupportResponse_reply (random : Draw) (profile : Profile)
    (safetyCheck : SafetyCheck) :
    supportResponses.length = 3 ∧
    supportIndex random = roundToDouble (random.mantissa * 3) / 2 ^ random.exponent ∧
    supportIndex random < supportResponses.length ∧
    (generateSupportResponse random profile safetyCheck).response =
      supportResponses[supportIndex random]? ∧
    (∃ text ∈ supportResponses,
      (generateSupportResponse random profile safetyCheck).response = some text) ∧
    (generateSupportResponse random profile safetyCheck).mood = some "concerning" ∧
    (generateSupportResponse random profile safetyCheck).needsSupport = some true ∧
    (generateSupportResponse random profile safetyCheck).success = true ∧
    (generateSupportResponse random profile safetyCheck).suggestions =
      some ["Tell me about your support system", "What helps you feel safe?",
        "Can you reach out to someone today?"] := by
  have hlt := supportIndex_lt random
  refine ⟨rfl, rfl, hlt, rfl, ?_, rfl, rfl, rfl, rfl⟩
  refine ⟨supportResponses[supportIndex random], List.getElem_mem _, ?_⟩
  simp [generateSupportResponse, List.getElem?_eq_getElem hlt]

/-- C4. For every profile, every safety-check result and every draw `random`
of `Math.random()` (a double with `0 ≤ random < 1`), the index
`Math.floor(random * 3)` that `generateSupportResponse` selects, with the
product rounded as the multiplication of doubles rounds it, is below the length
3 of `supportResponses`, and the response is the message at that index: the
first, second or third crisis-resource message for the index 0, 1 or 2.  When
the product needs no rounding the index is the integer part of the exact
product.  The result has `mood = 'concerning'`, `needsSupport = true`,
`success = true` and the fixed list of three suggestions. -/
theorem generateSupportResponse_spec (random : Draw) (profile : Profile)
    (safetyCheck : SafetyCheck) :
    supportResponses.length = 3 ∧
    supportIndex random = roundToDouble (random.mantissa * 3) / 2 ^ random.exponent ∧
    (random.mantissa * 3 < 2 ^ 53 →
      supportIndex random = random.mantissa * 3 / 2 ^ random.exponent) ∧
    supportIndex random < supportResponses.length ∧
    (generateSupportResponse random profile safetyCheck).response =
      supportResponses[supportIndex random]? ∧
    (supportIndex random = 0 →
      (generateSupportResponse random profile safetyCheck).response =
        some "I'm really concerned about what you've shared. Your feelings matter, and you don't have to go through this alone. Please consider reaching out to a mental health professional or a crisis helpline.") ∧
    (supportIndex random = 1 →
      (generateSupportResponse random profile safetyCheck).response =
        some "What you're going through sounds incredibly difficult. Please know that help is available, and things can get better. Consider calling the 988 Suicide & Crisis Lifeline (dial 988) or text 'HELLO' to 741741.") ∧
    (supportIndex random = 2 →
      (generateSupportResponse random profile safetyCheck).response =
        some "I hear your pain, and I want you to know that you matter. This feeling doesn't have to be permanent. Please reach out to someone who can help - a counselor, trusted friend, or crisis support line.") ∧
    (generateSupportResponse random profile safetyCheck).mood = some "concerning" ∧
    (generateSupportResponse random profile safetyCheck).needsSupport = some true ∧
    (generateSupportResponse random profile safetyCheck).success = true ∧
    (generateSupportResponse random profile safetyCheck).suggestions =
      some ["Tell me about your support system", "What helps you feel safe?",
        "Can you reach out to someone today?"] := by
  have hresponse : (generateSupportResponse random profile safetyCheck).response =
      supportResponses[supportIndex random]? := rfl
  refine ⟨rfl, rfl, ?_, supportIndex_lt random, hresponse, ?_, ?_, ?_, rfl, rfl, rfl, rfl⟩
  · intro hexact
    have hlen : supportResponses.length = 3 := rfl
    unfold supportIndex
    rw [hlen, roundToDouble_small _ hexact]
  · intro h
    rw [hresponse, h]
    rfl
  · intro h
    rw [hresponse, h]
    rfl
  · intro h
    rw [hresponse, h]
    rfl

/-- C4 at the draw 1/2, which selects the second message, and at the draw
`6004799503160661 / 2 ^ 53`, whose product with 3 rounds up to 2 and selects the
third message although the integer part of the exact product is 1. -/
theorem generateSupportResponse_spec_witness :
    supportIndex Draw.half = 1 ∧
    (generateSupportResponse Draw.half sampleProfile
      { needsIntervention := true, concernLevel := "high" }).response =
      some "What you're going through sounds incredibly difficult. Please know that help is available, and things can get better. Consider calling the 988 Suicide & Crisis Lifeline (dial 988) or text 'HELLO' to 741741." ∧
    supportIndex Draw.belowTwoThirds = 2 ∧
    Draw.belowTwoThirds.mantissa * 3 / 2 ^ Draw.belowTwoThirds.exponent = 1 ∧
    (generateSupportResponse Draw.belowTwoThirds sampleProfile
      { needsIntervention := true, concernLevel := "high" }).response =
      some "I hear your pain, and I want you to know that you matter. This feeling doesn't have to be permanent. Please reach out to someone who can help - a counselor, trusted friend, or crisis support line." :=
  have h₁ : supportIndex Draw.half = 1 := by decide
  have h₂ : supportIndex Draw.belowTwoThirds = 2 := by decide
  ⟨h₁,
    (generateSupportResponse_spec Draw.half sampleProfile
      { needsIntervention := true, concernLevel := "high" }).2.2.2.2.2.2.1 h₁,
    h₂, by decide,
    (generateSupportResponse_spec Draw.belowTwoThirds sampleProfile
      { needsIntervention := true, concernLevel := "high" }).2.2.2.2.2.2.2.1 h₂⟩

/-! ## Mood detection -/

theorem detectMoodLoop_no_match (msg : String) (entries : List (String × List String))
    (h : ∀ e ∈ entries, someIncluded msg e.2 = false) :
    detectMoodLoop msg entries = "neutral" := by
  induction entries with
  | nil => rfl
  | cons e rest ih =>
    obtain ⟨mood, keywords⟩ := e
    have he : someIncluded msg keywords = false := h (mood, keywords) (List.mem_cons_self _ _)
    simp only [detectMoodLoop, he]
    exact ih (fun e' he' => h e' (List.mem_cons_of_mem _ he'))

theorem detectMoodLoop_first (msg : String) (before after : List (String × List String))
    (mood : String) (keywords : List String)
    (hb : ∀ e ∈ before, someIncluded msg e.2 = false)
    (hm : someIncluded msg keywords = true) :
    detectMoodLoop msg (before ++ (mood, keywords) :: after) = mood := by
  induction before with
  | nil => simp [detectMoodLoop, hm]
  | cons e rest ih =>
    obtain ⟨mood', keywords'⟩ := e
    have he : someIncluded msg keywords' = false :=
      hb (mood', keywords') (List.mem_cons_self _ _)
    simp only [List.cons_append, detectMoodLoop, he]
    exact ih (fun e' he' => hb e' (List.mem_cons_of_mem _ he'))

theorem detectMoodLoop_match (msg : String) (entries : List (String × List String))
    (h : ∃ e ∈ entries, someIncluded msg e.2 = true) :
    detectMoodLoop msg entries ∈ entries.map Prod.fst := by
  induction entries with
  | nil => obtain ⟨e, he, _⟩ := h; simp at he
  | cons e rest ih =>
    obtain ⟨mood, keywords⟩ := e
    by_cases hm : someIncluded msg keywords = true
    · simp [detectMoodLoop, hm]
    · obtain ⟨e', he', hin⟩ := h
      rcases List.mem_cons.mp he' with rfl | hrest
      · exact absurd hin hm
      · simp only [detectMoodLoop, hm]
        exact List.mem_cons_of_mem _ (ih ⟨e', hrest, hin⟩)

theorem not_someIncluded_iff (msg : String) (keywords : List String) :
    someIncluded msg keywords = false ↔ ∀ kw ∈ keywords, ¬ kw.data <:+: msg.data := by
  rw [← Bool.not_eq_true, someIncluded_iff]
  push_neg
  rfl

/-- C5. `detectMood` returns one of the eight labels; the categories are tried
in the order sad, frustrated, happy, anxious, uncertain, grateful, motivated,
and the result is the label of the first category one of whose keywords occurs
in the lower-cased message; the result is `neutral` exactly when no keyword of
any category occurs; the two example messages give `anxious` and `neutral`. -/
theorem detectMood_spec (rt : Runtime) (message : String) :
    moodMap.map Prod.fst =
      ["sad", "frustrated", "happy", "anxious", "uncertain", "grateful", "motivated"] ∧
    detectMood rt message ∈
      ["sad", "frustrated", "happy", "anxious", "uncertain", "grateful", "motivated",
        "neutral"] ∧
    (∀ (before after : List (String × List String)) (mood : String)
        (keywords : List String),
      moodMap = before ++ (mood, keywords) :: after →
      (∃ kw ∈ keywords, kw.data <:+: (rt.toLowerCase message).data) →
      (∀ e ∈ before, ∀ kw ∈ e.2, ¬ kw.data <:+: (rt.toLowerCase message).data) →
      detectMood rt message = mood) ∧
    (detectMood rt message = "neutral" ↔
      ∀ e ∈ moodMap, ∀ kw ∈ e.2, ¬ kw.data <:+: (rt.toLowerCase message).data) ∧
    (rt.toLowerCase "I feel so anxious and overwhelmed" = "i feel so anxious and overwhelmed" →
      detectMood rt "I feel so anxious and overwhelmed" = "anxious") ∧
    (rt.toLowerCase "I went to the store" = "i went to the store" →
      detectMood rt "I went to the store" = "neutral") := by
  have hneutral : (∀ e ∈ moodMap, ∀ kw ∈ e.2, ¬ kw.data <:+: (rt.toLowerCase message).data) →
      detectMood rt message = "neutral" := fun h =>
    detectMoodLoop_no_match _ _ (fun e he => (not_someIncluded_iff _ _).mpr (h e he))
  have hlabel : (∃ e ∈ moodMap, someIncluded (rt.toLowerCase message) e.2 = true) →
      detectMood rt message ∈ moodMap.map Prod.fst := detectMoodLoop_match _ _
  have hcases : (∀ e ∈ moodMap, ∀ kw ∈ e.2, ¬ kw.data <:+: (rt.toLowerCase message).data) ∨
      (∃ e ∈ moodMap, someIncluded (rt.toLowerCase message) e.2 = true) := by
    by_cases hex : ∃ e ∈ moodMap, someIncluded (rt.toLowerCase message) e.2 = true
    · exact Or.inr hex
    · left
      intro e he
      apply (not_someIncluded_iff _ _).mp
      by_contra hc
      exact hex ⟨e, he, by simpa using hc⟩
  have hkeys : moodMap.map Prod.fst =
      ["sad", "frustrated", "happy", "anxious", "uncertain", "grateful", "motivated"] := rfl
  refine ⟨hkeys, ?_, ?_, ?_, ?_, ?_⟩
  · rcases hcases with hno | hyes
    · rw [hneutral hno]
      decide
    · have := hlabel hyes
      rw [hkeys] at this
      simp only [List.mem_cons] at this ⊢
      tauto
  · intro before after mood keywords hsplit hm hb
    unfold detectMood
    rw [hsplit]
    exact detectMoodLoop_first _ _ _ _ _
      (fun e he => (not_someIncluded_iff _ _).mpr (hb e he)) ((someIncluded_iff _ _).mpr hm)
  · constructor
    · intro hn
      rcases hcases with hno | hyes
      · exact hno
      · have := hlabel hyes
        rw [hn, hkeys] at this
        exact absurd this (by decide)
    · exact hneutral
  · intro h
    unfold detectMood
    rw [h]
    decide
  · intro h
    unfold detectMood
    rw [h]
    decide

/-- C5 with the ASCII lower-casing: the two example messages. -/
theorem detectMood_spec_witness :
    detectMood asciiRuntime "I feel so anxious and overwhelmed" = "anxious" ∧
    detectMood asciiRuntime "I went to the store" = "neutral" :=
  ⟨(detectMood_spec asciiRuntime "").2.2.2.2.1 (by decide),
   (detectMood_spec asciiRuntime "").2.2.2.2.2 (by decide)⟩

/-! ## The reply of a call that does not escalate -/

theorem isString_iff (v : JSVal) : v.isString = true ↔ ∃ sample, v = .str sample := by
  cases v <;> simp [JSVal.isString]

theorem buildReflectionPrompt_ok (profile : Profile) (message mood : String)
    (conversations : List ConversationEntry) (hr : profile.Renderable) :
    ∃ prompt, buildReflectionPrompt profile message mood conversations = .ok prompt := by
  obtain ⟨h₁, h₂, h₃, h₄, h₅, h₆, h₇⟩ := hr
  obtain ⟨sample, hw⟩ := (isString_iff _).mp h₇
  simp [buildReflectionPrompt, JSVal.interpolate, JSVal.interpolateJoin, substringTo,
    h₁, h₂, h₃, h₄, h₅, h₆, hw]

theorem substringTo_ok (v : JSVal) (n : Nat) (text : String) (h : substringTo v n = .ok text) :
    v.isString = true := by
  cases v <;> simp [substringTo, JSVal.isString] at h ⊢

theorem buildReflectionPrompt_renderable (profile : Profile) (message mood prompt : String)
    (conversations : List ConversationEntry)
    (h : buildReflectionPrompt profile message mood conversations = .ok prompt) :
    profile.Renderable := by
  unfold buildReflectionPrompt JSVal.interpolate JSVal.interpolateJoin at h
  by_cases h₁ : profile.name.convertible = true
  swap
  · simp [h₁] at h
  by_cases h₂ : JSVal.allConvertible profile.personalityTraits = true
  swap
  · simp [h₁, h₂] at h
  by_cases h₃ : profile.communicationStyle.convertible = true
  swap
  · simp [h₁, h₂, h₃] at h
  by_cases h₄ : JSVal.allConvertible profile.interests = true
  swap
  · simp [h₁, h₂, h₃, h₄] at h
  by_cases h₅ : profile.supportStyle.convertible = true
  swap
  · simp [h₁, h₂, h₃, h₄, h₅] at h
  by_cases h₆ : JSVal.allConvertible profile.goals = true
  swap
  · simp [h₁, h₂, h₃, h₄, h₅, h₆] at h
  refine ⟨h₁, h₂, h₃, h₄, h₅, h₆, ?_⟩
  cases hs : substringTo profile.writingSample 200 with
  | error e => simp [h₁, h₂, h₃, h₄, h₅, h₆, hs] at h
  | ok text => exact substringTo_ok _ _ _ hs

theorem buildReflectionPrompt_error (profile : Profile) (message mood : String)
    (conversations : List ConversationEntry) (hr : ¬ profile.Renderable) :
    ∃ e, buildReflectionPrompt profile message mood conversations = .error e := by
  cases h : buildReflectionPrompt profile message mood conversations with
  | error e => exact ⟨e, rfl⟩
  | ok prompt => exact absurd (buildReflectionPrompt_renderable _ _ _ _ _ h) hr

theorem generate_result (rt : Runtime) (up : Upstream) (now : Nat) (random : Draw)
    (s : Service) (profileId userMessage : String) (profile : Profile)
    (result : ReflectionResult)
    (hp : mapGet s.userProfiles profileId = some profile)
    (hi : (performSafetyCheck rt userMessage profile).1.needsIntervention = false)
    (hres : (generateReflectionResponse rt up now random s profileId userMessage).1
      = .ok result) :
    ∃ prompt,
      buildReflectionPrompt profile userMessage (detectMood rt userMessage)
        ((mapGet s.conversations profileId).getD []) = .ok prompt ∧
      result =
        { success := true
          response := some (generateReply up s profile userMessage
            (detectMood rt userMessage) prompt)
          profileName := some profile.name
          conversationCount :=
            some ((((mapGet s.conversations profileId).getD []).length + 1) / 2)
          mood := some (detectMood rt userMessage)
          suggestions := some (generateSuggestions (detectMood rt userMessage)) } := by
  cases hb : buildReflectionPrompt profile userMessage (detectMood rt userMessage)
      ((mapGet s.conversations profileId).getD []) with
  | error e =>
    rw [generate_failure rt up now random s profileId userMessage profile e hp hi hb] at hres
    cases hres
  | ok prompt =>
    rw [generate_normal rt up now random s profileId userMessage profile prompt hp hi hb]
      at hres
    simp only [Except.ok.injEq] at hres
    exact ⟨prompt, rfl, hres.symm⟩

theorem generate_converts_name (rt : Runtime) (up : Upstream) (now : Nat) (random : Draw)
    (s : Service) (profileId userMessage : String) (profile : Profile)
    (result : ReflectionResult)
    (hp : mapGet s.userProfiles profileId = some profile)
    (hi : (performSafetyCheck rt userMessage profile).1.needsIntervention = false)
    (hres : (generateReflectionResponse rt up now random s profileId userMessage).1
      = .ok result) :
    profile.name.convertible = true := by
  obtain ⟨prompt, hb, _⟩ :=
    generate_result rt up now random s profileId userMessage profile result hp hi hres
  exact (buildReflectionPrompt_renderable _ _ _ _ _ hb).1

theorem generateReply_unconfigured (up : Upstream) (s : Service) (profile : Profile)
    (userMessage mood prompt : String)
    (hk : s.apiKey = none ∨ ∃ key, s.apiKey = some key ∧ ¬ "sk-or-v1-".data <+: key.data) :
    generateReply up s profile userMessage mood prompt =
      generateFallbackResponse profile userMessage mood := by
  unfold generateReply
  rcases hk with hnone | ⟨key, hkey, hpre⟩
  · simp [Service.hasApiKey, hnone]
  · have hsw : startsWith key "sk-or-v1-" = false := by
      unfold startsWith
      rw [← Bool.not_eq_true, List.isPrefixOf_iff_prefix]
      exact hpre
    simp [Service.isOpenRouterKey, hkey, hsw]

theorem generateReply_upstream_error (up : Upstream) (s : Service) (profile : Profile)
    (userMessage mood prompt : String) (e : JSError) (he : up prompt = .error e) :
    generateReply up s profile userMessage mood prompt =
      generateFallbackResponse profile userMessage mood := by
  unfold generateReply
  split
  · rfl
  · simp [he]

theorem sampleProfile_renderable : sampleProfile.Renderable :=
  ⟨rfl, rfl, rfl, rfl, rfl, rfl, rfl⟩

/-- C6 as stated fails: a profile created from a body whose writing sample is
the number 5 is stored; the service has no API key; the message `hello` does
not escalate; and the call returns no result: the prompt builder throws, the
handler of the outer `try` throws in turn, and the call throws a
`ReferenceError`.  The same happens for a profile created from a body whose
interests are an array that holds the object `{toString: 1}`. -/
theorem fallback_reply_counterexample :
    numericSampleService.apiKey = none ∧
    (∃ profile, mapGet numericSampleService.userProfiles "p1" = some profile ∧
      (performSafetyCheck asciiRuntime "hello" profile).1.needsIntervention = false) ∧
    (generateReflectionResponse asciiRuntime sampleUpstream 1 Draw.zero numericSampleService "p1"
        "hello").1 = .error (.referenceError "mood is not defined") ∧
    objectSampleService.apiKey = none ∧
    (createReflectionProfile "p1" 0 (Service.new none) objectSampleData).thrown = none ∧
    (∃ profile, mapGet objectSampleService.userProfiles "p1" = some profile ∧
      (performSafetyCheck asciiRuntime "hello" profile).1.needsIntervention = false) ∧
    (generateReflectionResponse asciiRuntime sampleUpstream 1 Draw.zero objectSampleService "p1"
        "hello").1 = .error (.referenceError "mood is not defined") := by
  have hclear : ∀ profile : Profile,
      (performSafetyCheck asciiRuntime "hello" profile).1.needsIntervention = false := by
    intro profile
    rw [performSafetyCheck_eq]
    have : someIncluded (asciiRuntime.toLowerCase "hello") concerning = false := by decide
    simp [this]
  refine ⟨rfl, ⟨_, rfl, hclear _⟩, ?_, rfl, rfl, ⟨_, rfl, hclear _⟩, ?_⟩
  rotate_left
  · have hp : mapGet objectSampleService.userProfiles "p1" =
        some (createReflectionProfile "p1" 0 (Service.new none) objectSampleData).1 := rfl
    obtain ⟨e, he⟩ := buildReflectionPrompt_error
      (createReflectionProfile "p1" 0 (Service.new none) objectSampleData).1 "hello"
      (detectMood asciiRuntime "hello")
      ((mapGet objectSampleService.conversations "p1").getD [])
      (fun hr => absurd hr.2.2.2.1 (by decide))
    rw [generate_failure asciiRuntime sampleUpstream 1 Draw.zero objectSampleService "p1" "hello"
      _ e hp (hclear _) he]
  · have hp : mapGet numericSampleService.userProfiles "p1" =
        some (createReflectionProfile "p1" 0 (Service.new none) numericSampleData).1 := rfl
    have hi : (performSafetyCheck asciiRuntime "hello"
        (createReflectionProfile "p1" 0 (Service.new none)
          numericSampleData).1).1.needsIntervention = false := by
      rw [performSafetyCheck_eq]
      have : someIncluded (asciiRuntime.toLowerCase "hello") concerning = false := by decide
      simp [this]
    obtain ⟨e, he⟩ := buildReflectionPrompt_error
      (createReflectionProfile "p1" 0 (Service.new none) numericSampleData).1 "hello"
      (detectMood asciiRuntime "hello")
      ((mapGet numericSampleService.conversations "p1").getD [])
      (fun hr => absurd hr.2.2.2.2.2.2 (by decide))
    rw [generate_failure asciiRuntime sampleUpstream 1 Draw.zero numericSampleService "p1" "hello"
      _ e hp hi he]

/-- C6, amended. The prompt builder returns for a profile exactly when the
profile is renderable: its writing sample is a string and `ToString` returns on
its name, communication style and support style and on every element of its
traits, interests and goals.  For a stored renderable profile and a message
that does not escalate: if the API key is absent or does not start with
`sk-or-v1-`, or if the upstream call on the built prompt fails, the call
returns a result with `success = true` whose `response` is
`generateFallbackResponse(profile, message, detectMood(message))`; and with the
key absent or without that prefix the outcome is the same for every upstream. -/
theorem fallback_reply (rt : Runtime) (up : Upstream) (now : Nat) (random : Draw)
    (s : Service) (profileId userMessage : String) (profile : Profile)
    (hp : mapGet s.userProfiles profileId = some profile)
    (hi : (performSafetyCheck rt userMessage profile).1.needsIntervention = false)
    (hr : profile.Renderable) :
    (∀ (message mood : String) (history : List ConversationEntry) (candidate : Profile),
      (∃ prompt, buildReflectionPrompt candidate message mood history = .ok prompt) ↔
        candidate.Renderable) ∧
    ((s.apiKey = none ∨ (∃ key, s.apiKey = some key ∧ ¬ "sk-or-v1-".data <+: key.data) ∨
        ∃ prompt e,
          buildReflectionPrompt profile userMessage (detectMood rt userMessage)
            ((mapGet s.conversations profileId).getD []) = .ok prompt ∧
          up prompt = .error e) →
      ∃ result,
        (generateReflectionResponse rt up now random s profileId userMessage).1 = .ok result ∧
        result.success = true ∧
        result.response =
          some (generateFallbackResponse profile userMessage (detectMood rt userMessage))) ∧
    ((s.apiKey = none ∨ ∃ key, s.apiKey = some key ∧ ¬ "sk-or-v1-".data <+: key.data) →
      ∀ up' : Upstream,
        generateReflectionResponse rt up' now random s profileId userMessage =
          generateReflectionResponse rt up now random s profileId userMessage) := by
  obtain ⟨prompt, hb⟩ := buildReflectionPrompt_ok profile userMessage
    (detectMood rt userMessage) ((mapGet s.conversations profileId).getD []) hr
  refine ⟨?_, ?_, ?_⟩
  · intro message mood history candidate
    constructor
    · rintro ⟨built, hbuilt⟩
      exact buildReflectionPrompt_renderable _ _ _ _ _ hbuilt
    · exact buildReflectionPrompt_ok candidate message mood history
  · intro hk
    have hreply : generateReply up s profile userMessage (detectMood rt userMessage) prompt =
        generateFallbackResponse profile userMessage (detectMood rt userMessage) := by
      rcases hk with hnone | hpre | ⟨prompt', e, hb', he⟩
      · exact generateReply_unconfigured _ _ _ _ _ _ (Or.inl hnone)
      · exact generateReply_unconfigured _ _ _ _ _ _ (Or.inr hpre)
      · rw [hb] at hb'
        cases hb'
        exact generateReply_upstream_error _ _ _ _ _ _ e he
    rw [generate_normal rt up now random s profileId userMessage profile prompt hp hi hb,
      hreply]
    exact ⟨_, rfl, rfl, rfl⟩
  · intro hk up'
    rw [generate_normal rt up now random s profileId userMessage profile prompt hp hi hb,
      generate_normal rt up' now random s profileId userMessage profile prompt hp hi hb,
      generateReply_unconfigured up s profile _ _ _ hk,
      generateReply_unconfigured up' s profile _ _ _ hk]

/-- C6, amended, at a stored renderable profile in a service without API
key. -/
theorem fallback_reply_witness :
    mapGet sampleService.userProfiles "p1" = some sampleProfile ∧
    (performSafetyCheck asciiRuntime "hello" sampleProfile).1.needsIntervention = false ∧
    sampleProfile.Renderable ∧
    sampleService.apiKey = none ∧
    ∃ result,
      (generateReflectionResponse asciiRuntime sampleUpstream 1 Draw.zero sampleService "p1"
        "hello").1 = .ok result ∧
      result.success = true ∧
      result.response =
        some (generateFallbackResponse sampleProfile "hello"
          (detectMood asciiRuntime "hello")) :=
  have hp : mapGet sampleService.userProfiles "p1" = some sampleProfile := by
    simp [sampleService, mapGet]
  have hi : (performSafetyCheck asciiRuntime "hello" sampleProfile).1.needsIntervention
      = false := by
    rw [performSafetyCheck_eq]
    have : someIncluded (asciiRuntime.toLowerCase "hello") concerning = false := by decide
    simp [this]
  ⟨hp, hi, sampleProfile_renderable, rfl,
    (fallback_reply asciiRuntime sampleUpstream 1 Draw.zero sampleService "p1" "hello"
      sampleProfile hp hi sampleProfile_renderable).2.1 (Or.inl rfl)⟩

/-! ## Unknown profiles -/

/-- C7 as stated fails: for an identifier that is not in the store the call
returns a result with `success = false` that carries neither `response` nor
`fallbackResponse`. -/
theorem reply_string_counterexample :
    ∃ result,
      (generateReflectionResponse asciiRuntime sampleUpstream 1 Draw.zero sampleService "unknown"
        "hello").1 = .ok result ∧
      result.success = false ∧
      result.error = some "Profile not found" ∧
      result.response = none ∧
      result.fallbackResponse = none :=
  ⟨_, rfl, rfl, rfl, rfl, rfl⟩

/-- C7, amended. For an identifier that is not in the store the call returns
`success = false` with `error = 'Profile not found'` and neither `response`
nor `fallbackResponse`.  For a stored profile the call returns a result with
`success = true` and a `response` string whenever the message escalates or the
profile is renderable (its writing sample is a string and `ToString` returns on
its name, communication style and support style and on every element of its
traits, interests and goals); and when the message does not escalate and the
profile is not renderable, the call returns no result: it throws a
`ReferenceError`. -/
theorem reply_string (rt : Runtime) (up : Upstream) (now : Nat) (random : Draw)
    (s : Service) (profileId userMessage : String) :
    (mapGet s.userProfiles profileId = none →
      ∃ result,
        (generateReflectionResponse rt up now random s profileId userMessage).1 = .ok result ∧
        result.success = false ∧
        result.error = some "Profile not found" ∧
        result.response = none ∧
        result.fallbackResponse = none) ∧
    (∀ profile, mapGet s.userProfiles profileId = some profile →
      ((performSafetyCheck rt userMessage profile).1.needsIntervention = true ∨
        profile.Renderable) →
      ∃ result reply,
        (generateReflectionResponse rt up now random s profileId userMessage).1 = .ok result ∧
        result.success = true ∧
        result.response = some reply) ∧
    (∀ profile, mapGet s.userProfiles profileId = some profile →
      (performSafetyCheck rt userMessage profile).1.needsIntervention = false →
      ¬ profile.Renderable →
      (generateReflectionResponse rt up now random s profileId userMessage).1 =
        .error (.referenceError "mood is not defined")) := by
  refine ⟨?_, ?_, ?_⟩
  · intro hp
    rw [generate_not_found rt up now random s profileId userMessage hp]
    exact ⟨_, rfl, rfl, rfl, rfl, rfl⟩
  · intro profile hp hpath
    by_cases hi : (performSafetyCheck rt userMessage profile).1.needsIntervention = true
    · rw [generate_escalation rt up now random s profileId userMessage profile hp hi]
      obtain ⟨_, _, _, _, ⟨text, _, htext⟩, _, _, hsucc, _⟩ :=
        generateSupportResponse_reply random (flagged profile)
          { needsIntervention := true, concernLevel := "high" }
      exact ⟨_, text, rfl, hsucc, htext⟩
    · have hi' : (performSafetyCheck rt userMessage profile).1.needsIntervention = false := by
        simpa using hi
      rcases hpath with hesc | hr
      · exact absurd hesc hi
      · obtain ⟨prompt, hb⟩ := buildReflectionPrompt_ok profile userMessage
          (detectMood rt userMessage) ((mapGet s.conversations profileId).getD []) hr
        rw [generate_normal rt up now random s profileId userMessage profile prompt hp hi' hb]
        exact ⟨_, _, rfl, rfl, rfl⟩
  · intro profile hp hi hr
    obtain ⟨e, he⟩ := buildReflectionPrompt_error profile userMessage
      (detectMood rt userMessage) ((mapGet s.conversations profileId).getD []) hr
    rw [generate_failure rt up now random s profileId userMessage profile e hp hi he]

/-- C7, amended, at an unknown identifier, at a stored renderable profile, and
at a stored profile whose interests hold the object `{toString: 1}`. -/
theorem reply_string_witness :
    mapGet sampleService.userProfiles "unknown" = none ∧
    (∃ result,
      (generateReflectionResponse asciiRuntime sampleUpstream 1 Draw.zero sampleService "unknown"
        "hello").1 = .ok result ∧
      result.success = false ∧
      result.error = some "Profile not found" ∧
      result.response = none ∧
      result.fallbackResponse = none) ∧
    sampleProfile.Renderable ∧
    (∃ result reply,
      (generateReflectionResponse asciiRuntime sampleUpstream 1 Draw.zero sampleService "p1"
        "hello").1 = .ok result ∧
      result.success = true ∧
      result.response = some reply) ∧
    ¬ (createReflectionProfile "p1" 0 (Service.new none) objectSampleData).1.Renderable ∧
    (generateReflectionResponse asciiRuntime sampleUpstream 1 Draw.zero objectSampleService "p1"
      "hello").1 = .error (.referenceError "mood is not defined") :=
  have hu : mapGet sampleService.userProfiles "unknown" = none := by
    simp [sampleService, mapGet]
  have hp : mapGet sampleService.userProfiles "p1" = some sampleProfile := by
    simp [sampleService, mapGet]
  have hobj : ¬ (createReflectionProfile "p1" 0 (Service.new none)
      objectSampleData).1.Renderable :=
    fun hr => absurd hr.2.2.2.1 (by decide)
  have hclear : (performSafetyCheck asciiRuntime "hello"
      (createReflectionProfile "p1" 0 (Service.new none)
        objectSampleData).1).1.needsIntervention = false := by
    rw [performSafetyCheck_eq]
    have : someIncluded (asciiRuntime.toLowerCase "hello") concerning = false := by decide
    simp [this]
  ⟨hu,
    (reply_string asciiRuntime sampleUpstream 1 Draw.zero sampleService "unknown" "hello").1 hu,
    sampleProfile_renderable,
    (reply_string asciiRuntime sampleUpstream 1 Draw.zero sampleService "p1" "hello").2.1
      sampleProfile hp (Or.inr sampleProfile_renderable),
    hobj,
    (reply_string asciiRuntime sampleUpstream 1 Draw.zero objectSampleService "p1" "hello").2.2
      _ rfl hclear hobj⟩

/-- C8. For an identifier that is not in the store, `generateReflectionResponse`
returns `success = false` with `error = 'Profile not found'`, and the service
after the call is the service before it: no profile, safety flag, history or
count is created or modified. -/
theorem profile_not_found (rt : Runtime) (up : Upstream) (now : Nat) (random : Draw)
    (s : Service) (profileId userMessage : String)
    (hp : mapGet s.userProfiles profileId = none) :
    (∃ result,
      (generateReflectionResponse rt up now random s profileId userMessage).1 = .ok result ∧
      result.success = false ∧
      result.error = some "Profile not found") ∧
    (generateReflectionResponse rt up now random s profileId userMessage).2 = s := by
  rw [generate_not_found rt up now random s profileId userMessage hp]
  exact ⟨⟨_, rfl, rfl, rfl⟩, rfl⟩

/-- C8 at an identifier that `sampleService` does not hold. -/
theorem profile_not_found_witness :
    mapGet sampleService.userProfiles "unknown" = none ∧
    (generateReflectionResponse asciiRuntime sampleUpstream 1 Draw.zero sampleService "unknown"
      "hello").2 = sampleService :=
  have hu : mapGet sampleService.userProfiles "unknown" = none := by
    simp [sampleService, mapGet]
  ⟨hu, (profile_not_found asciiRuntime sampleUpstream 1 Draw.zero sampleService "unknown" "hello"
    hu).2⟩

/-! ## Sequences of calls: safety flags -/

theorem generate_profile_after (rt : Runtime) (up : Upstream) (now : Nat) (random : Draw)
    (s : Service) (profileId userMessage requested : String) (profile : Profile)
    (hp : mapGet s.userProfiles requested = some profile) :
    ∃ profile',
      mapGet (generateReflectionResponse rt up now random s profileId
        userMessage).2.userProfiles requested = some profile' ∧
      profile.safetyFlags.concerningMessages ≤ profile'.safetyFlags.concerningMessages ∧
      (profile.safetyFlags.needsSupport = true → profile'.safetyFlags.needsSupport = true) := by
  cases hq : mapGet s.userProfiles profileId with
  | none =>
    rw [generate_not_found rt up now random s profileId userMessage hq]
    exact ⟨profile, hp, le_refl _, id⟩
  | some target =>
    by_cases hi : (performSafetyCheck rt userMessage target).1.needsIntervention = true
    · rw [generate_escalation rt up now random s profileId userMessage target hq hi]
      by_cases hid : requested = profileId
      · subst hid
        rw [hp] at hq
        cases hq
        exact ⟨flagged profile, mapGet_mapSet_self _ _ _, Nat.le_succ _, fun _ => rfl⟩
      · exact ⟨profile, by rw [mapGet_mapSet_ne _ _ _ _ hid]; exact hp, le_refl _, id⟩
    · have hi' : (performSafetyCheck rt userMessage target).1.needsIntervention = false := by
        simpa using hi
      cases hb : buildReflectionPrompt target userMessage (detectMood rt userMessage)
          ((mapGet s.conversations profileId).getD []) with
      | error e =>
        rw [generate_failure rt up now random s profileId userMessage target e hq hi' hb]
        exact ⟨profile, hp, le_refl _, id⟩
      | ok prompt =>
        rw [generate_normal rt up now random s profileId userMessage target prompt hq hi' hb]
        by_cases hid : requested = profileId
        · subst hid
          rw [hp] at hq
          cases hq
          exact ⟨_, mapGet_mapSet_self _ _ _, le_refl _, id⟩
        · exact ⟨profile, by rw [mapGet_mapSet_ne _ _ _ _ hid]; exact hp, le_refl _, id⟩

theorem call_profile_after (rt : Runtime) (s : Service) (c : Call) (hc : c.Admissible s)
    (requested : String) (profile : Profile)
    (hp : mapGet s.userProfiles requested = some profile) :
    ∃ profile',
      mapGet (c.apply rt s).userProfiles requested = some profile' ∧
      profile.safetyFlags.concerningMessages ≤ profile'.safetyFlags.concerningMessages ∧
      (profile.safetyFlags.needsSupport = true → profile'.safetyFlags.needsSupport = true) := by
  cases c with
  | createReflectionProfile uuid now userData =>
    have hne : requested ≠ uuid := by
      rintro rfl
      have hfresh : mapGet s.userProfiles requested = none := hc
      rw [hfresh] at hp
      cases hp
    refine ⟨profile, ?_, le_refl _, id⟩
    simp only [Call.apply, createReflectionProfile]
    rw [mapGet_mapSet_ne _ _ _ _ hne]
    exact hp
  | generateReflectionResponse up now random profileId userMessage =>
    exact generate_profile_after rt up now random s profileId userMessage requested profile hp
  | getUserProfile profileId => exact ⟨profile, hp, le_refl _, id⟩
  | getAllProfiles => exact ⟨profile, hp, le_refl _, id⟩

/-- C9. Along every sequence of `createReflectionProfile`,
`generateReflectionResponse`, `getUserProfile` and `getAllProfiles` calls (with
`uuidv4()` returning identifiers not in the store), a profile stored before the
sequence is still stored after it, its `safetyFlags.concerningMessages` has not
decreased, and its `safetyFlags.needsSupport`, if `true` before, is `true`
after. -/
theorem safetyFlags_monotone (rt : Runtime) (s s' : Service) (h : Reaches rt s s')
    (profileId : String) (profile : Profile)
    (hp : mapGet s.userProfiles profileId = some profile) :
    ∃ profile',
      mapGet s'.userProfiles profileId = some profile' ∧
      profile.safetyFlags.concerningMessages ≤ profile'.safetyFlags.concerningMessages ∧
      (profile.safetyFlags.needsSupport = true → profile'.safetyFlags.needsSupport = true) := by
  induction h with
  | refl => exact ⟨profile, hp, le_refl _, id⟩
  | step c _ hc ih =>
    obtain ⟨mid, hmid, hle, hns⟩ := ih
    obtain ⟨profile', hp', hle', hns'⟩ := call_profile_after rt _ c hc profileId mid hmid
    exact ⟨profile', hp', le_trans hle hle', fun hn => hns' (hns hn)⟩

/-- C9 along `sampleCalls` from `flaggedService`, where the counter of `p1` is
1 and its flag is set: after the calls the counter is at least 1 and the flag
is still set. -/
theorem safetyFlags_monotone_witness :
    Reaches asciiRuntime flaggedService (runCalls asciiRuntime flaggedService sampleCalls) ∧
    mapGet flaggedService.userProfiles "p1" = some (flagged sampleProfile) ∧
    (flagged sampleProfile).safetyFlags = { concerningMessages := 1, needsSupport := true } ∧
    ∃ profile',
      mapGet (runCalls asciiRuntime flaggedService sampleCalls).userProfiles "p1"
        = some profile' ∧
      1 ≤ profile'.safetyFlags.concerningMessages ∧
      profile'.safetyFlags.needsSupport = true :=
  have hp : mapGet flaggedService.userProfiles "p1" = some (flagged sampleProfile) := by
    simp [flaggedService, mapGet]
  have hr : Reaches asciiRuntime flaggedService
      (runCalls asciiRuntime flaggedService sampleCalls) :=
    Reaches.step
      (.generateReflectionResponse sampleUpstream 4 Draw.zero "p1" "I feel hopeless")
      (Reaches.step (.generateReflectionResponse sampleUpstream 3 Draw.zero "p1" "hello")
        (Reaches.step .getAllProfiles
          (Reaches.step (.createReflectionProfile "p2" 2 { name := .str "Sam" })
            (Reaches.refl _) (by simp [Call.Admissible, flaggedService, mapGet]))
          trivial)
        trivial)
      trivial
  match safetyFlags_monotone asciiRuntime flaggedService _ hr "p1" (flagged sampleProfile)
    hp with
  | ⟨profile', hp', hle, hns⟩ => ⟨hr, hp, rfl, profile', hp', hle, hns rfl⟩

/-! ## Sequences of calls: histories -/

theorem mapGet_eq_none_iff {β : Type} (m : List (String × β)) (k : String) :
    mapGet m k = none ↔ k ∉ m.map Prod.fst := by
  rw [← mapGet_isSome_iff]
  cases mapGet m k <;> simp

theorem history_of_profile (s : Service) (hs : s.KeysAgree) (profileId : String)
    (profile : Profile) (hp : mapGet s.userProfiles profileId = some profile) :
    ∃ history, mapGet s.conversations profileId = some history := by
  have hmem : profileId ∈ s.userProfiles.map Prod.fst := by
    rw [← mapGet_isSome_iff, hp]
    rfl
  rw [hs, ← mapGet_isSome_iff] at hmem
  exact Option.isSome_iff_exists.mp hmem

theorem keysAgree_generate (rt : Runtime) (up : Upstream) (now : Nat) (random : Draw)
    (s : Service) (profileId userMessage : String) (hs : s.KeysAgree) :
    (generateReflectionResponse rt up now random s profileId userMessage).2.KeysAgree := by
  cases hq : mapGet s.userProfiles profileId with
  | none =>
    rw [generate_not_found rt up now random s profileId userMessage hq]
    exact hs
  | some target =>
    by_cases hi : (performSafetyCheck rt userMessage target).1.needsIntervention = true
    · rw [generate_escalation rt up now random s profileId userMessage target hq hi]
      unfold Service.KeysAgree
      simp only
      rw [keys_mapSet_of_mem _ _ _ _ hq]
      exact hs
    · have hi' : (performSafetyCheck rt userMessage target).1.needsIntervention = false := by
        simpa using hi
      cases hb : buildReflectionPrompt target userMessage (detectMood rt userMessage)
          ((mapGet s.conversations profileId).getD []) with
      | error e =>
        rw [generate_failure rt up now random s profileId userMessage target e hq hi' hb]
        exact hs
      | ok prompt =>
        rw [generate_normal rt up now random s profileId userMessage target prompt hq hi' hb]
        unfold Service.KeysAgree
        simp only
        rw [keys_mapSet_of_mem _ _ _ _ hq]
        cases hh : mapGet s.conversations profileId with
        | none => exact hs
        | some history =>
          simp only
          rw [keys_mapSet_of_mem _ _ _ _ hh]
          exact hs

theorem keysAgree_apply (rt : Runtime) (s : Service) (c : Call) (hc : c.Admissible s)
    (hs : s.KeysAgree) : (c.apply rt s).KeysAgree := by
  cases c with
  | createReflectionProfile uuid now userData =>
    have hfresh : mapGet s.userProfiles uuid = none := hc
    have hfresh' : mapGet s.conversations uuid = none := by
      rw [mapGet_eq_none_iff] at hfresh ⊢
      rw [← hs]
      exact hfresh
    unfold Service.KeysAgree
    simp only [Call.apply, createReflectionProfile]
    rw [keys_mapSet_of_not_mem _ _ _ hfresh, keys_mapSet_of_not_mem _ _ _ hfresh', hs]
  | generateReflectionResponse up now random profileId userMessage =>
    exact keysAgree_generate rt up now random s profileId userMessage hs
  | getUserProfile profileId => exact hs
  | getAllProfiles => exact hs

theorem keysAgree_of_reaches (rt : Runtime) (s s' : Service) (h : Reaches rt s s')
    (hs : s.KeysAgree) : s'.KeysAgree := by
  induction h with
  | refl => exact hs
  | step c _ hc ih => exact keysAgree_apply rt _ c hc ih

theorem generate_appends (rt : Runtime) (up : Upstream) (now : Nat) (random : Draw)
    (s : Service) (profileId userMessage : String) (profile : Profile)
    (history : List ConversationEntry) (result : ReflectionResult)
    (hp : mapGet s.userProfiles profileId = some profile)
    (hh : mapGet s.conversations profileId = some history)
    (hi : (performSafetyCheck rt userMessage profile).1.needsIntervention = false)
    (hres : (generateReflectionResponse rt up now random s profileId userMessage).1
      = .ok result) :
    ∃ reply,
      result.success = true ∧
      result.response = some reply ∧
      mapGet (generateReflectionResponse rt up now random s profileId
          userMessage).2.conversations profileId =
        some (history ++ [{ user := userMessage, ai := reply, timestamp := now,
                            mood := detectMood rt userMessage }]) ∧
      (∀ other : String, other ≠ profileId →
        mapGet (generateReflectionResponse rt up now random s profileId
            userMessage).2.conversations other =
          mapGet s.conversations other) ∧
      ∃ profile',
        mapGet (generateReflectionResponse rt up now random s profileId
          userMessage).2.userProfiles profileId = some profile' := by
  cases hb : buildReflectionPrompt profile userMessage (detectMood rt userMessage)
      ((mapGet s.conversations profileId).getD []) with
  | error e =>
    rw [generate_failure rt up now random s profileId userMessage profile e hp hi hb] at hres
    cases hres
  | ok prompt =>
    rw [generate_normal rt up now random s profileId userMessage profile prompt hp hi hb]
      at hres ⊢
    simp only [Except.ok.injEq] at hres
    subst hres
    refine ⟨_, rfl, rfl, ?_, ?_, _, mapGet_mapSet_self _ _ _⟩
    · simp only [hh]
      exact mapGet_mapSet_self _ _ _
    · intro other hne
      simp only [hh]
      exact mapGet_mapSet_ne _ _ _ _ hne

theorem generate_returns (rt : Runtime) (up : Upstream) (now : Nat) (random : Draw)
    (s : Service) (profileId userMessage : String) (profile : Profile)
    (hp : mapGet s.userProfiles profileId = some profile)
    (hi : (performSafetyCheck rt userMessage profile).1.needsIntervention = false)
    (hr : profile.Renderable) :
    ∃ result,
      (generateReflectionResponse rt up now random s profileId userMessage).1 = .ok result ∧
      ∃ profile',
        mapGet (generateReflectionResponse rt up now random s profileId
          userMessage).2.userProfiles profileId = some profile' ∧
        profile'.Renderable := by
  obtain ⟨prompt, hb⟩ := buildReflectionPrompt_ok profile userMessage
    (detectMood rt userMessage) ((mapGet s.conversations profileId).getD []) hr
  rw [generate_normal rt up now random s profileId userMessage profile prompt hp hi hb]
  exact ⟨_, rfl, _, mapGet_mapSet_self _ _ _, hr⟩

theorem keysAgree_new (key : Option String) : (Service.new key).KeysAgree := rfl

theorem no_intervention_of_clear (rt : Runtime) (message : String) (profile : Profile)
    (h : ∀ phrase ∈ concerning, ¬ phrase.data <:+: (rt.toLowerCase message).data) :
    (performSafetyCheck rt message profile).1.needsIntervention = false := by
  unfold performSafetyCheck
  rw [safetyLoop_no_match _ _ _ h]

/-- C10. In a service reached from the constructor, a call for a stored
profile that does not escalate and returns a result returns `success = true`
and a reply, and the history of that profile after the call is its history
before the call followed by one entry with `user` the message, `ai` the reply
and `mood = detectMood(message)`; the history of every other profile is
unchanged.  After two such calls on a profile just created, its history is
the two entries in call order. -/
theorem history_append (rt : Runtime) (key : Option String) (s : Service)
    (hr : Reaches rt (Service.new key) s) :
    (∀ (up : Upstream) (now : Nat) (random : Draw) (profileId userMessage : String)
        (profile : Profile) (result : ReflectionResult),
      mapGet s.userProfiles profileId = some profile →
      (performSafetyCheck rt userMessage profile).1.needsIntervention = false →
      (generateReflectionResponse rt up now random s profileId userMessage).1 = .ok result →
      ∃ history reply,
        mapGet s.conversations profileId = some history ∧
        result.success = true ∧
        result.response = some reply ∧
        mapGet (generateReflectionResponse rt up now random s profileId
            userMessage).2.conversations profileId =
          some (history ++ [{ user := userMessage, ai := reply, timestamp := now,
                              mood := detectMood rt userMessage }]) ∧
        ∀ other : String, other ≠ profileId →
          mapGet (generateReflectionResponse rt up now random s profileId
              userMessage).2.conversations other =
            mapGet s.conversations other) ∧
    (∀ (uuid : String) (now₀ : Nat) (userData : UserData)
        (up₁ : Upstream) (now₁ : Nat) (random₁ : Draw) (message₁ : String)
        (result₁ : ReflectionResult)
        (up₂ : Upstream) (now₂ : Nat) (random₂ : Draw) (message₂ : String)
        (result₂ : ReflectionResult),
      mapGet s.userProfiles uuid = none →
      (∀ phrase ∈ concerning, ¬ phrase.data <:+: (rt.toLowerCase message₁).data) →
      (∀ phrase ∈ concerning, ¬ phrase.data <:+: (rt.toLowerCase message₂).data) →
      (generateReflectionResponse rt up₁ now₁ random₁
        (createReflectionProfile uuid now₀ s userData).2 uuid message₁).1 = .ok result₁ →
      (generateReflectionResponse rt up₂ now₂ random₂
        (generateReflectionResponse rt up₁ now₁ random₁
          (createReflectionProfile uuid now₀ s userData).2 uuid message₁).2
        uuid message₂).1 = .ok result₂ →
      ∃ reply₁ reply₂,
        result₁.response = some reply₁ ∧
        result₂.response = some reply₂ ∧
        mapGet (generateReflectionResponse rt up₂ now₂ random₂
          (generateReflectionResponse rt up₁ now₁ random₁
            (createReflectionProfile uuid now₀ s userData).2 uuid message₁).2
          uuid message₂).2.conversations uuid =
          some [{ user := message₁, ai := reply₁, timestamp := now₁,
                  mood := detectMood rt message₁ },
                { user := message₂, ai := reply₂, timestamp := now₂,
                  mood := detectMood rt message₂ }]) := by
  have hs : s.KeysAgree := keysAgree_of_reaches rt _ _ hr (keysAgree_new key)
  constructor
  · intro up now random profileId userMessage profile result hp hi hres
    obtain ⟨history, hh⟩ := history_of_profile s hs profileId profile hp
    obtain ⟨reply, hsucc, hreply, happ, hother, _⟩ :=
      generate_appends rt up now random s profileId userMessage profile history result
        hp hh hi hres
    exact ⟨history, reply, hh, hsucc, hreply, happ, hother⟩
  · intro uuid now₀ userData up₁ now₁ random₁ message₁ result₁ up₂ now₂ random₂ message₂
      result₂ _ hclear₁ hclear₂ hres₁ hres₂
    have hp₀ : mapGet (createReflectionProfile uuid now₀ s userData).2.userProfiles uuid =
        some (createReflectionProfile uuid now₀ s userData).1 := mapGet_mapSet_self _ _ _
    have hh₀ : mapGet (createReflectionProfile uuid now₀ s userData).2.conversations uuid =
        some [] := mapGet_mapSet_self _ _ _
    obtain ⟨reply₁, _, hreply₁, happ₁, _, profile₁, hp₁⟩ :=
      generate_appends rt up₁ now₁ random₁ _ uuid message₁ _ [] result₁ hp₀ hh₀
        (no_intervention_of_clear rt message₁ _ hclear₁) hres₁
    obtain ⟨reply₂, _, hreply₂, happ₂, _, _⟩ :=
      generate_appends rt up₂ now₂ random₂ _ uuid message₂ profile₁ _ result₂ hp₁ happ₁
        (no_intervention_of_clear rt message₂ _ hclear₂) hres₂
    exact ⟨reply₁, reply₂, hreply₁, hreply₂, by simpa using happ₂⟩

/-- C10 on the service just constructed: a profile is created and two messages
are sent; both calls return, and the history holds the two entries in call
order. -/
theorem history_append_witness :
    Reaches asciiRuntime (Service.new none) (Service.new none) ∧
    ∃ result₁ result₂ reply₁ reply₂,
      (generateReflectionResponse asciiRuntime sampleUpstream 1 Draw.zero
        (createReflectionProfile "p1" 0 (Service.new none) { name := .str "Alex" }).2
        "p1" "hello").1 = .ok result₁ ∧
      (generateReflectionResponse asciiRuntime sampleUpstream 2 Draw.zero
        (generateReflectionResponse asciiRuntime sampleUpstream 1 Draw.zero
          (createReflectionProfile "p1" 0 (Service.new none) { name := .str "Alex" }).2
          "p1" "hello").2
        "p1" "I am happy").1 = .ok result₂ ∧
      result₁.response = some reply₁ ∧
      result₂.response = some reply₂ ∧
      mapGet (generateReflectionResponse asciiRuntime sampleUpstream 2 Draw.zero
        (generateReflectionResponse asciiRuntime sampleUpstream 1 Draw.zero
          (createReflectionProfile "p1" 0 (Service.new none) { name := .str "Alex" }).2
          "p1" "hello").2
        "p1" "I am happy").2.conversations "p1" =
        some [{ user := "hello", ai := reply₁, timestamp := 1,
                mood := detectMood asciiRuntime "hello" },
              { user := "I am happy", ai := reply₂, timestamp := 2,
                mood := detectMood asciiRuntime "I am happy" }] :=
  have hr : Reaches asciiRuntime (Service.new none) (Service.new none) := Reaches.refl _
  have hclear₁ : ∀ phrase ∈ concerning,
      ¬ phrase.data <:+: (asciiRuntime.toLowerCase "hello").data :=
    fun phrase hp hin =>
      absurd ((someIncluded_iff _ concerning).mpr ⟨phrase, hp, hin⟩) (by decide)
  have hclear₂ : ∀ phrase ∈ concerning,
      ¬ phrase.data <:+: (asciiRuntime.toLowerCase "I am happy").data :=
    fun phrase hp hin =>
      absurd ((someIncluded_iff _ concerning).mpr ⟨phrase, hp, hin⟩) (by decide)
  have hret₁ := generate_returns asciiRuntime sampleUpstream 1 Draw.zero
    (createReflectionProfile "p1" 0 (Service.new none) { name := .str "Alex" }).2
    "p1" "hello"
    (createReflectionProfile "p1" 0 (Service.new none) { name := .str "Alex" }).1
    (mapGet_mapSet_self _ _ _)
    (no_intervention_of_clear asciiRuntime "hello" _ hclear₁)
    ⟨rfl, rfl, rfl, rfl, rfl, rfl, rfl⟩
  match hret₁ with
  | ⟨result₁, hres₁, profile₁, hp₁, hw₁⟩ =>
    have hret₂ := generate_returns asciiRuntime sampleUpstream 2 Draw.zero
      (generateReflectionResponse asciiRuntime sampleUpstream 1 Draw.zero
        (createReflectionProfile "p1" 0 (Service.new none) { name := .str "Alex" }).2
        "p1" "hello").2
      "p1" "I am happy" profile₁ hp₁
      (no_intervention_of_clear asciiRuntime "I am happy" _ hclear₂) hw₁
    match hret₂ with
    | ⟨result₂, hres₂, _⟩ =>
      match (history_append asciiRuntime none (Service.new none) hr).2 "p1" 0
        { name := .str "Alex" } sampleUpstream 1 Draw.zero "hello" result₁ sampleUpstream 2 Draw.zero
        "I am happy" result₂ rfl hclear₁ hclear₂ hres₁ hres₂ with
      | ⟨reply₁, reply₂, h₁, h₂, hh⟩ =>
        ⟨hr, result₁, result₂, reply₁, reply₂, hres₁, hres₂, h₁, h₂, hh⟩

/-! ## The conversation count -/

theorem generate_step (rt : Runtime) (up : Upstream) (now : Nat) (random : Draw)
    (s : Service) (profileId userMessage : String) (profile : Profile)
    (history : List ConversationEntry)
    (hp : mapGet s.userProfiles profileId = some profile)
    (hh : mapGet s.conversations profileId = some history)
    (hi : (performSafetyCheck rt userMessage profile).1.needsIntervention = false)
    (hr : profile.Renderable) :
    ∃ result reply,
      (generateReflectionResponse rt up now random s profileId userMessage).1 = .ok result ∧
      result.success = true ∧
      result.response = some reply ∧
      result.conversationCount = some ((history.length + 1) / 2) ∧
      mapGet (generateReflectionResponse rt up now random s profileId
          userMessage).2.userProfiles profileId =
        some { profile with conversationCount := (history.length + 1) / 2 } ∧
      mapGet (generateReflectionResponse rt up now random s profileId
          userMessage).2.conversations profileId =
        some (history ++ [{ user := userMessage, ai := reply, timestamp := now,
                            mood := detectMood rt userMessage }]) := by
  obtain ⟨prompt, hb⟩ := buildReflectionPrompt_ok profile userMessage
    (detectMood rt userMessage) ((mapGet s.conversations profileId).getD []) hr
  rw [generate_normal rt up now random s profileId userMessage profile prompt hp hi hb]
  refine ⟨_, _, rfl, rfl, rfl, ?_, ?_, ?_⟩
  · simp [hh]
  · simp only [hh, Option.getD_some]
    exact mapGet_mapSet_self _ _ _
  · simp only [hh]
    exact mapGet_mapSet_self _ _ _

theorem hello_clear :
    ∀ phrase ∈ concerning, ¬ phrase.data <:+: (asciiRuntime.toLowerCase "hello").data :=
  fun phrase hp hin =>
    absurd ((someIncluded_iff _ concerning).mpr ⟨phrase, hp, hin⟩) (by decide)

theorem happy_clear :
    ∀ phrase ∈ concerning,
      ¬ phrase.data <:+: (asciiRuntime.toLowerCase "I am happy").data :=
  fun phrase hp hin =>
    absurd ((someIncluded_iff _ concerning).mpr ⟨phrase, hp, hin⟩) (by decide)

/-- C11, evaluated on the code. A profile is created in a service without API
key and two messages that do not escalate are sent.  Both calls return
`success = true`; the first returns `conversationCount = 0` and the second
`conversationCount = 1`, the stored count after the second call is 1, and the
history then holds 2 entries: the count is half the number of exchanges,
rounded down, not the number of exchanges. -/
theorem conversationCount_after_two_calls :
    ∃ result₁ result₂ profile history,
      firstCall.1 = .ok result₁ ∧
      result₁.success = true ∧
      result₁.conversationCount = some 0 ∧
      secondCall.1 = .ok result₂ ∧
      result₂.success = true ∧
      result₂.conversationCount = some 1 ∧
      mapGet secondCall.2.userProfiles "p1" = some profile ∧
      profile.conversationCount = 1 ∧
      mapGet secondCall.2.conversations "p1" = some history ∧
      history.length = 2 := by
  have hp₀ : mapGet freshService.userProfiles "p1" =
      some (createReflectionProfile "p1" 0 (Service.new none) { name := .str "Alex" }).1 :=
    mapGet_mapSet_self _ _ _
  have hh₀ : mapGet freshService.conversations "p1" = some [] := mapGet_mapSet_self _ _ _
  obtain ⟨result₁, reply₁, hres₁, hsucc₁, _, hcount₁, hp₁, hh₁⟩ :=
    generate_step asciiRuntime sampleUpstream 1 Draw.zero freshService "p1" "hello" _ []
      hp₀ hh₀ (no_intervention_of_clear asciiRuntime "hello" _ hello_clear)
      ⟨rfl, rfl, rfl, rfl, rfl, rfl, rfl⟩
  obtain ⟨result₂, reply₂, hres₂, hsucc₂, _, hcount₂, hp₂, hh₂⟩ :=
    generate_step asciiRuntime sampleUpstream 2 Draw.zero firstCall.2 "p1" "I am happy" _ _
      hp₁ hh₁ (no_intervention_of_clear asciiRuntime "I am happy" _ happy_clear)
      ⟨rfl, rfl, rfl, rfl, rfl, rfl, rfl⟩
  refine ⟨result₁, result₂, _, _, hres₁, hsucc₁, hcount₁, hres₂, hsucc₂, ?_, hp₂, ?_,
    hh₂, ?_⟩
  · simpa using hcount₂
  · simp
  · simp

theorem countsHalved_new (key : Option String) : (Service.new key).CountsHalved := by
  intro profileId profile hp
  simp [Service.new, mapGet] at hp

theorem countsHalved_create (uuid : String) (now : Nat) (s : Service) (userData : UserData)
    (hs : s.CountsHalved) : (createReflectionProfile uuid now s userData).2.CountsHalved := by
  intro profileId profile hp
  by_cases hid : profileId = uuid
  · subst hid
    simp only [createReflectionProfile] at hp ⊢
    rw [mapGet_mapSet_self] at hp
    cases hp
    exact ⟨[], mapGet_mapSet_self _ _ _, rfl⟩
  · simp only [createReflectionProfile] at hp ⊢
    rw [mapGet_mapSet_ne _ _ _ _ hid] at hp
    obtain ⟨history, hh, hc⟩ := hs profileId profile hp
    exact ⟨history, by rw [mapGet_mapSet_ne _ _ _ _ hid]; exact hh, hc⟩

theorem countsHalved_generate (rt : Runtime) (up : Upstream) (now : Nat) (random : Draw)
    (s : Service) (profileId userMessage : String) (hs : s.CountsHalved) :
    (generateReflectionResponse rt up now random s profileId userMessage).2.CountsHalved := by
  cases hq : mapGet s.userProfiles profileId with
  | none =>
    rw [generate_not_found rt up now random s profileId userMessage hq]
    exact hs
  | some target =>
    obtain ⟨stored, hstored, hcount⟩ := hs profileId target hq
    by_cases hi : (performSafetyCheck rt userMessage target).1.needsIntervention = true
    · rw [generate_escalation rt up now random s profileId userMessage target hq hi]
      intro requested profile hp
      by_cases hid : requested = profileId
      · subst hid
        simp only at hp
        rw [mapGet_mapSet_self] at hp
        cases hp
        exact ⟨stored, hstored, hcount⟩
      · simp only at hp
        rw [mapGet_mapSet_ne _ _ _ _ hid] at hp
        exact hs requested profile hp
    · have hi' : (performSafetyCheck rt userMessage target).1.needsIntervention = false := by
        simpa using hi
      cases hb : buildReflectionPrompt target userMessage (detectMood rt userMessage)
          ((mapGet s.conversations profileId).getD []) with
      | error e =>
        rw [generate_failure rt up now random s profileId userMessage target e hq hi' hb]
        exact hs
      | ok prompt =>
        rw [generate_normal rt up now random s profileId userMessage target prompt hq hi' hb]
        intro requested profile hp
        by_cases hid : requested = profileId
        · subst hid
          simp only at hp
          rw [mapGet_mapSet_self] at hp
          cases hp
          simp only [hstored, Option.getD_some]
          exact ⟨_, mapGet_mapSet_self _ _ _, by simp⟩
        · simp only at hp
          rw [mapGet_mapSet_ne _ _ _ _ hid] at hp
          obtain ⟨history, hh, hc⟩ := hs requested profile hp
          refine ⟨history, ?_, hc⟩
          simp only [hstored]
          rw [mapGet_mapSet_ne _ _ _ _ hid]
          exact hh

theorem countsHalved_apply (rt : Runtime) (s : Service) (c : Call) (hs : s.CountsHalved) :
    (c.apply rt s).CountsHalved := by
  cases c with
  | createReflectionProfile uuid now userData => exact countsHalved_create uuid now s userData hs
  | generateReflectionResponse up now random profileId userMessage =>
    exact countsHalved_generate rt up now random s profileId userMessage hs
  | getUserProfile profileId => exact hs
  | getAllProfiles => exact hs

theorem countsHalved_of_reaches (rt : Runtime) (s s' : Service) (h : Reaches rt s s')
    (hs : s.CountsHalved) : s'.CountsHalved := by
  induction h with
  | refl => exact hs
  | step c _ _ ih => exact countsHalved_apply rt _ c ih

/-- C12. In every service reached from the constructor by calls of the public
methods (escalated and failed calls included), every stored profile has a
history and its `conversationCount` equals the length of that history divided
by 2, rounded down. -/
theorem conversationCount_invariant (rt : Runtime) (key : Option String) (s : Service)
    (hr : Reaches rt (Service.new key) s) (profileId : String) (profile : Profile)
    (hp : mapGet s.userProfiles profileId = some profile) :
    ∃ history,
      mapGet s.conversations profileId = some history ∧
      profile.conversationCount = history.length / 2 :=
  countsHalved_of_reaches rt _ _ hr (countsHalved_new key) profileId profile hp

/-- C12 on the service after a profile has been created and two messages have
been answered: the history holds 2 entries and the count is 1. -/
theorem conversationCount_invariant_witness :
    Reaches asciiRuntime (Service.new none) secondCall.2 ∧
    ∃ profile history,
      mapGet secondCall.2.userProfiles "p1" = some profile ∧
      mapGet secondCall.2.conversations "p1" = some history ∧
      history.length = 2 ∧
      profile.conversationCount = history.length / 2 := by
  have hr : Reaches asciiRuntime (Service.new none) secondCall.2 :=
    Reaches.step (.generateReflectionResponse sampleUpstream 2 Draw.zero "p1" "I am happy")
      (Reaches.step (.generateReflectionResponse sampleUpstream 1 Draw.zero "p1" "hello")
        (Reaches.step (.createReflectionProfile "p1" 0 { name := .str "Alex" })
          (Reaches.refl _) rfl)
        trivial)
      trivial
  have hp₀ : mapGet freshService.userProfiles "p1" =
      some (createReflectionProfile "p1" 0 (Service.new none) { name := .str "Alex" }).1 :=
    mapGet_mapSet_self _ _ _
  have hh₀ : mapGet freshService.conversations "p1" = some [] := mapGet_mapSet_self _ _ _
  obtain ⟨_, reply₁, _, _, _, _, hp₁, hh₁⟩ :=
    generate_step asciiRuntime sampleUpstream 1 Draw.zero freshService "p1" "hello" _ []
      hp₀ hh₀ (no_intervention_of_clear asciiRuntime "hello" _ hello_clear)
      ⟨rfl, rfl, rfl, rfl, rfl, rfl, rfl⟩
  obtain ⟨_, reply₂, _, _, _, _, hp₂, hh₂⟩ :=
    generate_step asciiRuntime sampleUpstream 2 Draw.zero firstCall.2 "p1" "I am happy" _ _
      hp₁ hh₁ (no_intervention_of_clear asciiRuntime "I am happy" _ happy_clear)
      ⟨rfl, rfl, rfl, rfl, rfl, rfl, rfl⟩
  obtain ⟨history, hh, hcount⟩ :=
    conversationCount_invariant asciiRuntime none secondCall.2 hr "p1" _ hp₂
  have hlen : history.length = 2 := by
    have heq : some history = some _ := hh.symm.trans hh₂
    simp only [Option.some.injEq] at heq
    rw [heq]
    simp
  exact ⟨hr, _, history, hp₂, hh, hlen, hcount⟩

/-! ## Validation at the create-profile route -/

/-- C13. For a body whose `name` is not truthy and whose `responses.name` is
missing or not truthy, the create-profile route replies with status 400,
`success = false` and `error = 'Name is required'`, and the service after the
request is the service before it; the reply and the service are the same
whatever `uuidv4()` and `new Date()` would have returned, as the service method
is not called. -/
theorem create_without_name (uuid : String) (now : Nat) (s : Service) (userData : UserData)
    (hname : userData.name.truthy = false)
    (hnested : (userData.nested (·.name)).truthy = false) :
    createProfileRoute uuid now s userData =
      ({ status := 400, success := false, error := some "Name is required" }, s) ∧
    (createProfileRoute uuid now s userData).2.userProfiles = s.userProfiles ∧
    (createProfileRoute uuid now s userData).2.conversations = s.conversations ∧
    ∀ (uuid' : String) (now' : Nat),
      createProfileRoute uuid' now' s userData = createProfileRoute uuid now s userData := by
  have h : ∀ (u : String) (n : Nat), createProfileRoute u n s userData =
      ({ status := 400, success := false, error := some "Name is required" }, s) := by
    intro u n
    simp [createProfileRoute, hname, hnested]
  refine ⟨h uuid now, ?_, ?_, ?_⟩
  · rw [h uuid now]
  · rw [h uuid now]
  · intro uuid' now'
    rw [h uuid now, h uuid' now']

/-- C13 at a body without any field. -/
theorem create_without_name_witness :
    ({} : UserData).name.truthy = false ∧
    (({} : UserData).nested (·.name)).truthy = false ∧
    createProfileRoute "p1" 0 (Service.new none) {} =
      ({ status := 400, success := false, error := some "Name is required" },
       Service.new none) :=
  ⟨rfl, rfl, (create_without_name "p1" 0 (Service.new none) {} rfl rfl).1⟩

/-! ## Field extraction at creation -/

theorem splitOnP_forall_not {α : Type} (p : α → Bool) (xs : List α) :
    ∀ segment ∈ xs.splitOnP p, ∀ x ∈ segment, p x = false := by
  induction xs with
  | nil =>
    intro segment hseg x hx
    simp at hseg
    subst hseg
    simp at hx
  | cons a rest ih =>
    rw [List.splitOnP_cons]
    by_cases ha : p a = true
    · simp only [ha, if_true]
      intro segment hseg x hx
      rcases List.mem_cons.mp hseg with rfl | hrest
      · simp at hx
      · exact ih segment hrest x hx
    · simp only [ha]
      cases hs : List.splitOnP p rest with
      | nil => exact absurd hs (List.splitOnP_ne_nil p rest)
      | cons first others =>
        rw [hs] at ih
        intro segment hseg x hx
        simp only [Bool.false_eq_true, if_false, List.modifyHead_cons, List.mem_cons] at hseg
        rcases hseg with rfl | hothers
        · rcases List.mem_cons.mp hx with rfl | hfirst
          · simpa using ha
          · exact ih first (List.mem_cons_self _ _) x hfirst
        · exact ih segment (List.mem_cons_of_mem _ hothers) x hx

theorem splitOn_comma_free (cs : List Char) :
    ∀ segment ∈ cs.splitOn ',', ',' ∉ segment := by
  intro segment hseg hmem
  have := splitOnP_forall_not (fun c => c == ',') cs segment hseg ',' hmem
  simp at this

theorem rdropWhile_append_rest {α : Type} (p : α → Bool) (l : List α) :
    ∃ back, l = l.rdropWhile p ++ back ∧ ∀ x ∈ back, p x = true := by
  induction l using List.reverseRecOn with
  | nil => exact ⟨[], by simp, by simp⟩
  | append_singleton init last ih =>
    by_cases hl : p last = true
    · obtain ⟨back, hback, hall⟩ := ih
      refine ⟨back ++ [last], ?_, ?_⟩
      · rw [List.rdropWhile_concat_pos _ _ _ hl, ← List.append_assoc, ← hback]
      · intro x hx
        rcases List.mem_append.mp hx with h | h
        · exact hall x h
        · simp at h
          rw [h]
          exact hl
    · exact ⟨[], by rw [List.rdropWhile_concat_neg _ _ _ hl]; simp, by simp⟩

theorem trim_eq (cs : List Char) :
    trim cs = (cs.dropWhile isTrimmed).rdropWhile isTrimmed := rfl

theorem trim_spec (cs : List Char) : IsTrimOf cs (trim cs) := by
  obtain ⟨back, hback, hall⟩ := rdropWhile_append_rest isTrimmed (cs.dropWhile isTrimmed)
  refine ⟨cs.takeWhile isTrimmed, back, ?_, ?_, hall, ?_, ?_⟩
  · rw [trim_eq, List.append_assoc, ← hback, List.takeWhile_append_dropWhile]
  · intro c hc
    exact List.mem_takeWhile_imp hc
  · intro c hc
    have hhead : (cs.dropWhile isTrimmed).head? = some c := by
      rw [hback, ← trim_eq]
      cases ht : trim cs with
      | nil => rw [ht] at hc; simp at hc
      | cons first others =>
        rw [ht] at hc
        simp at hc
        simp [hc]
    have := List.head?_dropWhile_not isTrimmed cs
    rw [hhead] at this
    exact this
  · intro c hc
    have hne : (cs.dropWhile isTrimmed).rdropWhile isTrimmed ≠ [] := by
      intro hnil
      rw [trim_eq, hnil] at hc
      simp at hc
    have hlast := List.rdropWhile_last_not isTrimmed (cs.dropWhile isTrimmed) hne
    rw [trim_eq, List.getLast?_eq_getLast _ hne] at hc
    simp only [Option.some.injEq] at hc
    rw [hc] at hlast
    simpa using hlast

theorem trim_subset (cs : List Char) : ∀ c ∈ trim cs, c ∈ cs := by
  intro c hc
  rw [trim_eq] at hc
  exact List.dropWhile_subset isTrimmed
    ((List.rdropWhile_prefix isTrimmed (cs.dropWhile isTrimmed)).subset hc)

theorem splitTrimmed_spec (text : String) :
    CommaSeparatedTrimmed text ((splitTrimmed text).map JSVal.str) := by
  refine ⟨text.data.splitOn ',', (text.data.splitOn ',').map trim, ?_, ?_, ?_, ?_, ?_⟩
  · exact List.splitOnP_ne_nil _ _
  · exact splitOn_comma_free text.data
  · exact List.intercalate_splitOn text.data ','
  · rw [List.forall₂_map_right_iff, List.forall₂_same]
    intro segment _
    exact trim_spec segment
  · unfold splitTrimmed
    rw [List.map_map]
    congr 1
    apply List.filter_congr
    intro segment _
    cases segment <;> simp

theorem splitTrimmed_clean (text : String) :
    ∀ item ∈ (splitTrimmed text).map JSVal.str, CleanItem item := by
  intro item hitem
  obtain ⟨t, ht, rfl⟩ := List.mem_map.mp hitem
  unfold splitTrimmed at ht
  obtain ⟨cs, hcs, rfl⟩ := List.mem_map.mp ht
  obtain ⟨hmem, hlen⟩ := List.mem_filter.mp hcs
  obtain ⟨segment, hseg, rfl⟩ := List.mem_map.mp hmem
  obtain ⟨_, _, _, _, _, hhead, hlast⟩ := trim_spec segment
  refine ⟨String.mk (trim segment), rfl, ?_, hhead, hlast, ?_⟩
  · intro hempty
    have hnil : trim segment = [] := by
      have := congrArg String.data hempty
      simpa using this
    rw [hnil] at hlen
    simp at hlen
  · intro hcomma
    exact splitOn_comma_free text.data segment hseg (trim_subset segment ',' hcomma)

theorem or_of_nonempty_string (text : String) (hne : text ≠ "") (other : JSVal) :
    (JSVal.str text).or other = .str text := by
  simp [JSVal.or, JSVal.truthy, hne]

/-- C14. For a non-empty string supplied as `interests` (respectively
`goals`), the interests (respectively goals) of the created profile are the
comma-separated segments of the string, each trimmed of surrounding whitespace,
with the empty ones dropped, in their original order; every element is a
non-empty string that neither begins nor ends with whitespace and contains no
comma; and the body `{name: 'Alex', interests: 'reading, hiking, cooking'}`
gives `['reading', 'hiking', 'cooking']`. -/
theorem interests_goals_of_string (uuid : String) (now : Nat) (s : Service)
    (userData : UserData) (text : String) (hne : text ≠ "") :
    (userData.interests = .str text →
      CommaSeparatedTrimmed text (createReflectionProfile uuid now s userData).1.interests ∧
      ∀ item ∈ (createReflectionProfile uuid now s userData).1.interests, CleanItem item) ∧
    (userData.goals = .str text →
      CommaSeparatedTrimmed text (createReflectionProfile uuid now s userData).1.goals ∧
      ∀ item ∈ (createReflectionProfile uuid now s userData).1.goals, CleanItem item) ∧
    (createReflectionProfile uuid now s
        { name := .str "Alex", interests := .str "reading, hiking, cooking" }).1.interests =
      [.str "reading", .str "hiking", .str "cooking"] := by
  refine ⟨?_, ?_, ?_⟩
  · intro h
    have hi : (createReflectionProfile uuid now s userData).1.interests =
        (splitTrimmed text).map JSVal.str := by
      simp only [createReflectionProfile, extractInterests, h, or_of_nonempty_string text hne]
    rw [hi]
    exact ⟨splitTrimmed_spec text, splitTrimmed_clean text⟩
  · intro h
    have hg : (createReflectionProfile uuid now s userData).1.goals =
        (splitTrimmed text).map JSVal.str := by
      simp only [createReflectionProfile, extractGoals, h, or_of_nonempty_string text hne]
    rw [hg]
    exact ⟨splitTrimmed_spec text, splitTrimmed_clean text⟩
  · rfl

/-- C14 at the string `a, ,b` supplied as interests: the empty segment is
dropped. -/
theorem interests_goals_of_string_witness :
    ("a, ,b" : String) ≠ "" ∧
    (createReflectionProfile "p1" 0 (Service.new none)
        { name := .str "Alex", interests := .str "a, ,b" }).1.interests =
      [.str "a", .str "b"] ∧
    CommaSeparatedTrimmed "a, ,b"
      (createReflectionProfile "p1" 0 (Service.new none)
        { name := .str "Alex", interests := .str "a, ,b" }).1.interests :=
  have hne : ("a, ,b" : String) ≠ "" := by decide
  ⟨hne, rfl,
    ((interests_goals_of_string "p1" 0 (Service.new none)
      { name := .str "Alex", interests := .str "a, ,b" } "a, ,b" hne).1 rfl).1⟩

/-- C15. The traits of the created profile are a list.  With the supplied
value being the explicit field `personalityTraits` if truthy and else the nested
field `responses.personality_traits`: if it is an array, the array is stored
unchanged (so an explicit array is stored, and a nested array is stored when
the explicit field is not truthy); in every other case, and when nothing is
supplied, the stored value is `['thoughtful', 'growth-oriented']`. -/
theorem traits_array_or_default (uuid : String) (now : Nat) (s : Service)
    (userData : UserData) :
    (∀ traits : List JSVal,
      userData.personalityTraits.or (userData.nested (·.personality_traits)) = .arr traits →
      (createReflectionProfile uuid now s userData).1.personalityTraits = traits) ∧
    ((∀ traits : List JSVal,
        userData.personalityTraits.or (userData.nested (·.personality_traits)) ≠ .arr traits) →
      (createReflectionProfile uuid now s userData).1.personalityTraits =
        [.str "thoughtful", .str "growth-oriented"]) ∧
    (∀ traits : List JSVal, userData.personalityTraits = .arr traits →
      (createReflectionProfile uuid now s userData).1.personalityTraits = traits) ∧
    (∀ traits : List JSVal, userData.personalityTraits.truthy = false →
      userData.nested (·.personality_traits) = .arr traits →
      (createReflectionProfile uuid now s userData).1.personalityTraits = traits) ∧
    (userData.personalityTraits = .undefined → userData.responses = none →
      (createReflectionProfile uuid now s userData).1.personalityTraits =
        [.str "thoughtful", .str "growth-oriented"]) := by
  have hstored : (createReflectionProfile uuid now s userData).1.personalityTraits =
      extractTraits userData := rfl
  have harr : ∀ traits : List JSVal,
      userData.personalityTraits.or (userData.nested (·.personality_traits)) = .arr traits →
      extractTraits userData = traits := by
    intro traits h
    simp [extractTraits, h]
  have hdefault : (∀ traits : List JSVal,
      userData.personalityTraits.or (userData.nested (·.personality_traits)) ≠ .arr traits) →
      extractTraits userData = [.str "thoughtful", .str "growth-oriented"] := by
    intro h
    unfold extractTraits
    split
    · next traits heq => exact absurd heq (h traits)
    · rfl
  refine ⟨?_, ?_, ?_, ?_, ?_⟩
  · intro traits h
    rw [hstored, harr traits h]
  · intro h
    rw [hstored, hdefault h]
  · intro traits h
    rw [hstored]
    apply harr
    simp [h, JSVal.or, JSVal.truthy]
  · intro traits hfalsy h
    rw [hstored]
    apply harr
    simp [JSVal.or, hfalsy, h]
  · intro hmissing hnone
    rw [hstored]
    apply hdefault
    intro traits
    simp [hmissing, UserData.nested, hnone, JSVal.or, JSVal.truthy]

/-- C15 at a body with traits as a string (the default is stored) and at a
body with an empty array (the empty array is stored). -/
theorem traits_array_or_default_witness :
    (createReflectionProfile "p1" 0 (Service.new none)
        { name := .str "Alex", personalityTraits := .str "curious" }).1.personalityTraits =
      [.str "thoughtful", .str "growth-oriented"] ∧
    (createReflectionProfile "p1" 0 (Service.new none)
        { name := .str "Alex", personalityTraits := .arr [] }).1.personalityTraits = [] :=
  ⟨(traits_array_or_default "p1" 0 (Service.new none)
      { name := .str "Alex", personalityTraits := .str "curious" }).2.1
      (by intro traits h; simp [JSVal.or, JSVal.truthy] at h),
   (traits_array_or_default "p1" 0 (Service.new none)
      { name := .str "Alex", personalityTraits := .arr [] }).2.2.1 [] rfl⟩

/-! ## Identifiers -/

theorem mem_mapSet {β : Type} (m : List (String × β)) (k : String) (v : β)
    (e : String × β) (he : e ∈ mapSet m k v) : e ∈ m ∨ e = (k, v) := by
  induction m with
  | nil =>
    simp [mapSet] at he
    exact Or.inr he
  | cons first rest ih =>
    obtain ⟨k', v'⟩ := first
    by_cases hk : k' = k
    · simp only [mapSet, hk, if_true, List.mem_cons] at he
      rcases he with h | h
      · exact Or.inr h
      · exact Or.inl (List.mem_cons_of_mem _ h)
    · simp only [mapSet, hk, if_false, List.mem_cons] at he
      rcases he with h | h
      · exact Or.inl (h ▸ List.mem_cons_self _ _)
      · rcases ih h with h' | h'
        · exact Or.inl (List.mem_cons_of_mem _ h')
        · exact Or.inr h'

theorem mem_of_mapGet {β : Type} (m : List (String × β)) (k : String) (v : β)
    (h : mapGet m k = some v) : (k, v) ∈ m := by
  induction m with
  | nil => simp [mapGet] at h
  | cons first rest ih =>
    obtain ⟨k', v'⟩ := first
    by_cases hk : k' = k
    · subst hk
      simp [mapGet] at h
      simp [h]
    · simp [mapGet, hk] at h
      exact List.mem_cons_of_mem _ (ih h)

theorem mapSet_of_not_mem {β : Type} (m : List (String × β)) (k : String) (v : β)
    (h : mapGet m k = none) : mapSet m k v = m ++ [(k, v)] := by
  induction m with
  | nil => rfl
  | cons first rest ih =>
    obtain ⟨k', v'⟩ := first
    by_cases hk : k' = k
    · simp [mapGet, hk] at h
    · simp [mapGet, hk] at h
      simp [mapSet, hk, ih h]

theorem idsMatch_new (key : Option String) : (Service.new key).IdsMatch := by
  constructor
  · intro e he
    simp [Service.new] at he
  · simp [Service.new]

theorem idsMatch_set (s : Service) (hs : s.IdsMatch) (profileId : String)
    (target profile : Profile) (hq : mapGet s.userProfiles profileId = some target)
    (hid : profile.id = target.id) :
    ({ s with userProfiles := mapSet s.userProfiles profileId profile } : Service).IdsMatch := by
  constructor
  · intro e he
    rcases mem_mapSet _ _ _ e he with h | h
    · exact hs.1 e h
    · subst h
      simp only
      rw [hid]
      exact hs.1 (profileId, target) (mem_of_mapGet _ _ _ hq)
  · simp only
    rw [keys_mapSet_of_mem _ _ _ _ hq]
    exact hs.2

theorem idsMatch_generate (rt : Runtime) (up : Upstream) (now : Nat) (random : Draw)
    (s : Service) (profileId userMessage : String) (hs : s.IdsMatch) :
    (generateReflectionResponse rt up now random s profileId userMessage).2.IdsMatch := by
  cases hq : mapGet s.userProfiles profileId with
  | none =>
    rw [generate_not_found rt up now random s profileId userMessage hq]
    exact hs
  | some target =>
    by_cases hi : (performSafetyCheck rt userMessage target).1.needsIntervention = true
    · rw [generate_escalation rt up now random s profileId userMessage target hq hi]
      exact idsMatch_set s hs profileId target (flagged target) hq rfl
    · have hi' : (performSafetyCheck rt userMessage target).1.needsIntervention = false := by
        simpa using hi
      cases hb : buildReflectionPrompt target userMessage (detectMood rt userMessage)
          ((mapGet s.conversations profileId).getD []) with
      | error e =>
        rw [generate_failure rt up now random s profileId userMessage target e hq hi' hb]
        exact hs
      | ok prompt =>
        rw [generate_normal rt up now random s profileId userMessage target prompt hq hi' hb]
        have h := idsMatch_set s hs profileId target
          { target with
            conversationCount :=
              (((mapGet s.conversations profileId).getD []).length + 1) / 2 } hq rfl
        exact ⟨h.1, h.2⟩

theorem idsMatch_apply (rt : Runtime) (s : Service) (c : Call) (hc : c.Admissible s)
    (hs : s.IdsMatch) : (c.apply rt s).IdsMatch := by
  cases c with
  | createReflectionProfile uuid now userData =>
    have hfresh : mapGet s.userProfiles uuid = none := hc
    constructor
    · intro e he
      simp only [Call.apply, createReflectionProfile] at he
      rcases mem_mapSet _ _ _ e he with h | h
      · exact hs.1 e h
      · subst h
        rfl
    · simp only [Call.apply, createReflectionProfile]
      rw [keys_mapSet_of_not_mem _ _ _ hfresh]
      apply List.Nodup.append hs.2 (List.nodup_singleton _)
      intro k hk hk'
      simp only [List.mem_singleton] at hk'
      subst hk'
      exact (mapGet_eq_none_iff _ _).mp hfresh hk
  | generateReflectionResponse up now random profileId userMessage =>
    exact idsMatch_generate rt up now random s profileId userMessage hs
  | getUserProfile profileId => exact hs
  | getAllProfiles => exact hs

theorem idsMatch_of_reaches (rt : Runtime) (s s' : Service) (h : Reaches rt s s')
    (hs : s.IdsMatch) : s'.IdsMatch := by
  induction h with
  | refl => exact hs
  | step c _ hc ih => exact idsMatch_apply rt _ c hc ih

theorem reaches_trans (rt : Runtime) (s₁ s₂ s₃ : Service) (h₁ : Reaches rt s₁ s₂)
    (h₂ : Reaches rt s₂ s₃) : Reaches rt s₁ s₃ := by
  induction h₂ with
  | refl => exact h₁
  | step c _ hc ih => exact Reaches.step c ih hc

theorem profile_persists (rt : Runtime) (s s' : Service) (h : Reaches rt s s')
    (profileId : String) (profile : Profile)
    (hp : mapGet s.userProfiles profileId = some profile) :
    ∃ profile', mapGet s'.userProfiles profileId = some profile' := by
  induction h with
  | refl => exact ⟨profile, hp⟩
  | step c _ hc ih =>
    obtain ⟨mid, hmid⟩ := ih
    obtain ⟨profile', hp', _⟩ := call_profile_after rt _ c hc profileId mid hmid
    exact ⟨profile', hp'⟩

theorem create_returns_iff (uuid : String) (now : Nat) (s : Service) (userData : UserData) :
    (createReflectionProfile uuid now s userData).thrown = none ↔
      (createReflectionProfile uuid now s userData).1.name.convertible = true := by
  by_cases h : (createReflectionProfile uuid now s userData).1.name.convertible = true
  · simp only [h, iff_true]
    simp only [createReflectionProfile] at h ⊢
    simp [JSVal.interpolate, h]
  · simp only [h, iff_false]
    simp only [createReflectionProfile] at h ⊢
    simp [JSVal.interpolate, h]

theorem created_name_of_string (uuid : String) (now : Nat) (s : Service)
    (userData : UserData) (name : String) (hname : userData.name = .str name)
    (hne : name ≠ "") :
    (createReflectionProfile uuid now s userData).1.name.convertible = true := by
  simp [createReflectionProfile, hname, JSVal.or, JSVal.truthy, hne, JSVal.convertible]

/-- C16. In a service reached from the constructor: when `uuidv4()` returns an
identifier that is not in the store, `createReflectionProfile` builds and
stores a profile `p` with that identifier such that `getUserProfile(p.id)`
returns `p`, the history of `p` is empty, `p.conversationCount = 0` and
`p.safetyFlags = {concerningMessages: 0, needsSupport: false}`, and every
profile and history stored before is unchanged; the call returns `p` exactly
when `ToString` returns on `p.name`, which its log statement interpolates, and
it returns for every name that is a non-empty string.  Every stored profile has
the
key it is stored under as its `id`, the identifiers of the stored profiles are
pairwise different, and a stored profile keeps its key and `id` along every
further sequence of calls. -/
theorem create_and_identifiers (rt : Runtime) (key : Option String) (s : Service)
    (hr : Reaches rt (Service.new key) s) :
    (∀ (uuid : String) (now : Nat) (userData : UserData),
      mapGet s.userProfiles uuid = none →
      (createReflectionProfile uuid now s userData).1.id = uuid ∧
      getUserProfile (createReflectionProfile uuid now s userData).2
          (createReflectionProfile uuid now s userData).1.id =
        some (createReflectionProfile uuid now s userData).1 ∧
      mapGet (createReflectionProfile uuid now s userData).2.conversations
          (createReflectionProfile uuid now s userData).1.id = some [] ∧
      (createReflectionProfile uuid now s userData).1.conversationCount = 0 ∧
      (createReflectionProfile uuid now s userData).1.safetyFlags =
        { concerningMessages := 0, needsSupport := false } ∧
      (∀ (profileId : String) (profile : Profile),
        mapGet s.userProfiles profileId = some profile →
        mapGet (createReflectionProfile uuid now s userData).2.userProfiles profileId =
          some profile) ∧
      (∀ (profileId : String) (history : List ConversationEntry),
        mapGet s.conversations profileId = some history →
        mapGet (createReflectionProfile uuid now s userData).2.conversations profileId =
          some history) ∧
      ((createReflectionProfile uuid now s userData).thrown = none ↔
        (createReflectionProfile uuid now s userData).1.name.convertible = true) ∧
      (∀ name : String, userData.name = .str name → name ≠ "" →
        (createReflectionProfile uuid now s userData).thrown = none)) ∧
    (∀ (profileId : String) (profile : Profile),
      mapGet s.userProfiles profileId = some profile → profile.id = profileId) ∧
    (s.userProfiles.map (fun e => e.2.id)).Nodup ∧
    (∀ s' : Service, Reaches rt s s' →
      ∀ (profileId : String) (profile : Profile),
        mapGet s.userProfiles profileId = some profile →
        ∃ profile', mapGet s'.userProfiles profileId = some profile' ∧
          profile'.id = profile.id) := by
  have hids : s.IdsMatch := idsMatch_of_reaches rt _ _ hr (idsMatch_new key)
  have hkeys : s.KeysAgree := keysAgree_of_reaches rt _ _ hr (keysAgree_new key)
  have hkey : ∀ (σ : Service), σ.IdsMatch → ∀ (profileId : String) (profile : Profile),
      mapGet σ.userProfiles profileId = some profile → profile.id = profileId :=
    fun σ hσ profileId profile hp => hσ.1 (profileId, profile) (mem_of_mapGet _ _ _ hp)
  refine ⟨?_, hkey s hids, ?_, ?_⟩
  · intro uuid now userData hfresh
    have hfresh' : mapGet s.conversations uuid = none := by
      rw [mapGet_eq_none_iff] at hfresh ⊢
      rw [← hkeys]
      exact hfresh
    refine ⟨rfl, mapGet_mapSet_self _ _ _, mapGet_mapSet_self _ _ _, rfl, rfl, ?_, ?_,
      create_returns_iff uuid now s userData, ?_⟩
    rotate_right
    · intro name hname hne
      rw [create_returns_iff]
      exact created_name_of_string uuid now s userData name hname hne
    · intro profileId profile hp
      have hne : profileId ≠ uuid := by
        rintro rfl
        rw [hfresh] at hp
        cases hp
      simp only [createReflectionProfile]
      rw [mapGet_mapSet_ne _ _ _ _ hne]
      exact hp
    · intro profileId history hh
      have hne : profileId ≠ uuid := by
        rintro rfl
        rw [hfresh'] at hh
        cases hh
      simp only [createReflectionProfile]
      rw [mapGet_mapSet_ne _ _ _ _ hne]
      exact hh
  · have hmap : s.userProfiles.map (fun e => e.2.id) = s.userProfiles.map Prod.fst :=
      List.map_congr_left (fun e he => hids.1 e he)
    rw [hmap]
    exact hids.2
  · intro s' hr' profileId profile hp
    obtain ⟨profile', hp'⟩ := profile_persists rt s s' hr' profileId profile hp
    have hids' : s'.IdsMatch :=
      idsMatch_of_reaches rt _ _ (reaches_trans rt _ _ _ hr hr') (idsMatch_new key)
    exact ⟨profile', hp', by rw [hkey s' hids' profileId profile' hp', hkey s hids profileId profile hp]⟩

/-- C16 on the service just constructed, for the identifier `p1`. -/
theorem create_and_identifiers_witness :
    Reaches asciiRuntime (Service.new none) (Service.new none) ∧
    mapGet (Service.new none).userProfiles "p1" = none ∧
    getUserProfile freshService "p1" =
      some (createReflectionProfile "p1" 0 (Service.new none) { name := .str "Alex" }).1 ∧
    mapGet freshService.conversations "p1" = some [] :=
  have hr : Reaches asciiRuntime (Service.new none) (Service.new none) := Reaches.refl _
  have h := (create_and_identifiers asciiRuntime none (Service.new none) hr).1 "p1" 0
    { name := .str "Alex" } rfl
  ⟨hr, rfl, h.2.1, h.2.2.1⟩

/-! ## The listing of profiles -/

/-- C17. `getAllProfiles` leaves the service as it is and returns, for the
stored profiles in insertion order, one summary each with the profile's `id`,
`name`, `createdAt`, `conversationCount` and, as `traits`, its
`personalityTraits`; a second call returns the same summaries; the summaries
are the same for every service whose profiles agree in those five fields,
whatever the histories, writing samples and safety flags; and a profile created
under a new identifier is listed last. -/
theorem getAllProfiles_summaries (rt : Runtime) (s : Service) :
    Call.apply rt s .getAllProfiles = s ∧
    getAllProfiles s =
      s.userProfiles.map (fun e =>
        { id := e.2.id
          name := e.2.name
          createdAt := e.2.createdAt
          conversationCount := e.2.conversationCount
          traits := e.2.personalityTraits }) ∧
    (getAllProfiles s).length = s.userProfiles.length ∧
    getAllProfiles (Call.apply rt s .getAllProfiles) = getAllProfiles s ∧
    (∀ s' : Service,
      s'.userProfiles.map (fun e =>
          (e.2.id, e.2.name, e.2.createdAt, e.2.conversationCount, e.2.personalityTraits)) =
        s.userProfiles.map (fun e =>
          (e.2.id, e.2.name, e.2.createdAt, e.2.conversationCount, e.2.personalityTraits)) →
      getAllProfiles s' = getAllProfiles s) ∧
    (∀ (uuid : String) (now : Nat) (userData : UserData),
      mapGet s.userProfiles uuid = none →
      getAllProfiles (createReflectionProfile uuid now s userData).2 =
        getAllProfiles s ++
          [{ id := uuid
             name := (createReflectionProfile uuid now s userData).1.name
             createdAt := now
             conversationCount := 0
             traits := (createReflectionProfile uuid now s userData).1.personalityTraits }]) := by
  have hmap : ∀ σ : Service, getAllProfiles σ =
      (σ.userProfiles.map (fun e =>
        (e.2.id, e.2.name, e.2.createdAt, e.2.conversationCount, e.2.personalityTraits))).map
        (fun q => { id := q.1, name := q.2.1, createdAt := q.2.2.1,
                    conversationCount := q.2.2.2.1, traits := q.2.2.2.2 }) := by
    intro σ
    simp [getAllProfiles, List.map_map, Function.comp_def]
  refine ⟨rfl, ?_, ?_, rfl, ?_, ?_⟩
  · simp [getAllProfiles, List.map_map, Function.comp_def]
  · simp [getAllProfiles]
  · intro s' h
    rw [hmap s', hmap s, h]
  · intro uuid now userData hfresh
    simp only [getAllProfiles, createReflectionProfile]
    rw [mapSet_of_not_mem _ _ _ hfresh]
    simp

/-- C17 on the service with one profile. -/
theorem getAllProfiles_summaries_witness :
    getAllProfiles sampleService =
      [{ id := "p1"
         name := .str "Alex"
         createdAt := 0
         conversationCount := 0
         traits := [.str "thoughtful", .str "growth-oriented"] }] ∧
    getAllProfiles (Call.apply asciiRuntime sampleService .getAllProfiles) =
      getAllProfiles sampleService :=
  ⟨rfl, (getAllProfiles_summaries asciiRuntime sampleService).2.2.2.1⟩

/-! ## The recent-conversation block of the prompt -/

theorem sliceLast_length {α : Type} (n : Nat) (xs : List α) :
    (sliceLast n xs).length = min n xs.length := by
  simp only [sliceLast, List.length_drop]
  omega

theorem sliceLast_append {α : Type} (n : Nat) (older recent : List α)
    (h : recent.length = n) : sliceLast n (older ++ recent) = recent := by
  unfold sliceLast
  have hlen : (older ++ recent).length - n = older.length := by
    rw [List.length_append, h]
    omega
  rw [hlen, List.drop_left]

theorem sliceLast_of_le {α : Type} (n : Nat) (xs : List α) (h : xs.length ≤ n) :
    sliceLast n xs = xs := by
  unfold sliceLast
  have hlen : xs.length - n = 0 := by omega
  rw [hlen, List.drop_zero]

/-- C18. For a history of `n` entries the recent-conversation block is built
from the last `min(6, n)` entries in their order: each is rendered as
`User: ` and the user message, a line break, `Reflection: ` and the reply, and
the renderings are joined by a blank line.  The block of the empty history is
empty; a history of at most six entries is rendered whole; the block depends on
the last six entries only; and for a renderable profile the prompt is the block
between a text that ends with the heading `RECENT CONVERSATION:` and a text
that begins with the current message, both independent of the history, while
for any other profile the builder throws for every history. -/
theorem recentHistory_block (conversations : List ConversationEntry) :
    (sliceLast 6 conversations).length = min 6 conversations.length ∧
    sliceLast 6 conversations <:+ conversations ∧
    recentHistory conversations =
      "\n\n".intercalate
        ((sliceLast 6 conversations).map
          (fun entry => "User: " ++ entry.user ++ "\n" ++ "Reflection: " ++ entry.ai)) ∧
    recentHistory [] = "" ∧
    (conversations.length ≤ 6 → sliceLast 6 conversations = conversations) ∧
    (∀ older recent : List ConversationEntry, recent.length = 6 →
      conversations = older ++ recent →
      sliceLast 6 conversations = recent ∧ recentHistory conversations = recentHistory recent) ∧
    (∀ (profile : Profile) (message mood : String),
      profile.Renderable →
      ∃ before after : String,
        ∀ history : List ConversationEntry,
          buildReflectionPrompt profile message mood history =
            .ok (before ++ "RECENT CONVERSATION:\n" ++ recentHistory history ++
              "\n\nCURRENT MESSAGE: \"" ++ message ++ after)) ∧
    (∀ (profile : Profile) (message mood : String),
      ¬ profile.Renderable →
      ∀ history : List ConversationEntry,
        ∃ e, buildReflectionPrompt profile message mood history = .error e) := by
  refine ⟨sliceLast_length 6 conversations, List.drop_suffix _ _, ?_, rfl,
    sliceLast_of_le 6 conversations, ?_, ?_, ?_⟩
  · unfold recentHistory
    congr 2
    funext entry
    simp [String.append_assoc]
  · intro older recent hlen hsplit
    have hslice : sliceLast 6 conversations = recent := by
      rw [hsplit]
      exact sliceLast_append 6 older recent hlen
    refine ⟨hslice, ?_⟩
    unfold recentHistory
    rw [hslice, sliceLast_of_le 6 recent (le_of_eq hlen)]
  · intro profile message mood hr
    obtain ⟨h₁, h₂, h₃, h₄, h₅, h₆, h₇⟩ := hr
    obtain ⟨sample, hw⟩ := (isString_iff _).mp h₇
    refine ⟨"You are \"" ++ profile.name.toStr ++
      "\" - an AI reflection and inner wisdom guide for this person.\n\n" ++
      "PERSONALITY PROFILE:\n" ++
      "- Traits: " ++ JSVal.join profile.personalityTraits ", " ++ "\n" ++
      "- Communication Style: " ++ profile.communicationStyle.toStr ++ "\n" ++
      "- Interests: " ++ JSVal.join profile.interests ", " ++ "\n" ++
      "- Support Style: " ++ profile.supportStyle.toStr ++ "\n" ++
      "- Goals: " ++ JSVal.join profile.goals ", " ++ "\n\n" ++
      "CONTEXT:\n" ++
      "- Current mood detected: " ++ mood ++ "\n" ++
      "- Writing sample: \"" ++ String.mk (sample.data.take 200) ++ "...\"\n\n",
      "\"\n\n" ++
      "INSTRUCTIONS:\n" ++
      "Respond as their wise inner voice with 2-4 sentences. Be supportive, insightful, and personalized to their profile. Match their communication style while offering gentle guidance and reflection. Focus on their growth and wellbeing.\n\n" ++
      "Response:", ?_⟩
    intro history
    simp [buildReflectionPrompt, JSVal.interpolate, JSVal.interpolateJoin, substringTo,
      h₁, h₂, h₃, h₄, h₅, h₆, hw, String.append_assoc]
  · intro profile message mood hr history
    exact buildReflectionPrompt_error profile message mood history hr

/-- C18 at the history `sixExchanges` preceded by one older entry: the block
is that of `sixExchanges`. -/
theorem recentHistory_block_witness :
    sixExchanges.length = 6 ∧
    recentHistory
        ({ user := "u0", ai := "a0", timestamp := 0, mood := "neutral" } :: sixExchanges) =
      recentHistory sixExchanges :=
  ⟨rfl,
    ((recentHistory_block
      ({ user := "u0", ai := "a0", timestamp := 0, mood := "neutral" } :: sixExchanges)).2.2.2.2.2.1
      [{ user := "u0", ai := "a0", timestamp := 0, mood := "neutral" }] sixExchanges rfl rfl).2⟩

/-- C19 as stated fails: for a history of six exchanges the block renders six
user/reply pairs, and it has six lines that begin with `User: ` and six that
begin with `Reflection: `, twelve labeled lines in all. -/
theorem recentHistory_pairs_counterexample :
    sixExchanges.length = 6 ∧
    ((sliceLast 6 sixExchanges).map
      (fun entry => "User: " ++ entry.user ++ "\n" ++ "Reflection: " ++ entry.ai)).length = 6 ∧
    labeledLines "User: " (recentHistory sixExchanges) = 6 ∧
    labeledLines "Reflection: " (recentHistory sixExchanges) = 6 := by
  decide

/-- C19, amended. For every history the block renders one user/reply pair for
each entry it takes; it takes at most 6 entries, and exactly 6 when the
history has at least 6, so the block holds at most 6 pairs. -/
theorem recentHistory_pairs (conversations : List ConversationEntry) :
    recentHistory conversations =
      "\n\n".intercalate
        ((sliceLast 6 conversations).map
          (fun entry => "User: " ++ entry.user ++ "\n" ++ "Reflection: " ++ entry.ai)) ∧
    ((sliceLast 6 conversations).map
      (fun entry => "User: " ++ entry.user ++ "\n" ++ "Reflection: " ++ entry.ai)).length ≤ 6 ∧
    (6 ≤ conversations.length →
      ((sliceLast 6 conversations).map
        (fun entry =>
          "User: " ++ entry.user ++ "\n" ++ "Reflection: " ++ entry.ai)).length = 6) := by
  refine ⟨?_, ?_, ?_⟩
  · unfold recentHistory
    congr 2
    funext entry
    simp [String.append_assoc]
  · rw [List.length_map, sliceLast_length]
    exact min_le_left _ _
  · intro h
    rw [List.length_map, sliceLast_length]
    exact min_eq_left h

/-- C19, amended, at a history of six exchanges. -/
theorem recentHistory_pairs_witness :
    6 ≤ sixExchanges.length ∧
    ((sliceLast 6 sixExchanges).map
      (fun entry => "User: " ++ entry.user ++ "\n" ++ "Reflection: " ++ entry.ai)).length = 6 :=
  ⟨by decide, (recentHistory_pairs sixExchanges).2.2 (by decide)⟩

/-! ## The fallback reply -/

theorem infix_of_append (front name back : String) :
    name.data <:+: (front ++ name ++ back).data :=
  ⟨front.data, back.data, by simp⟩

/-- C20. `generateFallbackResponse` returns, for the moods sad, frustrated,
happy, anxious and neutral, the entry of that mood, and for every other label
(so for uncertain, grateful and motivated) the neutral entry; each entry is a
fixed text around the profile's name, so the result contains the name as a
string; the function is total; and the result is the same for every
message.  The name enters by the string that `ToString` returns on it: the
service calls the method only in a call of `generateReflectionResponse` that
does not escalate, after the prompt builder has converted the name, so on every
such call the conversion returns.  (Labels that name a member of
`Object.prototype` are outside the embedding of the table lookup; `detectMood`
returns none of them.) -/
theorem generateFallbackResponse_table (profile : Profile) (message mood : String) :
    (mood = "sad" →
      generateFallbackResponse profile message mood =
        "I can sense the heaviness in your words. Remember, " ++ profile.name.toStr ++
          " believes in your strength, even when it's hard to see.") ∧
    (mood = "frustrated" →
      generateFallbackResponse profile message mood =
        "That frustration sounds intense. Your " ++ profile.name.toStr ++
          " knows you have the wisdom to work through this challenge.") ∧
    (mood = "happy" →
      generateFallbackResponse profile message mood =
        "I can feel the joy in your message! Your " ++ profile.name.toStr ++
          " celebrates these bright moments with you.") ∧
    (mood = "anxious" →
      generateFallbackResponse profile message mood =
        "Those worries feel big right now. Let your " ++ profile.name.toStr ++
          " remind you that you've overcome difficulties before.") ∧
    (mood ∉ ["sad", "frustrated", "happy", "anxious"] →
      generateFallbackResponse profile message mood =
        "I hear you, and your " ++ profile.name.toStr ++
          " is here to listen and reflect with you on whatever you're experiencing.") ∧
    generateFallbackResponse profile message "neutral" =
      generateFallbackResponse profile message "uncertain" ∧
    generateFallbackResponse profile message "neutral" =
      generateFallbackResponse profile message "grateful" ∧
    generateFallbackResponse profile message "neutral" =
      generateFallbackResponse profile message "motivated" ∧
    profile.name.toStr.data <:+: (generateFallbackResponse profile message mood).data ∧
    (∀ name : String, profile.name = .str name →
      name.data <:+: (generateFallbackResponse profile message mood).data) ∧
    (∀ message' : String,
      generateFallbackResponse profile message' mood =
        generateFallbackResponse profile message mood) ∧
    (∀ (rt : Runtime) (up : Upstream) (now : Nat) (random : Draw) (s : Service)
        (profileId userMessage : String) (result : ReflectionResult),
      mapGet s.userProfiles profileId = some profile →
      (performSafetyCheck rt userMessage profile).1.needsIntervention = false →
      (generateReflectionResponse rt up now random s profileId userMessage).1 = .ok result →
      profile.name.convertible = true) := by
  have hinfix : profile.name.toStr.data <:+:
      (generateFallbackResponse profile message mood).data := by
    unfold generateFallbackResponse
    simp only
    split_ifs <;> exact infix_of_append _ _ _
  refine ⟨?_, ?_, ?_, ?_, ?_, rfl, rfl, rfl, hinfix, ?_, fun _ => rfl, ?_⟩
  rotate_right
  · intro rt up now random s profileId userMessage result hp hi hres
    exact generate_converts_name rt up now random s profileId userMessage profile result
      hp hi hres
  · rintro rfl
    rfl
  · rintro rfl
    rfl
  · rintro rfl
    rfl
  · rintro rfl
    rfl
  · intro h
    simp only [List.mem_cons, List.mem_singleton, List.not_mem_nil, or_false, not_or] at h
    obtain ⟨h₁, h₂, h₃, h₄⟩ := h
    simp [generateFallbackResponse, h₁, h₂, h₃, h₄]
  · intro name hname
    have h := hinfix
    rw [hname] at h
    exact h

/-- C20 at the sample profile and the label `grateful`, which has no entry of
its own. -/
theorem generateFallbackResponse_table_witness :
    "grateful" ∉ ["sad", "frustrated", "happy", "anxious"] ∧
    generateFallbackResponse sampleProfile "thank you" "grateful" =
      "I hear you, and your Alex is here to listen and reflect with you on whatever you're experiencing." :=
  have h : "grateful" ∉ ["sad", "frustrated", "happy", "anxious"] := by decide
  ⟨h, (generateFallbackResponse_table sampleProfile "thank you" "grateful").2.2.2.2.1 h⟩

/-! ## The generic fallback table and the suggestions -/

/-- C21 as stated fails: for the labels uncertain, grateful and motivated
`getFallbackResponse` returns the default string, the one it returns for
neutral and for an unrecognized label. -/
theorem getFallbackResponse_counterexample :
    getFallbackResponse "uncertain" =
      "I'm here with you, ready to listen and reflect together on whatever is on your mind." ∧
    getFallbackResponse "grateful" = getFallbackResponse "uncertain" ∧
    getFallbackResponse "motivated" = getFallbackResponse "uncertain" ∧
    getFallbackResponse "neutral" = getFallbackResponse "uncertain" ∧
    getFallbackResponse "no such mood" = getFallbackResponse "uncertain" := by
  decide

/-- C21, amended. `getFallbackResponse` returns, for each of the four labels
sad, frustrated, happy and anxious, that mood's own string, which differs from
the default string, and for every other label (neutral, uncertain, grateful
and motivated among them) the default string.  (Labels that name a member of
`Object.prototype` are outside the embedding of the table lookup.) -/
theorem getFallbackResponse_table (mood : String) :
    (mood = "sad" →
      getFallbackResponse mood =
        "I'm here with you in this difficult moment. Your feelings are valid, and you don't have to face this alone.") ∧
    (mood = "frustrated" →
      getFallbackResponse mood =
        "That frustration is real and understandable. Sometimes taking a breath can help us see new possibilities.") ∧
    (mood = "happy" →
      getFallbackResponse mood =
        "I love seeing this joy in you! These positive moments are treasures to hold onto.") ∧
    (mood = "anxious" →
      getFallbackResponse mood =
        "Those anxious feelings are tough to carry. Remember that you have inner strength, even when it doesn't feel that way.") ∧
    (mood ∉ ["sad", "frustrated", "happy", "anxious"] →
      getFallbackResponse mood =
        "I'm here with you, ready to listen and reflect together on whatever is on your mind.") ∧
    (mood ∈ ["sad", "frustrated", "happy", "anxious"] →
      getFallbackResponse mood ≠
        "I'm here with you, ready to listen and reflect together on whatever is on your mind.") := by
  refine ⟨?_, ?_, ?_, ?_, ?_, ?_⟩
  · rintro rfl
    rfl
  · rintro rfl
    rfl
  · rintro rfl
    rfl
  · rintro rfl
    rfl
  · intro h
    simp only [List.mem_cons, List.mem_singleton, List.not_mem_nil, or_false, not_or] at h
    obtain ⟨h₁, h₂, h₃, h₄⟩ := h
    simp [getFallbackResponse, h₁, h₂, h₃, h₄]
  · intro h
    simp only [List.mem_cons, List.mem_singleton, List.not_mem_nil, or_false] at h
    rcases h with rfl | rfl | rfl | rfl <;> decide

/-- C21, amended, at the labels `anxious` and `grateful`. -/
theorem getFallbackResponse_table_witness :
    "anxious" ∈ ["sad", "frustrated", "happy", "anxious"] ∧
    "grateful" ∉ ["sad", "frustrated", "happy", "anxious"] ∧
    getFallbackResponse "anxious" ≠
      "I'm here with you, ready to listen and reflect together on whatever is on your mind." ∧
    getFallbackResponse "grateful" =
      "I'm here with you, ready to listen and reflect together on whatever is on your mind." :=
  have h₁ : "anxious" ∈ ["sad", "frustrated", "happy", "anxious"] := by decide
  have h₂ : "grateful" ∉ ["sad", "frustrated", "happy", "anxious"] := by decide
  ⟨h₁, h₂, (getFallbackResponse_table "anxious").2.2.2.2.2 h₁,
    (getFallbackResponse_table "grateful").2.2.2.2.1 h₂⟩

/-- C22. `generateSuggestions` returns a list of exactly three strings for
every label: the mood's own triple for each of sad, frustrated, happy, anxious,
uncertain, grateful and motivated, and the default triple for every other
label.  A call of `generateReflectionResponse` for a stored profile that does
not escalate returns, whenever it returns a result, `mood = detectMood(message)`
and `suggestions = generateSuggestions(detectMood(message))`; it does return a
result when the profile is renderable (its writing sample is a string and
`ToString` returns on the fields that the prompt interpolates), and it throws
a `ReferenceError` otherwise.  (Labels that name a member of `Object.prototype`
are outside the embedding of the table lookup.) -/
theorem suggestions_table (rt : Runtime) (up : Upstream) (now : Nat) (random : Draw)
    (s : Service) (profileId userMessage : String) (profile : Profile)
    (hp : mapGet s.userProfiles profileId = some profile)
    (hi : (performSafetyCheck rt userMessage profile).1.needsIntervention = false) :
    (∀ mood : String, (generateSuggestions mood).length = 3) ∧
    generateSuggestions "sad" =
      ["Tell me more about that feeling", "What would bring you comfort?",
       "What's one small thing that might help?"] ∧
    generateSuggestions "frustrated" =
      ["What's the core of this frustration?", "How can we channel this energy?",
       "What would resolution look like?"] ∧
    generateSuggestions "happy" =
      ["What made this moment special?", "How can you create more joy?",
       "What are you most grateful for?"] ∧
    generateSuggestions "anxious" =
      ["What feels manageable right now?", "Let's break this down together",
       "What would help you feel grounded?"] ∧
    generateSuggestions "uncertain" =
      ["What do you know for sure?", "What's your intuition telling you?",
       "What's one small next step?"] ∧
    generateSuggestions "grateful" =
      ["What else brings you joy?", "How can you share this feeling?",
       "What are you looking forward to?"] ∧
    generateSuggestions "motivated" =
      ["What's driving this energy?", "How will you maintain this momentum?",
       "What's your next goal?"] ∧
    (∀ mood : String,
      mood ∉ ["sad", "frustrated", "happy", "anxious", "uncertain", "grateful",
        "motivated"] →
      generateSuggestions mood =
        ["What's your inner wisdom telling you?", "Tell me more about that",
         "How are you feeling about this?"]) ∧
    (∀ result : ReflectionResult,
      (generateReflectionResponse rt up now random s profileId userMessage).1 = .ok result →
      result.mood = some (detectMood rt userMessage) ∧
      result.suggestions = some (generateSuggestions (detectMood rt userMessage))) ∧
    (profile.Renderable →
      ∃ result : ReflectionResult,
        (generateReflectionResponse rt up now random s profileId userMessage).1 = .ok result ∧
        result.mood = some (detectMood rt userMessage) ∧
        result.suggestions = some (generateSuggestions (detectMood rt userMessage))) ∧
    (¬ profile.Renderable →
      (generateReflectionResponse rt up now random s profileId userMessage).1 =
        .error (.referenceError "mood is not defined")) := by
  have hfields : ∀ result : ReflectionResult,
      (generateReflectionResponse rt up now random s profileId userMessage).1 = .ok result →
      result.mood = some (detectMood rt userMessage) ∧
      result.suggestions = some (generateSuggestions (detectMood rt userMessage)) := by
    intro result hres
    obtain ⟨prompt, _, hresult⟩ :=
      generate_result rt up now random s profileId userMessage profile result hp hi hres
    rw [hresult]
    exact ⟨rfl, rfl⟩
  refine ⟨?_, rfl, rfl, rfl, rfl, rfl, rfl, rfl, ?_, hfields, ?_, ?_⟩
  · intro mood
    unfold generateSuggestions
    split_ifs <;> rfl
  · intro mood h
    simp only [List.mem_cons, List.mem_singleton, List.not_mem_nil, or_false, not_or] at h
    obtain ⟨h₁, h₂, h₃, h₄, h₅, h₆, h₇⟩ := h
    simp [generateSuggestions, h₁, h₂, h₃, h₄, h₅, h₆, h₇]
  · intro hr
    obtain ⟨result, hres, _⟩ := generate_returns rt up now random s profileId userMessage
      profile hp hi hr
    exact ⟨result, hres, hfields result hres⟩
  · intro hr
    obtain ⟨e, he⟩ := buildReflectionPrompt_error profile userMessage
      (detectMood rt userMessage) ((mapGet s.conversations profileId).getD []) hr
    rw [generate_failure rt up now random s profileId userMessage profile e hp hi he]

/-- C22 at the stored sample profile and a message with the keyword `happy`. -/
theorem suggestions_table_witness :
    mapGet sampleService.userProfiles "p1" = some sampleProfile ∧
    (performSafetyCheck asciiRuntime "I am happy" sampleProfile).1.needsIntervention
      = false ∧
    sampleProfile.Renderable ∧
    ∃ result : ReflectionResult,
      (generateReflectionResponse asciiRuntime sampleUpstream 1 Draw.zero sampleService "p1"
        "I am happy").1 = .ok result ∧
      result.mood = some (detectMood asciiRuntime "I am happy") ∧
      result.suggestions =
        some (generateSuggestions (detectMood asciiRuntime "I am happy")) :=
  have hp : mapGet sampleService.userProfiles "p1" = some sampleProfile := by
    simp [sampleService, mapGet]
  have hi : (performSafetyCheck asciiRuntime "I am happy"
      sampleProfile).1.needsIntervention = false :=
    no_intervention_of_clear asciiRuntime "I am happy" sampleProfile happy_clear
  ⟨hp, hi, sampleProfile_renderable,
    (suggestions_table asciiRuntime sampleUpstream 1 Draw.zero sampleService "p1" "I am happy"
      sampleProfile hp hi).2.2.2.2.2.2.2.2.2.2.1 sampleProfile_renderable⟩

/-! ## Substrings are not words -/

/-- C25. Whenever `toLowerCase` turns `I made dinner` into `i made dinner`,
`detectMood` returns `frustrated` for it, although no keyword of any mood
occurs in the message as a whole word: the keyword `mad` of the category
frustrated occurs inside the word `made`. -/
theorem detectMood_substring (rt : Runtime)
    (h : rt.toLowerCase "I made dinner" = "i made dinner") :
    detectMood rt "I made dinner" = "frustrated" ∧
    detectMood rt "I made dinner" ≠ "neutral" ∧
    (∀ e ∈ moodMap, ∀ keyword ∈ e.2, occursAsWord "i made dinner" keyword = false) ∧
    (∀ e ∈ moodMap, ∀ keyword ∈ e.2, occursAsWord "I made dinner" keyword = false) ∧
    ("frustrated", ["angry", "frustrated", "mad", "annoyed", "irritated", "upset"]) ∈ moodMap ∧
    "mad".data <:+: "made".data ∧
    "mad".data <:+: (rt.toLowerCase "I made dinner").data := by
  have hmood : detectMood rt "I made dinner" = "frustrated" := by
    unfold detectMood
    rw [h]
    decide
  refine ⟨hmood, ?_, by decide, by decide, by decide, ?_, ?_⟩
  · rw [hmood]
    decide
  · exact (includes_iff_occurs "made" "mad").mp (by decide)
  · rw [h]
    exact (includes_iff_occurs "i made dinner" "mad").mp (by decide)

/-- C25 with the ASCII lower-casing. -/
theorem detectMood_substring_witness :
    asciiRuntime.toLowerCase "I made dinner" = "i made dinner" ∧
    detectMood asciiRuntime "I made dinner" = "frustrated" ∧
    ∀ e ∈ moodMap, ∀ keyword ∈ e.2, occursAsWord "i made dinner" keyword = false :=
  have h : asciiRuntime.toLowerCase "I made dinner" = "i made dinner" := by decide
  ⟨h, (detectMood_substring asciiRuntime h).1, (detectMood_substring asciiRuntime h).2.2.1⟩

/-! ## The upstream client: results and failures -/

theorem field_truthy (v x : Json) (key : String) (h : v.field key = some x) :
    v.truthy = true := by
  cases v <;> first | rfl | simp [Json.field] at h

theorem first_truthy (v x : Json) (h : v.first = some x) : v.truthy = true := by
  cases v with
  | null => simp [Json.first] at h
  | bool b => simp [Json.first] at h
  | num n => simp [Json.first] at h
  | str s =>
    simp only [Json.first, Option.map_eq_some'] at h
    obtain ⟨c, hc, _⟩ := h
    have hne : s ≠ "" := by
      rintro rfl
      simp at hc
    simp [Json.truthy, hne]
  | arr items => rfl
  | obj fields => rfl

theorem callOpenRouterAPI_ok (status : Nat) (statusText : String)
    (data choices firstChoice message : Json) (content : String)
    (hc : data.field "choices" = some choices)
    (hf : choices.first = some firstChoice)
    (hm : firstChoice.field "message" = some message)
    (ht : message.field "content" = some (.str content)) :
    callOpenRouterAPI (.responded true status statusText (.ok data)) =
      .ok (String.mk (trim content.data)) := by
  have hct := first_truthy choices firstChoice hf
  have hft := field_truthy firstChoice message "message" hm
  have hmt := field_truthy message (.str content) "content" ht
  cases data with
  | obj fields => simp [callOpenRouterAPI, hc, hf, hct, hft, hmt, hm, ht]
  | null => simp [Json.field] at hc
  | bool b => simp [Json.field] at hc
  | num n => simp [Json.field] at hc
  | str s => simp [Json.field] at hc
  | arr items => simp [Json.field] at hc

theorem callOpenRouterAPI_ok_inv (outcome : FetchOutcome) (reply : String)
    (h : callOpenRouterAPI outcome = .ok reply) :
    ∃ (status : Nat) (statusText : String) (data choices firstChoice message : Json)
      (content : String),
      outcome = .responded true status statusText (.ok data) ∧
      data.field "choices" = some choices ∧
      choices.first = some firstChoice ∧
      firstChoice.field "message" = some message ∧
      message.field "content" = some (.str content) ∧
      reply = String.mk (trim content.data) := by
  unfold callOpenRouterAPI at h
  split at h
  · cases h
  · next ok status statusText body =>
    split at h
    · cases h
    · next hok =>
      have hok' : ok = true := by simpa using hok
      subst hok'
      split at h
      · cases h
      · cases h
      · next data hnull =>
        split at h
        · cases h
        · next choices hc =>
          split at h
          · cases h
          · split at h
            · cases h
            · next firstChoice hf =>
              split at h
              · cases h
              · split at h
                · cases h
                · next message hm =>
                  split at h
                  · cases h
                  · split at h
                    · next content ht =>
                      simp only [Except.ok.injEq] at h
                      exact ⟨status, statusText, data, choices, firstChoice, message,
                        content, rfl, hc, hf, hm, ht, h.symm⟩
                    · cases h
                    · cases h
                    · cases h

/-- C24. With the outcome of the HTTP request as data, `callOpenRouterAPI`
returns a string exactly when the request was not rejected, the response has
`ok` set, its body parses, and `choices[0].message.content` of the body is a
string; the string returned is then that content without its leading and
trailing whitespace.  In every other case it throws: when the request is
rejected, when `ok` is not set, when the body does not parse, when `choices`
is missing or empty, when `message` is missing, when `content` is missing. -/
theorem callOpenRouterAPI_spec (outcome : FetchOutcome) :
    (∀ reply : String,
      callOpenRouterAPI outcome = .ok reply ↔
        ∃ (status : Nat) (statusText : String) (data choices firstChoice message : Json)
          (content : String),
          outcome = .responded true status statusText (.ok data) ∧
          data.field "choices" = some choices ∧
          choices.first = some firstChoice ∧
          firstChoice.field "message" = some message ∧
          message.field "content" = some (.str content) ∧
          reply = String.mk (trim content.data) ∧
          IsTrimOf content.data reply.data) ∧
    ((∀ reply : String, callOpenRouterAPI outcome ≠ .ok reply) →
      ∃ error, callOpenRouterAPI outcome = .error error) ∧
    (∀ error : JSError, outcome = .rejected error →
      callOpenRouterAPI outcome = .error error) ∧
    (∀ (status : Nat) (statusText : String) (body : Except JSError Json),
      outcome = .responded false status statusText body →
      callOpenRouterAPI outcome =
        .error (.error ("OpenRouter API error: " ++ toString status ++ " " ++ statusText))) ∧
    (∀ (status : Nat) (statusText : String) (error : JSError),
      outcome = .responded true status statusText (.error error) →
      callOpenRouterAPI outcome = .error error) ∧
    (∀ (status : Nat) (statusText : String) (data : Json),
      outcome = .responded true status statusText (.ok data) →
      (data.field "choices" = none ∨ data.field "choices" = some (.arr []) ∨
        (∃ choices firstChoice, data.field "choices" = some choices ∧
          choices.first = some firstChoice ∧ firstChoice.field "message" = none) ∨
        (∃ choices firstChoice message, data.field "choices" = some choices ∧
          choices.first = some firstChoice ∧ firstChoice.field "message" = some message ∧
          message.field "content" = none)) →
      ∃ error, callOpenRouterAPI outcome = .error error) := by
  have hiff : ∀ reply : String,
      callOpenRouterAPI outcome = .ok reply ↔
        ∃ (status : Nat) (statusText : String) (data choices firstChoice message : Json)
          (content : String),
          outcome = .responded true status statusText (.ok data) ∧
          data.field "choices" = some choices ∧
          choices.first = some firstChoice ∧
          firstChoice.field "message" = some message ∧
          message.field "content" = some (.str content) ∧
          reply = String.mk (trim content.data) ∧
          IsTrimOf content.data reply.data := by
    intro reply
    constructor
    · intro h
      obtain ⟨status, statusText, data, choices, firstChoice, message, content, ho, hc, hf,
        hm, ht, hr⟩ := callOpenRouterAPI_ok_inv outcome reply h
      exact ⟨status, statusText, data, choices, firstChoice, message, content, ho, hc, hf,
        hm, ht, hr, by rw [hr]; exact trim_spec content.data⟩
    · rintro ⟨status, statusText, data, choices, firstChoice, message, content, ho, hc, hf,
        hm, ht, hr, _⟩
      rw [ho, hr]
      exact callOpenRouterAPI_ok status statusText data choices firstChoice message content
        hc hf hm ht
  have hfail : ∀ (status : Nat) (statusText : String) (data : Json),
      outcome = .responded true status statusText (.ok data) →
      (∀ choices firstChoice message content,
        ¬ (data.field "choices" = some choices ∧ choices.first = some firstChoice ∧
          firstChoice.field "message" = some message ∧
          message.field "content" = some (.str content))) →
      ∃ error, callOpenRouterAPI outcome = .error error := by
    intro status statusText data ho hno
    cases hcall : callOpenRouterAPI outcome with
    | error error => exact ⟨error, rfl⟩
    | ok reply =>
      obtain ⟨status', statusText', data', choices, firstChoice, message, content, ho', hc,
        hf, hm, ht, _⟩ := callOpenRouterAPI_ok_inv outcome reply hcall
      rw [ho] at ho'
      cases ho'
      exact absurd ⟨hc, hf, hm, ht⟩ (hno choices firstChoice message content)
  refine ⟨hiff, ?_, ?_, ?_, ?_, ?_⟩
  · intro hno
    cases hcall : callOpenRouterAPI outcome with
    | error error => exact ⟨error, rfl⟩
    | ok reply => exact absurd hcall (hno reply)
  · rintro error rfl
    rfl
  · rintro status statusText body rfl
    simp [callOpenRouterAPI]
  · rintro status statusText error rfl
    simp [callOpenRouterAPI]
  · intro status statusText data ho hcase
    apply hfail status statusText data ho
    rintro choices firstChoice message content ⟨hc, hf, hm, ht⟩
    rcases hcase with h | h | ⟨choices', firstChoice', hc', hf', hm'⟩ |
      ⟨choices', firstChoice', message', hc', hf', hm', ht'⟩
    · rw [h] at hc
      cases hc
    · rw [h] at hc
      cases hc
      simp [Json.first] at hf
    · rw [hc'] at hc
      cases hc
      rw [hf'] at hf
      cases hf
      rw [hm'] at hm
      cases hm
    · rw [hc'] at hc
      cases hc
      rw [hf'] at hf
      cases hf
      rw [hm'] at hm
      cases hm
      rw [ht'] at ht
      cases ht

/-- C24 at a successful response with one choice: the content is returned
without its surrounding whitespace. -/
theorem callOpenRouterAPI_spec_witness :
    callOpenRouterAPI (.responded true 200 "OK" (.ok sampleBody)) = .ok "Hello there" :=
  ((callOpenRouterAPI_spec (.responded true 200 "OK" (.ok sampleBody))).1 "Hello there").mpr
    ⟨200, "OK", sampleBody, _, _, _, "  Hello there \n", rfl, rfl, rfl, rfl, rfl, by decide,
      trim_spec "  Hello there \n".data⟩

/-! ## The success payload of the chat route -/

theorem chatRoute_of_result (rt : Runtime) (up : Upstream) (now : Nat) (random : Draw)
    (sent : Nat) (s : Service) (profileId text : String) (result : ReflectionResult)
    (hid : profileId ≠ "") (ht : String.mk (trim text.data) ≠ "")
    (hres : (generateReflectionResponse rt up now random s profileId
      (String.mk (trim text.data))).1 = .ok result)
    (hsucc : result.success = true) :
    (chatRoute rt up now random sent s
        { profileId := .str profileId, message := .str text }).1 =
      { status := 200
        success := true
        response := result.response
        profileName := result.profileName
        conversationCount := result.conversationCount
        mood := result.mood
        suggestions := result.suggestions
        timestamp := some sent } := by
  rcases hg : generateReflectionResponse rt up now random s profileId
    (String.mk (trim text.data)) with ⟨outcome, s'⟩
  rw [hg] at hres
  simp only at hres
  subst hres
  simp [chatRoute, JSVal.interpolate, JSVal.convertible, optionalTrim, respondTo, JSVal.truthy,
    hid, ht, hg, hsucc]

/-- C23 as stated fails: for the stored sample profile and a message that
escalates, `generateReflectionResponse` reports success with a result that
carries neither `profileName` nor `conversationCount`, and the success payload
of the chat route has no value for these two fields. -/
theorem success_fields_counterexample :
    (∃ result,
      (generateReflectionResponse asciiRuntime sampleUpstream 1 Draw.zero sampleService "p1"
        "I feel hopeless").1 = .ok result ∧
      result.success = true ∧
      result.profileName = none ∧
      result.conversationCount = none) ∧
    (chatRoute asciiRuntime sampleUpstream 1 Draw.zero 2 sampleService
      { profileId := .str "p1", message := .str "I feel hopeless" }).1.success = true ∧
    (chatRoute asciiRuntime sampleUpstream 1 Draw.zero 2 sampleService
      { profileId := .str "p1", message := .str "I feel hopeless" }).1.profileName = none ∧
    (chatRoute asciiRuntime sampleUpstream 1 Draw.zero 2 sampleService
      { profileId := .str "p1", message := .str "I feel hopeless" }).1.conversationCount
      = none := by
  have hp : mapGet sampleService.userProfiles "p1" = some sampleProfile := by
    simp [sampleService, mapGet]
  have hi : (performSafetyCheck asciiRuntime "I feel hopeless"
      sampleProfile).1.needsIntervention = true := by
    rw [performSafetyCheck_eq]
    have : someIncluded (asciiRuntime.toLowerCase "I feel hopeless") concerning = true := by
      decide
    simp [this]
  have hg := generate_escalation asciiRuntime sampleUpstream 1 Draw.zero sampleService "p1"
    "I feel hopeless" sampleProfile hp hi
  have htrim : String.mk (trim "I feel hopeless".data) = "I feel hopeless" := by decide
  have hres : (generateReflectionResponse asciiRuntime sampleUpstream 1 Draw.zero sampleService "p1"
      (String.mk (trim "I feel hopeless".data))).1 =
      .ok (generateSupportResponse Draw.zero (flagged sampleProfile)
        { needsIntervention := true, concernLevel := "high" }) := by
    rw [htrim, hg]
  have hroute := chatRoute_of_result asciiRuntime sampleUpstream 1 Draw.zero 2 sampleService "p1"
    "I feel hopeless" _ (by decide) (by rw [htrim]; decide) hres rfl
  refine ⟨⟨_, by rw [hg], rfl, rfl, rfl⟩, ?_, ?_, ?_⟩
  · rw [hroute]
  · rw [hroute]
    rfl
  · rw [hroute]
    rfl

/-- C23, amended. For a stored profile: a call that does not escalate and
returns a result returns `success = true` with `response`, `profileName`,
`conversationCount`, `mood` and `suggestions`; a call that escalates (for a draw
`0 ≤ random < 1`) returns `success = true` with `response`, `mood`,
`suggestions` and `needsSupport`, and with neither `profileName` nor
`conversationCount`.  The success payload of the chat route copies the five
fields from the result, so it has a value for each of them on the first path
and none for `profileName` and `conversationCount` on the second. -/
theorem success_fields (rt : Runtime) (up : Upstream) (now : Nat) (random : Draw) (sent : Nat)
    (s : Service) (profileId text : String) (profile : Profile)
    (hp : mapGet s.userProfiles profileId = some profile)
    (hid : profileId ≠ "") (ht : String.mk (trim text.data) ≠ "") :
    ((performSafetyCheck rt (String.mk (trim text.data)) profile).1.needsIntervention
        = false →
      ∀ result : ReflectionResult,
        (generateReflectionResponse rt up now random s profileId
          (String.mk (trim text.data))).1 = .ok result →
        result.success = true ∧
        (∃ reply, result.response = some reply) ∧
        result.profileName = some profile.name ∧
        (∃ count, result.conversationCount = some count) ∧
        (∃ mood, result.mood = some mood) ∧
        (∃ suggestions, result.suggestions = some suggestions)) ∧
    ((performSafetyCheck rt (String.mk (trim text.data)) profile).1.needsIntervention
        = true →
      ∃ result : ReflectionResult,
        (generateReflectionResponse rt up now random s profileId
          (String.mk (trim text.data))).1 = .ok result ∧
        result.success = true ∧
        (∃ reply, result.response = some reply) ∧
        result.mood = some "concerning" ∧
        (∃ suggestions, result.suggestions = some suggestions) ∧
        result.needsSupport = some true ∧
        result.profileName = none ∧
        result.conversationCount = none) ∧
    (∀ result : ReflectionResult,
      (generateReflectionResponse rt up now random s profileId
        (String.mk (trim text.data))).1 = .ok result →
      result.success = true →
      (chatRoute rt up now random sent s
          { profileId := .str profileId, message := .str text }).1 =
        { status := 200
          success := true
          response := result.response
          profileName := result.profileName
          conversationCount := result.conversationCount
          mood := result.mood
          suggestions := result.suggestions
          timestamp := some sent }) := by
  refine ⟨?_, ?_, ?_⟩
  · intro hi result hres
    obtain ⟨prompt, _, hresult⟩ := generate_result rt up now random s profileId
      (String.mk (trim text.data)) profile result hp hi hres
    rw [hresult]
    exact ⟨rfl, ⟨_, rfl⟩, rfl, ⟨_, rfl⟩, ⟨_, rfl⟩, ⟨_, rfl⟩⟩
  · intro hi
    rw [generate_escalation rt up now random s profileId (String.mk (trim text.data))
      profile hp hi]
    obtain ⟨_, _, _, _, ⟨reply, _, hreply⟩, hmood, hneeds, hsucc, hsugg⟩ :=
      generateSupportResponse_reply random (flagged profile)
        { needsIntervention := true, concernLevel := "high" }
    exact ⟨_, rfl, hsucc, ⟨reply, hreply⟩, hmood, ⟨_, hsugg⟩, hneeds, rfl, rfl⟩
  · intro result hres hsucc
    exact chatRoute_of_result rt up now random sent s profileId text result hid ht hres hsucc

/-- C23, amended, at the stored sample profile and a message that does not
escalate: the result carries the name of the profile. -/
theorem success_fields_witness :
    mapGet sampleService.userProfiles "p1" = some sampleProfile ∧
    ("p1" : String) ≠ "" ∧
    String.mk (trim "hello".data) ≠ "" ∧
    (performSafetyCheck asciiRuntime (String.mk (trim "hello".data))
      sampleProfile).1.needsIntervention = false ∧
    ∀ result : ReflectionResult,
      (generateReflectionResponse asciiRuntime sampleUpstream 1 Draw.zero sampleService "p1"
        (String.mk (trim "hello".data))).1 = .ok result →
      result.profileName = some (.str "Alex") :=
  have hp : mapGet sampleService.userProfiles "p1" = some sampleProfile := by
    simp [sampleService, mapGet]
  have hid : ("p1" : String) ≠ "" := by decide
  have ht : String.mk (trim "hello".data) ≠ "" := by decide
  have hi : (performSafetyCheck asciiRuntime (String.mk (trim "hello".data))
      sampleProfile).1.needsIntervention = false :=
    no_intervention_of_clear asciiRuntime _ sampleProfile
      (fun phrase hp hin =>
        absurd ((someIncluded_iff _ concerning).mpr ⟨phrase, hp, hin⟩) (by decide))
  ⟨hp, hid, ht, hi, fun result hres =>
    ((success_fields asciiRuntime sampleUpstream 1 Draw.zero 2 sampleService "p1" "hello"
      sampleProfile hp hid ht).1 hi result hres).2.2.1⟩

/-! ## The health route and the key check of the service -/

theorem generate_unconfigured (rt : Runtime) (up up' : Upstream) (now : Nat) (random : Draw)
    (s : Service) (profileId userMessage : String)
    (hk : s.apiKey = none ∨ ∃ key, s.apiKey = some key ∧ ¬ "sk-or-v1-".data <+: key.data) :
    generateReflectionResponse rt up' now random s profileId userMessage =
      generateReflectionResponse rt up now random s profileId userMessage := by
  cases hq : mapGet s.userProfiles profileId with
  | none =>
    rw [generate_not_found rt up now random s profileId userMessage hq,
      generate_not_found rt up' now random s profileId userMessage hq]
  | some target =>
    by_cases hi : (performSafetyCheck rt userMessage target).1.needsIntervention = true
    · rw [generate_escalation rt up now random s profileId userMessage target hq hi,
        generate_escalation rt up' now random s profileId userMessage target hq hi]
    · have hi' : (performSafetyCheck rt userMessage target).1.needsIntervention = false := by
        simpa using hi
      cases hb : buildReflectionPrompt target userMessage (detectMood rt userMessage)
          ((mapGet s.conversations profileId).getD []) with
      | error e =>
        rw [generate_failure rt up now random s profileId userMessage target e hq hi' hb,
          generate_failure rt up' now random s profileId userMessage target e hq hi' hb]
      | ok prompt =>
        rw [generate_normal rt up now random s profileId userMessage target prompt hq hi' hb,
          generate_normal rt up' now random s profileId userMessage target prompt hq hi' hb,
          generateReply_unconfigured up s target _ _ _ hk,
          generateReply_unconfigured up' s target _ _ _ hk]

theorem generateReply_configured (up : Upstream) (s : Service) (profile : Profile)
    (userMessage mood prompt key : String)
    (hkey : s.apiKey = some key) (hpre : "sk-or-v1-".data <+: key.data) :
    generateReply up s profile userMessage mood prompt =
      match up prompt with
      | .ok response => response
      | .error _ => generateFallbackResponse profile userMessage mood := by
  have hne : key ≠ "" := by
    rintro rfl
    have := List.IsPrefix.length_le hpre
    simp at this
  have hsw : startsWith key "sk-or-v1-" = true := by
    unfold startsWith
    exact List.isPrefixOf_iff_prefix.mpr hpre
  simp [generateReply, Service.hasApiKey, Service.isOpenRouterKey, hkey, hne, hsw]

theorem health_not_configured (key : Option String) (now : Nat) :
    (healthRoute key now).googleAI = "❌ Not configured" ↔ (key = none ∨ key = some "") := by
  cases key with
  | none => simp [healthRoute]
  | some k =>
    by_cases hk : k = ""
    · simp [healthRoute, hk]
    · simp only [healthRoute, bne_iff_ne, ne_eq, hk, not_false_eq_true, decide_True, if_true,
        Option.some.injEq, false_or, reduceCtorEq, iff_false]
      decide

/-- C26. The health route reports the upstream as connected for every
non-empty key and as not configured exactly when the key is unset or empty.
The service consults the upstream only for a key that starts with
`sk-or-v1-`: with such a key the reply is what the upstream returns (the
fallback text if it throws), and without it the outcome of
`generateReflectionResponse` is the same for every upstream and the reply is
the fallback text.  So for the key `AIzaSy-example` health reports connected
while every reply of a call that does not escalate is the fallback text; and
whenever health reports not configured, the outcome of a call does not depend
on the upstream. -/
theorem health_and_upstream (key : Option String) (now : Nat) :
    (∀ k : String, key = some k → k ≠ "" → (healthRoute key now).googleAI = "🤖 Connected") ∧
    ((healthRoute key now).googleAI = "❌ Not configured" ↔ (key = none ∨ key = some "")) ∧
    (∀ (s : Service) (k : String), s.apiKey = key → key = some k →
      "sk-or-v1-".data <+: k.data →
      (healthRoute key now).googleAI = "🤖 Connected" ∧
      ∀ (up : Upstream) (profile : Profile) (userMessage mood prompt : String),
        generateReply up s profile userMessage mood prompt =
          match up prompt with
          | .ok response => response
          | .error _ => generateFallbackResponse profile userMessage mood) ∧
    (∀ s : Service, s.apiKey = key →
      (∀ k : String, key = some k → ¬ "sk-or-v1-".data <+: k.data) →
      (∀ (up : Upstream) (profile : Profile) (userMessage mood prompt : String),
        generateReply up s profile userMessage mood prompt =
          generateFallbackResponse profile userMessage mood) ∧
      ∀ (rt : Runtime) (up up' : Upstream) (now' : Nat) (random : Draw)
        (profileId userMessage : String),
        generateReflectionResponse rt up' now' random s profileId userMessage =
          generateReflectionResponse rt up now' random s profileId userMessage) ∧
    ((healthRoute (some "AIzaSy-example") now).googleAI = "🤖 Connected" ∧
      ∀ (rt : Runtime) (up : Upstream) (now' : Nat) (random : Draw) (s : Service)
        (profileId userMessage : String) (profile : Profile) (result : ReflectionResult),
        s.apiKey = some "AIzaSy-example" →
        mapGet s.userProfiles profileId = some profile →
        (performSafetyCheck rt userMessage profile).1.needsIntervention = false →
        (generateReflectionResponse rt up now' random s profileId userMessage).1
          = .ok result →
        result.response =
          some (generateFallbackResponse profile userMessage (detectMood rt userMessage))) ∧
    ((healthRoute key now).googleAI = "❌ Not configured" →
      ∀ (rt : Runtime) (up up' : Upstream) (now' : Nat) (random : Draw) (s : Service)
        (profileId userMessage : String),
        s.apiKey = key →
        generateReflectionResponse rt up' now' random s profileId userMessage =
          generateReflectionResponse rt up now' random s profileId userMessage) := by
  have hunconf : ∀ s : Service, s.apiKey = key →
      (∀ k : String, key = some k → ¬ "sk-or-v1-".data <+: k.data) →
      (s.apiKey = none ∨ ∃ k, s.apiKey = some k ∧ ¬ "sk-or-v1-".data <+: k.data) := by
    intro s hs hno
    cases hkey : key with
    | none => exact Or.inl (by rw [hs, hkey])
    | some k => exact Or.inr ⟨k, by rw [hs, hkey], hno k hkey⟩
  have hconnected : ∀ k : String, key = some k → k ≠ "" →
      (healthRoute key now).googleAI = "🤖 Connected" := by
    intro k hk hne
    simp [healthRoute, hk, hne]
  refine ⟨hconnected, health_not_configured key now, ?_, ?_, ⟨by simp [healthRoute], ?_⟩, ?_⟩
  · intro s k hs hk hpre
    have hne : k ≠ "" := by
      rintro rfl
      have := List.IsPrefix.length_le hpre
      simp at this
    refine ⟨hconnected k hk hne, ?_⟩
    intro up profile userMessage mood prompt
    exact generateReply_configured up s profile userMessage mood prompt k
      (by rw [hs, hk]) hpre
  · intro s hs hno
    have hk := hunconf s hs hno
    exact ⟨fun up profile userMessage mood prompt =>
        generateReply_unconfigured up s profile userMessage mood prompt hk,
      fun rt up up' now' random profileId userMessage =>
        generate_unconfigured rt up up' now' random s profileId userMessage hk⟩
  · intro rt up now' random s profileId userMessage profile result hs hp hi hres
    obtain ⟨prompt, _, hresult⟩ := generate_result rt up now' random s profileId userMessage
      profile result hp hi hres
    rw [hresult]
    simp only
    rw [generateReply_unconfigured up s profile _ _ _
      (Or.inr ⟨"AIzaSy-example", hs, by decide⟩)]
  · intro hhealth rt up up' now' random s profileId userMessage hs
    have hkey := (health_not_configured key now).mp hhealth
    apply generate_unconfigured rt up up' now' random s profileId userMessage
    rcases hkey with h | h
    · exact Or.inl (by rw [hs, h])
    · exact Or.inr ⟨"", by rw [hs, h], by decide⟩

/-- C26 at the key `AIzaSy-example`: health reports connected, and the call
for the stored sample profile returns the fallback text although the upstream
would answer. -/
theorem health_and_upstream_witness :
    (healthRoute (some "AIzaSy-example") 0).googleAI = "🤖 Connected" ∧
    ∃ result : ReflectionResult,
      (generateReflectionResponse asciiRuntime sampleUpstream 1 Draw.zero googleKeyService "p1"
        "hello").1 = .ok result ∧
      result.response =
        some (generateFallbackResponse sampleProfile "hello"
          (detectMood asciiRuntime "hello")) :=
  have h := (health_and_upstream (some "AIzaSy-example") 0).2.2.2.2.1
  have hp : mapGet googleKeyService.userProfiles "p1" = some sampleProfile := by
    simp [googleKeyService, sampleService, mapGet]
  have hi : (performSafetyCheck asciiRuntime "hello" sampleProfile).1.needsIntervention
      = false :=
    no_intervention_of_clear asciiRuntime "hello" sampleProfile hello_clear
  match generate_returns asciiRuntime sampleUpstream 1 Draw.zero googleKeyService "p1" "hello"
    sampleProfile hp hi sampleProfile_renderable with
  | ⟨result, hres, _⟩ =>
    ⟨h.1, result, hres,
      h.2 asciiRuntime sampleUpstream 1 Draw.zero googleKeyService "p1" "hello" sampleProfile
        result rfl hp hi hres⟩

end BetterYourself
